import Mathlib

/-! Elmo Platinum drive (EPD) slave driver, `jsd_epd.c`.

A shallow embedding of the cyclic driver in `src/src/jsd_epd.c` and the
properties of it that the specification states.

Conventions of the embedding.

* One slave is modelled: `self->slave_states[slave_id].epd` together with the
  slave's emergency queue `self->slave_errors[slave_id]`.  The assertions on
  `self` and on the product code at the head of every entry point are
  preconditions on the caller and are not part of the state.
* What the bus owns is an input: the TxPDO image is an argument of
  `jsd_epd_read`, and the startup configuration runs over a bus context that
  holds the SDO transport and the list of the requests issued so far.
* The macros `JSD_EPD_NUM_DIGITAL_INPUTS` and `JSD_EPD_NUM_DIGITAL_OUTPUTS`,
  whose values the sources do not give, are arguments of the functions that
  use them.
* Fixed-width C integers are `Nat` / `Int`; a conversion that can leave the
  range is written out (`double_to_int16`, `double_to_uint16`,
  `double_to_uint32`).
* C `double` values (times in seconds, currents in amperes) are exact rationals
  `ℚ`: comparisons are those of the code, arithmetic is exact, IEEE rounding is
  not modelled.
* The two clocks are inputs: a function that reads a clock takes the value read
  as an argument.
* A failed `assert` is the result `none`.
* A history of the cyclic phase is a list of calls of the public operations,
  each with the frame and the clock values it reads (`jsd_epd_call`).
-/

namespace JsdEpd

/-! ## Letter-command resolver -/

/-- Pair of an Elmo letter command and the corresponding object dictionary
index (`jsd_epd_lc_pair_t`).  The C string `lc_chars` is the list of its
characters before the terminating NUL. -/
structure jsd_epd_lc_pair_t where
  lc_chars : List Char
  do_index : Nat
  deriving DecidableEq, Repr

/-- The table `jsd_epd_lc_lookup_table`, entry by entry in source order. -/
def jsd_epd_lc_lookup_table : List jsd_epd_lc_pair_t :=
  [ ⟨['A', 'C'], 0x300C⟩,
    ⟨['B', 'P'], 0x303D⟩,
    ⟨['C', 'A'], 0x3052⟩,
    ⟨['C', 'L'], 0x305D⟩,
    ⟨['D', 'C'], 0x3078⟩,
    ⟨['E', 'R'], 0x30AB⟩,
    ⟨['H', 'L'], 0x3111⟩,
    ⟨['L', 'L'], 0x31A1⟩,
    ⟨['M', 'C'], 0x31BC⟩,
    ⟨['P', 'L'], 0x3231⟩,
    ⟨['S', 'F'], 0x3297⟩,
    ⟨['U', 'M'], 0x32E6⟩ ]

/-- The C library `strcmp` on NUL-terminated strings: the difference of the
first pair of differing characters (compared as character codes), `0` when the
strings agree up to their terminator.  The end of a list stands for the
terminating NUL, and a NUL inside a list ends the string there. -/
def strcmp : List Char → List Char → Int
  | [], [] => 0
  | [], b :: _ => 0 - (b.toNat : Int)
  | a :: _, [] => (a.toNat : Int)
  | a :: as, b :: bs =>
    if a.toNat = b.toNat then
      (if a.toNat = 0 then 0 else strcmp as bs)
    else (a.toNat : Int) - (b.toNat : Int)

/-- The comparator `jsd_epd_compare_lc_keys`. -/
def jsd_epd_compare_lc_keys (lhs rhs : jsd_epd_lc_pair_t) : Int :=
  strcmp lhs.lc_chars rhs.lc_chars

/-- The loop of the C library `bsearch` over the window `[l, u)` of `base`:
probe the middle element, go left on a negative comparison, right on a positive
one, stop on zero.  `fuel` bounds the number of probes; the window shrinks at
every probe, so `u - l` probes are always enough. -/
def bsearch_loop (key : jsd_epd_lc_pair_t) (base : List jsd_epd_lc_pair_t)
    (compar : jsd_epd_lc_pair_t → jsd_epd_lc_pair_t → Int) :
    Nat → Nat → Nat → Option jsd_epd_lc_pair_t
  | 0, _, _ => none
  | fuel + 1, l, u =>
    if l < u then
      let idx := (l + u) / 2
      match base.get? idx with
      | none => none
      | some p =>
        let cmp := compar key p
        if cmp < 0 then bsearch_loop key base compar fuel l idx
        else if cmp > 0 then bsearch_loop key base compar fuel (idx + 1) u
        else some p
    else none

/-- The C library `bsearch` over all `nmemb` elements of `base`. -/
def bsearch (key : jsd_epd_lc_pair_t) (base : List jsd_epd_lc_pair_t) (nmemb : Nat)
    (compar : jsd_epd_lc_pair_t → jsd_epd_lc_pair_t → Int) : Option jsd_epd_lc_pair_t :=
  bsearch_loop key base compar nmemb 0 nmemb

/-- The function `jsd_epd_lc_to_do`: the object dictionary index of a letter
command, `0x0000` when the table has no such command. -/
def jsd_epd_lc_to_do (letter_command : List Char) : Nat :=
  let key : jsd_epd_lc_pair_t := { lc_chars := letter_command, do_index := 0 }
  match bsearch key jsd_epd_lc_lookup_table jsd_epd_lc_lookup_table.length
      jsd_epd_compare_lc_keys with
  | some found_pair => found_pair.do_index
  | none => 0x0000

/-! ## Constants

The header `jsd_epd_types.h` and SOEM's `ethercattype.h` are not among the
sources; the constants the driver takes from them are given here. -/

/-- The macro `JSD_EPD_MAX_ERROR_POPS_PER_CYCLE` at the head of `jsd_epd.c`. -/
def JSD_EPD_MAX_ERROR_POPS_PER_CYCLE : Nat := 5

/-- Modelled from the spec: the mask `JSD_EPD_STATE_MACHINE_STATE_BITMASK` of
the missing header `jsd_epd_types.h`; the spec gives it as `0x006F`. -/
def JSD_EPD_STATE_MACHINE_STATE_BITMASK : Nat := 0x006F

/-- Modelled from the spec: state value of the missing header
`jsd_epd_types.h`, the CiA-402 statusword pattern under the state mask. -/
def JSD_EPD_STATE_MACHINE_STATE_NOT_READY_TO_SWITCH_ON : Nat := 0x00

/-- Modelled from the spec: state value of the missing header
`jsd_epd_types.h`, the CiA-402 statusword pattern under the state mask. -/
def JSD_EPD_STATE_MACHINE_STATE_SWITCH_ON_DISABLED : Nat := 0x40

/-- Modelled from the spec: state value of the missing header
`jsd_epd_types.h`, the CiA-402 statusword pattern under the state mask. -/
def JSD_EPD_STATE_MACHINE_STATE_READY_TO_SWITCH_ON : Nat := 0x21

/-- Modelled from the spec: state value of the missing header
`jsd_epd_types.h`, the CiA-402 statusword pattern under the state mask. -/
def JSD_EPD_STATE_MACHINE_STATE_SWITCHED_ON : Nat := 0x23

/-- Modelled from the spec: state value of the missing header
`jsd_epd_types.h`, the CiA-402 statusword pattern under the state mask. -/
def JSD_EPD_STATE_MACHINE_STATE_OPERATION_ENABLED : Nat := 0x27

/-- Modelled from the spec: state value of the missing header
`jsd_epd_types.h`, the CiA-402 statusword pattern under the state mask. -/
def JSD_EPD_STATE_MACHINE_STATE_QUICK_STOP_ACTIVE : Nat := 0x07

/-- Modelled from the spec: state value of the missing header
`jsd_epd_types.h`, the CiA-402 statusword pattern under the state mask. -/
def JSD_EPD_STATE_MACHINE_STATE_FAULT_REACTION_ACTIVE : Nat := 0x0F

/-- Modelled from the spec: state value of the missing header
`jsd_epd_types.h`, the CiA-402 statusword pattern under the state mask. -/
def JSD_EPD_STATE_MACHINE_STATE_FAULT : Nat := 0x08

/-- Modelled from the spec: controlword of the missing header
`jsd_epd_types.h`, the CiA-402 standard value. -/
def JSD_EPD_STATE_MACHINE_CONTROLWORD_SHUTDOWN : Nat := 0x06

/-- Modelled from the spec: controlword of the missing header
`jsd_epd_types.h`, the CiA-402 standard value. -/
def JSD_EPD_STATE_MACHINE_CONTROLWORD_SWITCH_ON : Nat := 0x07

/-- Modelled from the spec: controlword of the missing header
`jsd_epd_types.h`, the CiA-402 standard value. -/
def JSD_EPD_STATE_MACHINE_CONTROLWORD_ENABLE_OPERATION : Nat := 0x0F

/-- Modelled from the spec: controlword of the missing header
`jsd_epd_types.h`, the CiA-402 standard value. -/
def JSD_EPD_STATE_MACHINE_CONTROLWORD_QUICK_STOP : Nat := 0x02

/-- Modelled from the spec: controlword of the missing header
`jsd_epd_types.h`, the CiA-402 standard value. -/
def JSD_EPD_STATE_MACHINE_CONTROLWORD_FAULT_RESET : Nat := 0x80

/-- Modelled from the spec: mode of operation of the missing header
`jsd_epd_types.h`, the CiA-402 value of object 0x6060. -/
def JSD_EPD_MODE_OF_OPERATION_DISABLED : Int := 0

/-- Modelled from the spec: mode of operation of the missing header
`jsd_epd_types.h`, the CiA-402 value of object 0x6060. -/
def JSD_EPD_MODE_OF_OPERATION_PROF_POS : Int := 1

/-- Modelled from the spec: mode of operation of the missing header
`jsd_epd_types.h`, the CiA-402 value of object 0x6060. -/
def JSD_EPD_MODE_OF_OPERATION_PROF_VEL : Int := 3

/-- Modelled from the spec: mode of operation of the missing header
`jsd_epd_types.h`, the CiA-402 value of object 0x6060. -/
def JSD_EPD_MODE_OF_OPERATION_PROF_TORQUE : Int := 4

/-- Modelled from the spec: mode of operation of the missing header
`jsd_epd_types.h`; the spec gives CSP as 8. -/
def JSD_EPD_MODE_OF_OPERATION_CSP : Int := 8

/-- Modelled from the spec: mode of operation of the missing header
`jsd_epd_types.h`, the CiA-402 value of object 0x6060. -/
def JSD_EPD_MODE_OF_OPERATION_CSV : Int := 9

/-- Modelled from the spec: mode of operation of the missing header
`jsd_epd_types.h`, the CiA-402 value of object 0x6060. -/
def JSD_EPD_MODE_OF_OPERATION_CST : Int := 10

/-- The kind `EC_ERR_TYPE_EMERGENCY` of SOEM's `ec_err_type`. -/
def EC_ERR_TYPE_EMERGENCY : Nat := 1

/-- Modelled from the spec: the macro `JSD_EPD_RESET_DERATE_SEC` of the missing
header `jsd_epd_types.h`; the reset scenario of the spec gives it as 1.0 s. -/
def JSD_EPD_RESET_DERATE_SEC : ℚ := 1

/-- The flag `ECT_COEDET_SDOCA` of SOEM's `ethercattype.h`: complete access is
supported. -/
def ECT_COEDET_SDOCA : Nat := 0x08

/-- The eight values of the enumeration `jsd_epd_state_machine_state_t`, the
case labels of the `switch` of `jsd_epd_process_state_machine`. -/
def jsd_epd_state_machine_states : List Nat :=
  [ JSD_EPD_STATE_MACHINE_STATE_NOT_READY_TO_SWITCH_ON,
    JSD_EPD_STATE_MACHINE_STATE_SWITCH_ON_DISABLED,
    JSD_EPD_STATE_MACHINE_STATE_READY_TO_SWITCH_ON,
    JSD_EPD_STATE_MACHINE_STATE_SWITCHED_ON,
    JSD_EPD_STATE_MACHINE_STATE_OPERATION_ENABLED,
    JSD_EPD_STATE_MACHINE_STATE_QUICK_STOP_ACTIVE,
    JSD_EPD_STATE_MACHINE_STATE_FAULT_REACTION_ACTIVE,
    JSD_EPD_STATE_MACHINE_STATE_FAULT ]

/-- The seven values of the enumeration `jsd_epd_mode_of_operation_t`, the case
labels of the `switch` of `jsd_epd_process_mode_of_operation`. -/
def jsd_epd_modes_of_operation : List Int :=
  [ JSD_EPD_MODE_OF_OPERATION_DISABLED,
    JSD_EPD_MODE_OF_OPERATION_PROF_POS,
    JSD_EPD_MODE_OF_OPERATION_PROF_VEL,
    JSD_EPD_MODE_OF_OPERATION_PROF_TORQUE,
    JSD_EPD_MODE_OF_OPERATION_CSP,
    JSD_EPD_MODE_OF_OPERATION_CSV,
    JSD_EPD_MODE_OF_OPERATION_CST ]

/-! ## Data model -/

/-- Modelled from the spec: the RxPDO frame `jsd_epd_rxpdo_data_t` of the
missing header, fields in wire order: i32, i32, i16, i32, i32, i16, i8, u16,
u32, u16. -/
structure jsd_epd_rxpdo_data_t where
  target_position : Int
  target_velocity : Int
  target_torque : Int
  position_offset : Int
  velocity_offset : Int
  torque_offset : Int
  mode_of_operation : Int
  max_current : Nat
  digital_outputs : Nat
  controlword : Nat
  deriving DecidableEq, Repr

/-- Modelled from the spec: the TxPDO frame `jsd_epd_txpdo_data_t` of the
missing header, fields in wire order: i32, i32, i16, i8, u32, i32, u32, u16,
u16, u32, u32, u16. -/
structure jsd_epd_txpdo_data_t where
  actual_position : Int
  velocity_actual_value : Int
  current_actual_value : Int
  mode_of_operation_display : Int
  dc_link_circuit_voltage : Nat
  drive_temperature_deg_c : Int
  digital_inputs : Nat
  analog_input_1 : Nat
  analog_input_2 : Nat
  status_register_1 : Nat
  status_register_2 : Nat
  statusword : Nat
  deriving DecidableEq, Repr

/-- Modelled from the spec: the CSP command `jsd_epd_motion_command_csp_t` of
the missing header. -/
structure jsd_epd_motion_command_csp_t where
  target_position : Int
  position_offset : Int
  velocity_offset : Int
  torque_offset_amps : ℚ
  deriving DecidableEq, Repr

/-- Modelled from the spec: the union `jsd_epd_motion_command_t` of the missing
header; `csp` is the only member the driver reads or writes. -/
structure jsd_epd_motion_command_t where
  csp : jsd_epd_motion_command_csp_t
  deriving DecidableEq, Repr

/-- Modelled from the spec: the public telemetry `jsd_epd_state_t` of the
missing header. -/
structure jsd_epd_state_t where
  actual_position : Int
  actual_velocity : Int
  actual_current : ℚ
  cmd_position : Int
  cmd_velocity : Int
  cmd_current : ℚ
  cmd_ff_position : Int
  cmd_ff_velocity : Int
  cmd_ff_current : ℚ
  cmd_max_current : ℚ
  actual_mode_of_operation : Int
  actual_state_machine_state : Nat
  warning : Nat
  target_reached : Nat
  servo_enabled : Nat
  sto_engaged : Nat
  motor_on : Nat
  in_motion : Nat
  hall_state : Nat
  digital_inputs : List Nat
  bus_voltage : ℚ
  analog_input_voltage : ℚ
  analog_input_adc : Nat
  drive_temperature : Int
  emcy_error_code : Nat
  deriving DecidableEq, Repr

/-- Modelled from the spec: the private state `jsd_epd_private_state_t` of the
missing header. -/
structure jsd_epd_private_state_t where
  pub : jsd_epd_state_t
  txpdo : jsd_epd_txpdo_data_t
  rxpdo : jsd_epd_rxpdo_data_t
  last_reset_time : ℚ
  last_state_machine_state : Nat
  fault_real_time : ℚ
  fault_mono_time : ℚ
  new_reset : Bool
  new_halt_command : Bool
  new_motion_command : Bool
  requested_mode_of_operation : Int
  motion_command : jsd_epd_motion_command_t
  motor_rated_current : Nat
  fault_occured_when_enabled : Nat
  interlock : Nat
  deriving DecidableEq, Repr

/-- An entry `ec_errort` of the emergency queue, with the fields the driver
reads.  `Time` is the event time in seconds, the value
`ectime_to_sec(error.Time)` that the driver compares with `fault_real_time`. -/
structure ec_errort where
  Time : ℚ
  Etype : Nat
  ErrorCode : Nat
  deriving DecidableEq, Repr

/-- The part of `jsd_t` that belongs to one EPD slave: its private state
`slave_states[slave_id].epd`, its emergency queue `slave_errors[slave_id]`
(front of the queue first) and its output image
`ecx_context.slavelist[slave_id].outputs`. -/
structure jsd_t where
  epd : jsd_epd_private_state_t
  slave_errors : List ec_errort
  outputs : jsd_epd_rxpdo_data_t
  deriving DecidableEq, Repr

/-- Modelled from the spec: the host configuration `jsd_epd_config_t` of the
missing header, with the options the spec lists.  The `float` and `double`
options are rationals. -/
structure jsd_epd_config_t where
  continuous_current_limit : ℚ
  peak_current_limit : ℚ
  peak_current_time : ℚ
  max_profile_accel : ℚ
  max_profile_decel : ℚ
  velocity_tracking_error : ℚ
  position_tracking_error : ℚ
  motor_stuck_current_level_pct : ℚ
  motor_stuck_velocity_threshold : ℚ
  motor_stuck_timeout : ℚ
  over_speed_threshold : ℚ
  low_position_limit : ℚ
  high_position_limit : ℚ
  brake_engage_msec : Int
  brake_disengage_msec : Int
  loop_period_ms : Nat
  torque_slope : ℚ
  max_motor_speed : ℚ
  smooth_factor : Int

/-- The part of `jsd_slave_config_t` the driver uses: the EPD options and the
flag `PO2SO_success`. -/
structure jsd_slave_config_t where
  epd : jsd_epd_config_t
  PO2SO_success : Bool

/-- The part of SOEM's slave descriptor `ec_slavet` that `jsd_epd_init` writes:
the CoE details byte, the LRW block flag, and whether the hook `PO2SOconfigx`
points at `jsd_epd_PO2SO_config`. -/
structure ec_slavet where
  CoEdetails : Nat
  blockLRW : Nat
  PO2SOconfigx_set : Bool
  deriving DecidableEq, Repr

/-- Modelled from the spec: the payload types of the SDO transport, the
enumeration `jsd_sdo_data_type_t` of the missing header `jsd_sdo.h`. -/
inductive jsd_sdo_data_type_t
  | JSD_SDO_DATA_I8
  | JSD_SDO_DATA_I16
  | JSD_SDO_DATA_I32
  | JSD_SDO_DATA_I64
  | JSD_SDO_DATA_U8
  | JSD_SDO_DATA_U16
  | JSD_SDO_DATA_U32
  | JSD_SDO_DATA_FLOAT
  | JSD_SDO_DATA_DOUBLE
  deriving DecidableEq, Repr

/-- A request to the SDO transport: a typed write of a value, a typed read, or a
complete-access write of an array of 16-bit words of `param_size` bytes.  The
value of a write is a rational, whatever the payload type. -/
inductive sdo_request
  | set_param (index subindex : Nat) (data_type : jsd_sdo_data_type_t) (value : ℚ)
  | get_param (index subindex : Nat) (data_type : jsd_sdo_data_type_t)
  | set_ca_param (index subindex : Nat) (param_size : Nat) (param : List Nat)
  deriving DecidableEq, Repr

/-- The bus context `ecx_contextt` as the startup configuration sees it: the
transport and the requests issued so far, oldest first.  The transport `sdo`
answers a request issued after the given earlier ones: `none` when the
transfer fails, otherwise the value read (for a write the value is not
used). -/
structure ecx_contextt where
  sdo : List sdo_request → sdo_request → Option ℚ
  sdo_log : List sdo_request

/-- Modelled from the spec: `jsd_sdo_set_param_blocking` of the missing
`jsd_sdo.c`, a blocking typed write that reports success or failure. -/
def jsd_sdo_set_param_blocking (ecx : ecx_contextt) (index subindex : Nat)
    (data_type : jsd_sdo_data_type_t) (value : ℚ) : Bool × ecx_contextt :=
  ((ecx.sdo ecx.sdo_log (sdo_request.set_param index subindex data_type value)).isSome,
   { ecx with
     sdo_log := ecx.sdo_log ++ [sdo_request.set_param index subindex data_type value] })

/-- Modelled from the spec: `jsd_sdo_get_param_blocking` of the missing
`jsd_sdo.c`, a blocking typed read: `none` on failure, otherwise the value
read. -/
def jsd_sdo_get_param_blocking (ecx : ecx_contextt) (index subindex : Nat)
    (data_type : jsd_sdo_data_type_t) : Option ℚ × ecx_contextt :=
  (ecx.sdo ecx.sdo_log (sdo_request.get_param index subindex data_type),
   { ecx with sdo_log := ecx.sdo_log ++ [sdo_request.get_param index subindex data_type] })

/-- Modelled from the spec: `jsd_sdo_set_ca_param_blocking` of the missing
`jsd_sdo.c`, a blocking complete-access write that reports success or
failure. -/
def jsd_sdo_set_ca_param_blocking (ecx : ecx_contextt) (index subindex : Nat)
    (param_size : Nat) (param : List Nat) : Bool × ecx_contextt :=
  ((ecx.sdo ecx.sdo_log (sdo_request.set_ca_param index subindex param_size param)).isSome,
   { ecx with
     sdo_log :=
       ecx.sdo_log ++ [sdo_request.set_ca_param index subindex param_size param] })

/-- Modelled from the spec: `jsd_error_cirq_pop` of the missing
`jsd_error_cirq.c`, the pop of a FIFO queue: `none` when the queue is empty,
otherwise the entry at the front and the queue behind it. -/
def jsd_error_cirq_pop : List ec_errort → Option (ec_errort × List ec_errort)
  | [] => none
  | error :: rest => some (error, rest)

/-! ## Conversions from `double` -/

/-- Conversion of a `double` to an integer type discards the fractional part
(truncation toward zero). -/
def double_trunc (x : ℚ) : Int :=
  if 0 ≤ x then Int.floor x else Int.ceil x

/-- The value of a `double` stored into an `int16_t`.  Outside the range of
`int16_t` the C conversion is undefined; the model wraps modulo `2 ^ 16`. -/
def double_to_int16 (x : ℚ) : Int :=
  (double_trunc x + 2 ^ 15) % 2 ^ 16 - 2 ^ 15

/-- The value of a `double` stored into a `uint16_t`.  Outside the range of
`uint16_t` the C conversion is undefined; the model wraps modulo `2 ^ 16`. -/
def double_to_uint16 (x : ℚ) : Nat :=
  (double_trunc x % 2 ^ 16).toNat

/-- The value of a `double` stored into a `uint32_t`.  Outside the range of
`uint32_t` the C conversion is undefined; the model wraps modulo `2 ^ 32`. -/
def double_to_uint32 (x : ℚ) : Nat :=
  (double_trunc x % 2 ^ 32).toNat

/-! ## Public functions -/

/-- The function `jsd_epd_halt`: raise the halt flag. -/
def jsd_epd_halt (self : jsd_t) : jsd_t :=
  { self with epd.new_halt_command := true }

/-- The function `jsd_epd_set_motion_command_csp`: raise the motion flag,
request CSP and store the command. -/
def jsd_epd_set_motion_command_csp (self : jsd_t)
    (motion_command : jsd_epd_motion_command_csp_t) : jsd_t :=
  { self with
    epd.new_motion_command := true
    epd.requested_mode_of_operation := JSD_EPD_MODE_OF_OPERATION_CSP
    epd.motion_command.csp := motion_command }

/-- The function `jsd_epd_reset`.  `now` is the value
`jsd_time_get_mono_time_sec()` returns.  The reset is latched when more than
`JSD_EPD_RESET_DERATE_SEC` have passed since the last latched one; otherwise
the source logs a warning and changes nothing. -/
def jsd_epd_reset (self : jsd_t) (now : ℚ) : jsd_t :=
  if now - self.epd.last_reset_time > JSD_EPD_RESET_DERATE_SEC then
    { self with epd.new_reset := true, epd.last_reset_time := now }
  else self

/-- The function `jsd_epd_set_digital_output`.  The first argument is the macro
`JSD_EPD_NUM_DIGITAL_OUTPUTS` of the missing header; `index` and `output` are
the `uint8_t` arguments.  The result is `none` when `assert(index <
JSD_EPD_NUM_DIGITAL_OUTPUTS)` fails.  The mask `~(0x01 << (16 + index))` is
taken in 32 bits. -/
def jsd_epd_set_digital_output (JSD_EPD_NUM_DIGITAL_OUTPUTS : Nat) (self : jsd_t)
    (index output : Nat) : Option jsd_t :=
  if index < JSD_EPD_NUM_DIGITAL_OUTPUTS then
    if output > 0 then
      some { self with
        epd.rxpdo.digital_outputs :=
          self.epd.rxpdo.digital_outputs ||| (0x01 <<< (16 + index)) }
    else
      some { self with
        epd.rxpdo.digital_outputs :=
          self.epd.rxpdo.digital_outputs &&& (0xFFFFFFFF ^^^ (0x01 <<< (16 + index))) }
  else none

/-- The function `jsd_epd_set_peak_current`: stage
`peak_current * 1e6 / motor_rated_current` in the `uint16_t` field
`max_current`. -/
def jsd_epd_set_peak_current (self : jsd_t) (peak_current : ℚ) : jsd_t :=
  { self with
    epd.rxpdo.max_current :=
      double_to_uint16 (peak_current * 1000000 / self.epd.motor_rated_current) }

/-! ## Private functions -/

/-- The function `jsd_epd_mode_of_op_handle_csp`: stage the stored CSP command
in the RxPDO.  The torque offset is
`torque_offset_amps * 1e6 / motor_rated_current` stored into an `int16_t`. -/
def jsd_epd_mode_of_op_handle_csp (self : jsd_t) : jsd_t :=
  let cmd := self.epd.motion_command
  { self with
    epd.rxpdo.target_position := cmd.csp.target_position
    epd.rxpdo.position_offset := cmd.csp.position_offset
    epd.rxpdo.target_velocity := 0
    epd.rxpdo.velocity_offset := cmd.csp.velocity_offset
    epd.rxpdo.target_torque := 0
    epd.rxpdo.torque_offset :=
      double_to_int16 (cmd.csp.torque_offset_amps * 1000000 / self.epd.motor_rated_current)
    epd.rxpdo.mode_of_operation := JSD_EPD_MODE_OF_OPERATION_CSP }

/-- The function `jsd_epd_process_mode_of_operation`: the `switch` over the
requested mode.  Only CSP has a handler; the other six modes leave the state as
it is (the source logs an error), and the `default` branch ends in `assert(0)`. -/
def jsd_epd_process_mode_of_operation (self : jsd_t) : Option jsd_t :=
  let mode := self.epd.requested_mode_of_operation
  if mode = JSD_EPD_MODE_OF_OPERATION_DISABLED then some self
  else if mode = JSD_EPD_MODE_OF_OPERATION_PROF_POS then some self
  else if mode = JSD_EPD_MODE_OF_OPERATION_PROF_VEL then some self
  else if mode = JSD_EPD_MODE_OF_OPERATION_PROF_TORQUE then some self
  else if mode = JSD_EPD_MODE_OF_OPERATION_CSP then some (jsd_epd_mode_of_op_handle_csp self)
  else if mode = JSD_EPD_MODE_OF_OPERATION_CSV then some self
  else if mode = JSD_EPD_MODE_OF_OPERATION_CST then some self
  else none

/-- The `while` loop of the FAULT case of `jsd_epd_process_state_machine`.  The
first argument is the number of pops still allowed,
`JSD_EPD_MAX_ERROR_POPS_PER_CYCLE - num_error_pops`; the loop ends when it is
`0` (before any pop), when `jsd_error_cirq_pop` finds the queue empty, or at the
`break` after a popped entry that is later than `fault_real_time` and of kind
EMERGENCY.  The result is the state after the loop and `error_found`. -/
def jsd_epd_fault_pop_loop : Nat → jsd_t → jsd_t × Bool
  | 0, self => (self, false)
  | pops_left + 1, self =>
    match jsd_error_cirq_pop self.slave_errors with
    | none => (self, false)
    | some (error, rest) =>
      let self := { self with slave_errors := rest }
      if error.Time > self.epd.fault_real_time then
        if error.Etype = EC_ERR_TYPE_EMERGENCY then
          ({ self with
             epd.pub.emcy_error_code := error.ErrorCode
             epd.rxpdo.controlword := JSD_EPD_STATE_MACHINE_CONTROLWORD_FAULT_RESET }, true)
        else jsd_epd_fault_pop_loop pops_left self
      else jsd_epd_fault_pop_loop pops_left self

/-- The `switch` of `jsd_epd_process_state_machine` over the observed state,
up to the end of the `switch`.  `mono_now` is the value
`jsd_time_get_mono_time_sec()` returns in the FAULT case.  The `default` branch
ends in `assert(0)`. -/
def jsd_epd_process_state_machine_switch (self : jsd_t) (mono_now : ℚ) : Option jsd_t :=
  let state := self.epd.pub.actual_state_machine_state
  if state = JSD_EPD_STATE_MACHINE_STATE_NOT_READY_TO_SWITCH_ON then some self
  else if state = JSD_EPD_STATE_MACHINE_STATE_SWITCH_ON_DISABLED then
    some { self with epd.rxpdo.controlword := JSD_EPD_STATE_MACHINE_CONTROLWORD_SHUTDOWN }
  else if state = JSD_EPD_STATE_MACHINE_STATE_READY_TO_SWITCH_ON then
    some { self with epd.rxpdo.controlword := JSD_EPD_STATE_MACHINE_CONTROLWORD_SWITCH_ON }
  else if state = JSD_EPD_STATE_MACHINE_STATE_SWITCHED_ON then
    if self.epd.new_reset then
      let self := { self with
        epd.rxpdo.controlword := JSD_EPD_STATE_MACHINE_CONTROLWORD_ENABLE_OPERATION
        epd.requested_mode_of_operation := JSD_EPD_MODE_OF_OPERATION_PROF_POS }
      some { self with
        epd.rxpdo.mode_of_operation := self.epd.requested_mode_of_operation
        epd.new_reset := false }
    else some self
  else if state = JSD_EPD_STATE_MACHINE_STATE_OPERATION_ENABLED then
    let self := { self with epd.pub.emcy_error_code := 0 }
    if self.epd.new_halt_command then
      let self := { self with
        epd.new_reset := false
        epd.rxpdo.controlword := JSD_EPD_STATE_MACHINE_CONTROLWORD_QUICK_STOP
        epd.requested_mode_of_operation := JSD_EPD_MODE_OF_OPERATION_PROF_POS }
      some { self with epd.rxpdo.mode_of_operation := self.epd.requested_mode_of_operation }
    else
      jsd_epd_process_mode_of_operation
        { self with
          epd.rxpdo.controlword := JSD_EPD_STATE_MACHINE_CONTROLWORD_ENABLE_OPERATION }
  else if state = JSD_EPD_STATE_MACHINE_STATE_QUICK_STOP_ACTIVE then some self
  else if state = JSD_EPD_STATE_MACHINE_STATE_FAULT_REACTION_ACTIVE then some self
  else if state = JSD_EPD_STATE_MACHINE_STATE_FAULT then
    let after_loop := jsd_epd_fault_pop_loop JSD_EPD_MAX_ERROR_POPS_PER_CYCLE self
    let self := after_loop.1
    let error_found := after_loop.2
    if !error_found && decide (mono_now > 1 + self.epd.fault_mono_time) then
      some { self with
        epd.pub.emcy_error_code := 0xFFFF
        epd.rxpdo.controlword := JSD_EPD_STATE_MACHINE_CONTROLWORD_FAULT_RESET }
    else some self
  else none

/-- The function `jsd_epd_process_state_machine`: the `switch` over the observed
state, then the two flags cleared at the end of every cycle. -/
def jsd_epd_process_state_machine (self : jsd_t) (mono_now : ℚ) : Option jsd_t :=
  match jsd_epd_process_state_machine_switch self mono_now with
  | none => none
  | some self =>
    some { self with epd.new_motion_command := false, epd.new_halt_command := false }

/-- The function `jsd_epd_process`: run the state machine, then copy the RxPDO
into the slave's output image. -/
def jsd_epd_process (self : jsd_t) (mono_now : ℚ) : Option jsd_t :=
  match jsd_epd_process_state_machine self mono_now with
  | none => none
  | some self => some { self with outputs := self.epd.rxpdo }

/-- The function `jsd_epd_init`.  The result is the return value and the
slave state, slave configuration and slave descriptor after the call.  The
writes before the check of `motor_rated_current` stay when the function
returns `false`. -/
def jsd_epd_init (self : jsd_t) (config : jsd_slave_config_t) (slave : ec_slavet) :
    Bool × jsd_t × jsd_slave_config_t × ec_slavet :=
  let config := { config with PO2SO_success := false }
  let slave := { slave with CoEdetails := slave.CoEdetails &&& (0xFF ^^^ ECT_COEDET_SDOCA) }
  let slave := { slave with PO2SOconfigx_set := true }
  let slave := { slave with blockLRW := 1 }
  let self := { self with epd.last_reset_time := 0 }
  let self := { self with
    epd.motor_rated_current := double_to_uint32 (config.epd.continuous_current_limit * 1000) }
  if self.epd.motor_rated_current = 0 then (false, self, config, slave)
  else
    let self := jsd_epd_set_peak_current self config.epd.peak_current_limit
    let self := { self with epd.pub.emcy_error_code := 0 }
    (true, self, config, slave)

/-- The function `jsd_epd_update_state_from_PDO_data`.  The first argument is
the macro `JSD_EPD_NUM_DIGITAL_INPUTS` of the missing header; `real_now` and
`mono_now` are the values `jsd_time_get_time_sec()` and
`jsd_time_get_mono_time_sec()` return.  The second component of the result
tells whether `jsd_sdo_signal_emcy_check` was called. -/
def jsd_epd_update_state_from_PDO_data (JSD_EPD_NUM_DIGITAL_INPUTS : Nat) (self : jsd_t)
    (real_now mono_now : ℚ) : jsd_t × Bool :=
  let state := self.epd
  let actual_state_machine_state :=
    state.txpdo.statusword &&& JSD_EPD_STATE_MACHINE_STATE_BITMASK
  let fault_entered : Bool :=
    decide (actual_state_machine_state ≠ state.last_state_machine_state) &&
      decide (actual_state_machine_state = JSD_EPD_STATE_MACHINE_STATE_FAULT)
  let pub : jsd_epd_state_t :=
    { state.pub with
      actual_position := state.txpdo.actual_position
      actual_velocity := state.txpdo.velocity_actual_value
      actual_current :=
        (state.txpdo.current_actual_value : ℚ) * state.motor_rated_current / 1000000
      cmd_position := state.rxpdo.target_position
      cmd_velocity := state.rxpdo.target_velocity
      cmd_current := (state.rxpdo.target_torque : ℚ) * state.motor_rated_current / 1000000
      cmd_ff_position := state.rxpdo.position_offset
      cmd_ff_velocity := state.rxpdo.velocity_offset
      cmd_ff_current := (state.rxpdo.torque_offset : ℚ) * state.motor_rated_current / 1000000
      cmd_max_current := (state.rxpdo.max_current : ℚ) * state.motor_rated_current / 1000000
      actual_mode_of_operation := state.txpdo.mode_of_operation_display
      actual_state_machine_state := actual_state_machine_state
      warning := state.txpdo.statusword >>> 7 &&& 0x01
      target_reached := state.txpdo.statusword >>> 10 &&& 0x01
      servo_enabled := state.txpdo.status_register_1 >>> 4 &&& 0x01
      sto_engaged :=
        if (state.txpdo.status_register_1 >>> 25 &&& 0x01) &&&
            (state.txpdo.status_register_1 >>> 26 &&& 0x01) = 0 then 1 else 0
      motor_on := state.txpdo.status_register_1 >>> 22 &&& 0x01
      in_motion := state.txpdo.status_register_1 >>> 23 &&& 0x01
      hall_state := state.txpdo.status_register_2 >>> 0 &&& 0x07
      digital_inputs :=
        (List.range JSD_EPD_NUM_DIGITAL_INPUTS).map
          (fun i => state.txpdo.digital_inputs >>> (16 + i) &&& 0x01)
      bus_voltage := (state.txpdo.dc_link_circuit_voltage : ℚ) / 1000
      analog_input_voltage := (state.txpdo.analog_input_1 : ℚ) / 1000
      analog_input_adc := state.txpdo.analog_input_2
      drive_temperature := state.txpdo.drive_temperature_deg_c }
  let state : jsd_epd_private_state_t :=
    { state with
      pub := pub
      fault_real_time := if fault_entered then real_now else state.fault_real_time
      fault_mono_time := if fault_entered then mono_now else state.fault_mono_time
      last_state_machine_state := actual_state_machine_state
      fault_occured_when_enabled := state.txpdo.status_register_1 >>> 6 &&& 0x01
      interlock := state.txpdo.digital_inputs >>> 3 &&& 0x01 }
  ({ self with epd := state }, fault_entered)

/-- The function `jsd_epd_read`: copy the TxPDO from the slave's input image
`inputs`, then decode it.  The arguments and the result are those of
`jsd_epd_update_state_from_PDO_data`. -/
def jsd_epd_read (JSD_EPD_NUM_DIGITAL_INPUTS : Nat) (self : jsd_t)
    (inputs : jsd_epd_txpdo_data_t) (real_now mono_now : ℚ) : jsd_t × Bool :=
  jsd_epd_update_state_from_PDO_data JSD_EPD_NUM_DIGITAL_INPUTS
    { self with epd.txpdo := inputs } real_now mono_now

/-- The array `map_output_pdos_1602` of `jsd_epd_config_PDO_mapping`. -/
def map_output_pdos_1602 : List Nat :=
  [ 0x0008,
    0x0020, 0x607A,
    0x0020, 0x60FF,
    0x0010, 0x6071,
    0x0020, 0x60B0,
    0x0020, 0x60B1,
    0x0010, 0x60B2,
    0x0008, 0x6060,
    0x0010, 0x6073 ]

/-- The array `map_output_pdos_1603` of `jsd_epd_config_PDO_mapping`. -/
def map_output_pdos_1603 : List Nat :=
  [ 0x0002,
    0x0120, 0x60FE,
    0x0010, 0x6040 ]

/-- The array `map_output_RxPDO` of `jsd_epd_config_PDO_mapping`. -/
def map_output_RxPDO : List Nat := [0x0002, 0x1602, 0x1603]

/-- The array `map_input_pdos_1a02` of `jsd_epd_config_PDO_mapping`. -/
def map_input_pdos_1a02 : List Nat :=
  [ 0x0008,
    0x0020, 0x6064,
    0x0020, 0x6069,
    0x0010, 0x6078,
    0x0008, 0x6061,
    0x0020, 0x6079,
    0x0020, 0x3610,
    0x0020, 0x60FD,
    0x0110, 0x2205 ]

/-- The array `map_input_pdos_1a03` of `jsd_epd_config_PDO_mapping`. -/
def map_input_pdos_1a03 : List Nat :=
  [ 0x0004,
    0x0210, 0x2205,
    0x0120, 0x3607,
    0x0220, 0x3607,
    0x0010, 0x6041 ]

/-- The array `map_input_TxPDO` of `jsd_epd_config_PDO_mapping`. -/
def map_input_TxPDO : List Nat := [0x0002, 0x1A02, 0x1A03]

/-- The function `jsd_epd_config_PDO_mapping`: six complete-access writes, each
returning 0 at once when it fails.  `sizeof` of an array of `uint16_t` is twice
its length. -/
def jsd_epd_config_PDO_mapping (ecx : ecx_contextt) : Int × ecx_contextt :=
  let r := jsd_sdo_set_ca_param_blocking ecx 0x1602 0x00
    (2 * map_output_pdos_1602.length) map_output_pdos_1602
  if !r.1 then (0, r.2) else
  let r := jsd_sdo_set_ca_param_blocking r.2 0x1603 0x00
    (2 * map_output_pdos_1603.length) map_output_pdos_1603
  if !r.1 then (0, r.2) else
  let r := jsd_sdo_set_ca_param_blocking r.2 0x1C12 0x00
    (2 * map_output_RxPDO.length) map_output_RxPDO
  if !r.1 then (0, r.2) else
  let r := jsd_sdo_set_ca_param_blocking r.2 0x1A02 0x00
    (2 * map_input_pdos_1a02.length) map_input_pdos_1a02
  if !r.1 then (0, r.2) else
  let r := jsd_sdo_set_ca_param_blocking r.2 0x1A03 0x00
    (2 * map_input_pdos_1a03.length) map_input_pdos_1a03
  if !r.1 then (0, r.2) else
  let r := jsd_sdo_set_ca_param_blocking r.2 0x1C13 0x00
    (2 * map_input_TxPDO.length) map_input_TxPDO
  if !r.1 then (0, r.2) else
  (1, r.2)

/-- The function `jsd_epd_config_COE_params`.  The locals `loop_period_ms`
(`uint8_t`), `motor_rated_current`, `torque_slope` and `max_motor_speed_rpm`
(`uint32_t`) are converted as they are declared; `ca_18` is the value read from
CA[18]. -/
def jsd_epd_config_COE_params (ecx : ecx_contextt) (config : jsd_slave_config_t) :
    Int × ecx_contextt :=
  let controlword : Int := JSD_EPD_MODE_OF_OPERATION_PROF_POS
  let r := jsd_sdo_set_param_blocking ecx 0x6060 0x00
    jsd_sdo_data_type_t.JSD_SDO_DATA_I8 controlword
  if !r.1 then (0, r.2) else
  let pos_opt_code : Nat := 0x02
  let r := jsd_sdo_set_param_blocking r.2 0x60F2 0x00
    jsd_sdo_data_type_t.JSD_SDO_DATA_U16 pos_opt_code
  if !r.1 then (0, r.2) else
  let loop_period_ms : Nat := config.epd.loop_period_ms % 256
  let r := jsd_sdo_set_param_blocking r.2 0x60C2 1
    jsd_sdo_data_type_t.JSD_SDO_DATA_U8 loop_period_ms
  if !r.1 then (0, r.2) else
  let extra_cycles : Int := 5
  let r := jsd_sdo_set_param_blocking r.2 0x3675 0
    jsd_sdo_data_type_t.JSD_SDO_DATA_I16 extra_cycles
  if !r.1 then (0, r.2) else
  let quick_stop_opt_code : Int := 2
  let r := jsd_sdo_set_param_blocking r.2 0x605A 0
    jsd_sdo_data_type_t.JSD_SDO_DATA_I16 quick_stop_opt_code
  if !r.1 then (0, r.2) else
  let motor_rated_current : Nat :=
    double_to_uint32 (config.epd.continuous_current_limit * 1000)
  let r := jsd_sdo_set_param_blocking r.2 0x6075 0
    jsd_sdo_data_type_t.JSD_SDO_DATA_U32 motor_rated_current
  if !r.1 then (0, r.2) else
  let torque_slope : Nat :=
    double_to_uint32 (config.epd.torque_slope * 1000000 / motor_rated_current)
  let r := jsd_sdo_set_param_blocking r.2 0x6087 0
    jsd_sdo_data_type_t.JSD_SDO_DATA_U32 torque_slope
  if !r.1 then (0, r.2) else
  let g := jsd_sdo_get_param_blocking r.2 (jsd_epd_lc_to_do ['C', 'A']) 18
    jsd_sdo_data_type_t.JSD_SDO_DATA_I64
  match g.1 with
  | none => (0, g.2)
  | some ca_18 =>
    if config.epd.max_motor_speed < 0 then (0, g.2) else
    let max_motor_speed_rpm : Nat :=
      double_to_uint32 (config.epd.max_motor_speed / ca_18 * 60)
    let r := jsd_sdo_set_param_blocking g.2 0x6080 0
      jsd_sdo_data_type_t.JSD_SDO_DATA_U32 max_motor_speed_rpm
    if !r.1 then (0, r.2) else
    (1, r.2)

/-- The function `jsd_epd_config_LC_params`: sixteen letter-command writes,
the read of MC[1] with the two checks of the current limits, and the read of
UM[1]. -/
def jsd_epd_config_LC_params (ecx : ecx_contextt) (config : jsd_slave_config_t) :
    Int × ecx_contextt :=
  let r := jsd_sdo_set_param_blocking ecx (jsd_epd_lc_to_do ['A', 'C']) 1
    jsd_sdo_data_type_t.JSD_SDO_DATA_DOUBLE config.epd.max_profile_accel
  if !r.1 then (0, r.2) else
  let r := jsd_sdo_set_param_blocking r.2 (jsd_epd_lc_to_do ['D', 'C']) 1
    jsd_sdo_data_type_t.JSD_SDO_DATA_DOUBLE config.epd.max_profile_decel
  if !r.1 then (0, r.2) else
  let r := jsd_sdo_set_param_blocking r.2 (jsd_epd_lc_to_do ['E', 'R']) 2
    jsd_sdo_data_type_t.JSD_SDO_DATA_DOUBLE config.epd.velocity_tracking_error
  if !r.1 then (0, r.2) else
  let r := jsd_sdo_set_param_blocking r.2 (jsd_epd_lc_to_do ['E', 'R']) 3
    jsd_sdo_data_type_t.JSD_SDO_DATA_DOUBLE config.epd.position_tracking_error
  if !r.1 then (0, r.2) else
  let r := jsd_sdo_set_param_blocking r.2 (jsd_epd_lc_to_do ['P', 'L']) 2
    jsd_sdo_data_type_t.JSD_SDO_DATA_FLOAT config.epd.peak_current_time
  if !r.1 then (0, r.2) else
  let r := jsd_sdo_set_param_blocking r.2 (jsd_epd_lc_to_do ['P', 'L']) 1
    jsd_sdo_data_type_t.JSD_SDO_DATA_FLOAT config.epd.peak_current_limit
  if !r.1 then (0, r.2) else
  let r := jsd_sdo_set_param_blocking r.2 (jsd_epd_lc_to_do ['C', 'L']) 1
    jsd_sdo_data_type_t.JSD_SDO_DATA_FLOAT config.epd.continuous_current_limit
  if !r.1 then (0, r.2) else
  let r := jsd_sdo_set_param_blocking r.2 (jsd_epd_lc_to_do ['C', 'L']) 2
    jsd_sdo_data_type_t.JSD_SDO_DATA_FLOAT config.epd.motor_stuck_current_level_pct
  if !r.1 then (0, r.2) else
  let r := jsd_sdo_set_param_blocking r.2 (jsd_epd_lc_to_do ['C', 'L']) 3
    jsd_sdo_data_type_t.JSD_SDO_DATA_FLOAT config.epd.motor_stuck_velocity_threshold
  if !r.1 then (0, r.2) else
  let r := jsd_sdo_set_param_blocking r.2 (jsd_epd_lc_to_do ['C', 'L']) 4
    jsd_sdo_data_type_t.JSD_SDO_DATA_FLOAT config.epd.motor_stuck_timeout
  if !r.1 then (0, r.2) else
  let r := jsd_sdo_set_param_blocking r.2 (jsd_epd_lc_to_do ['H', 'L']) 2
    jsd_sdo_data_type_t.JSD_SDO_DATA_DOUBLE config.epd.over_speed_threshold
  if !r.1 then (0, r.2) else
  let r := jsd_sdo_set_param_blocking r.2 (jsd_epd_lc_to_do ['L', 'L']) 3
    jsd_sdo_data_type_t.JSD_SDO_DATA_DOUBLE config.epd.low_position_limit
  if !r.1 then (0, r.2) else
  let r := jsd_sdo_set_param_blocking r.2 (jsd_epd_lc_to_do ['H', 'L']) 3
    jsd_sdo_data_type_t.JSD_SDO_DATA_DOUBLE config.epd.high_position_limit
  if !r.1 then (0, r.2) else
  let r := jsd_sdo_set_param_blocking r.2 (jsd_epd_lc_to_do ['B', 'P']) 1
    jsd_sdo_data_type_t.JSD_SDO_DATA_I16 config.epd.brake_engage_msec
  if !r.1 then (0, r.2) else
  let r := jsd_sdo_set_param_blocking r.2 (jsd_epd_lc_to_do ['B', 'P']) 2
    jsd_sdo_data_type_t.JSD_SDO_DATA_I16 config.epd.brake_disengage_msec
  if !r.1 then (0, r.2) else
  let r := jsd_sdo_set_param_blocking r.2 (jsd_epd_lc_to_do ['S', 'F']) 1
    jsd_sdo_data_type_t.JSD_SDO_DATA_I64 config.epd.smooth_factor
  if !r.1 then (0, r.2) else
  let g := jsd_sdo_get_param_blocking r.2 (jsd_epd_lc_to_do ['M', 'C']) 1
    jsd_sdo_data_type_t.JSD_SDO_DATA_FLOAT
  match g.1 with
  | none => (0, g.2)
  | some drive_max_current =>
    if config.epd.peak_current_limit > drive_max_current then (0, g.2) else
    if config.epd.continuous_current_limit > config.epd.peak_current_limit then (0, g.2) else
    let u := jsd_sdo_get_param_blocking g.2 (jsd_epd_lc_to_do ['U', 'M']) 1
      jsd_sdo_data_type_t.JSD_SDO_DATA_I16
    match u.1 with
    | none => (0, u.2)
    | some _ => (1, u.2)

/-- The function `jsd_epd_PO2SO_config`.  `config` is the entry of the slave in
the array behind `ecx_context->userdata`.  The result is the return value, the
bus context and the slave configuration after the call. -/
def jsd_epd_PO2SO_config (ecx : ecx_contextt) (config : jsd_slave_config_t) :
    Int × ecx_contextt × jsd_slave_config_t :=
  let r := jsd_epd_config_PDO_mapping ecx
  if r.1 = 0 then (0, r.2, config) else
  let r := jsd_epd_config_COE_params r.2 config
  if r.1 = 0 then (0, r.2, config) else
  let r := jsd_epd_config_LC_params r.2 config
  if r.1 = 0 then (0, r.2, config) else
  (1, r.2, { config with PO2SO_success := true })

/-! ## The startup schedule -/

/-- The kind of an SDO request. -/
inductive sdo_kind
  | set
  | get
  | set_ca
  deriving DecidableEq, Repr

/-- Where an SDO request goes: its kind, object index and sub-index. -/
structure sdo_address where
  kind : sdo_kind
  index : Nat
  subindex : Nat
  deriving DecidableEq, Repr

/-- The address of a request. -/
def sdo_request.address : sdo_request → sdo_address
  | sdo_request.set_param index subindex _ _ => ⟨sdo_kind.set, index, subindex⟩
  | sdo_request.get_param index subindex _ => ⟨sdo_kind.get, index, subindex⟩
  | sdo_request.set_ca_param index subindex _ _ => ⟨sdo_kind.set_ca, index, subindex⟩

/-- Every request of the list succeeds, each one issued after `log` and the
requests before it. -/
def sdo_all_succeed (sdo : List sdo_request → sdo_request → Option ℚ) :
    List sdo_request → List sdo_request → Bool
  | _, [] => true
  | log, request :: rest =>
    (sdo log request).isSome && sdo_all_succeed sdo (log ++ [request]) rest

/-- The PDO mapping stage as the spec lists it: 0x1602, 0x1603, 0x1C12, then
0x1A02, 0x1A03, 0x1C13. -/
def jsd_epd_PDO_mapping_schedule : List sdo_address :=
  [ ⟨sdo_kind.set_ca, 0x1602, 0⟩, ⟨sdo_kind.set_ca, 0x1603, 0⟩, ⟨sdo_kind.set_ca, 0x1C12, 0⟩,
    ⟨sdo_kind.set_ca, 0x1A02, 0⟩, ⟨sdo_kind.set_ca, 0x1A03, 0⟩, ⟨sdo_kind.set_ca, 0x1C13, 0⟩ ]

/-- The CiA-402 stage as the spec lists it: 0x6060, 0x60F2, 0x60C2:01, 0x3675,
0x605A, 0x6075, 0x6087, the read of CA[18] (0x3052:18), 0x6080. -/
def jsd_epd_COE_schedule : List sdo_address :=
  [ ⟨sdo_kind.set, 0x6060, 0⟩, ⟨sdo_kind.set, 0x60F2, 0⟩, ⟨sdo_kind.set, 0x60C2, 1⟩,
    ⟨sdo_kind.set, 0x3675, 0⟩, ⟨sdo_kind.set, 0x605A, 0⟩, ⟨sdo_kind.set, 0x6075, 0⟩,
    ⟨sdo_kind.set, 0x6087, 0⟩, ⟨sdo_kind.get, 0x3052, 18⟩, ⟨sdo_kind.set, 0x6080, 0⟩ ]

/-- The letter-command stage as the spec lists it: AC[1], DC[1], ER[2], ER[3],
PL[2], PL[1], CL[1..4], HL[2], LL[3], HL[3], BP[1..2], SF[1], then the reads of
MC[1] and UM[1]; indices as in the letter-command table. -/
def jsd_epd_LC_schedule : List sdo_address :=
  [ ⟨sdo_kind.set, 0x300C, 1⟩, ⟨sdo_kind.set, 0x3078, 1⟩, ⟨sdo_kind.set, 0x30AB, 2⟩,
    ⟨sdo_kind.set, 0x30AB, 3⟩, ⟨sdo_kind.set, 0x3231, 2⟩, ⟨sdo_kind.set, 0x3231, 1⟩,
    ⟨sdo_kind.set, 0x305D, 1⟩, ⟨sdo_kind.set, 0x305D, 2⟩, ⟨sdo_kind.set, 0x305D, 3⟩,
    ⟨sdo_kind.set, 0x305D, 4⟩, ⟨sdo_kind.set, 0x3111, 2⟩, ⟨sdo_kind.set, 0x31A1, 3⟩,
    ⟨sdo_kind.set, 0x3111, 3⟩, ⟨sdo_kind.set, 0x303D, 1⟩, ⟨sdo_kind.set, 0x303D, 2⟩,
    ⟨sdo_kind.set, 0x3297, 1⟩, ⟨sdo_kind.get, 0x31BC, 1⟩, ⟨sdo_kind.get, 0x32E6, 1⟩ ]

/-- The context `ecx'` is `ecx` after a run of requests that all succeeded and
whose addresses are `done`. -/
def sdo_ran (ecx ecx' : ecx_contextt) (done : List sdo_address) : Prop :=
  ∃ issued, ecx' = { ecx with sdo_log := ecx.sdo_log ++ issued } ∧
    issued.map sdo_request.address = done ∧
    sdo_all_succeed ecx.sdo ecx.sdo_log issued = true

/-- The result `res` of a startup stage run from `ecx` follows `schedule`: the
requests it issued go to an initial segment of the schedule, in order; all of
them but possibly the last succeeded; the return value is 0 or 1, and it is 1
only when the whole schedule was issued and every request succeeded. -/
def sdo_stage (ecx : ecx_contextt) (res : Int × ecx_contextt)
    (schedule : List sdo_address) : Prop :=
  ∃ issued, res.2 = { ecx with sdo_log := ecx.sdo_log ++ issued } ∧
    issued.map sdo_request.address <+: schedule ∧
    sdo_all_succeed ecx.sdo ecx.sdo_log issued.dropLast = true ∧
    (res.1 = 1 → issued.map sdo_request.address = schedule ∧
      sdo_all_succeed ecx.sdo ecx.sdo_log issued = true) ∧
    (res.1 = 0 ∨ res.1 = 1)

/-! ## States used in the examples -/

/-- The all-zero RxPDO. -/
def rxpdo_zero : jsd_epd_rxpdo_data_t :=
  { target_position := 0, target_velocity := 0, target_torque := 0, position_offset := 0,
    velocity_offset := 0, torque_offset := 0, mode_of_operation := 0, max_current := 0,
    digital_outputs := 0, controlword := 0 }

/-- The all-zero TxPDO. -/
def txpdo_zero : jsd_epd_txpdo_data_t :=
  { actual_position := 0, velocity_actual_value := 0, current_actual_value := 0,
    mode_of_operation_display := 0, dc_link_circuit_voltage := 0,
    drive_temperature_deg_c := 0, digital_inputs := 0, analog_input_1 := 0,
    analog_input_2 := 0, status_register_1 := 0, status_register_2 := 0, statusword := 0 }

/-- The all-zero public telemetry. -/
def pub_zero : jsd_epd_state_t :=
  { actual_position := 0, actual_velocity := 0, actual_current := 0, cmd_position := 0,
    cmd_velocity := 0, cmd_current := 0, cmd_ff_position := 0, cmd_ff_velocity := 0,
    cmd_ff_current := 0, cmd_max_current := 0, actual_mode_of_operation := 0,
    actual_state_machine_state := 0, warning := 0, target_reached := 0, servo_enabled := 0,
    sto_engaged := 0, motor_on := 0, in_motion := 0, hall_state := 0, digital_inputs := [],
    bus_voltage := 0, analog_input_voltage := 0, analog_input_adc := 0,
    drive_temperature := 0, emcy_error_code := 0 }

/-- A slave of the scenarios of the spec: everything zero except
`motor_rated_current = 10000` mA. -/
def slave_10000 : jsd_t :=
  { epd :=
      { pub := pub_zero, txpdo := txpdo_zero, rxpdo := rxpdo_zero, last_reset_time := 0,
        last_state_machine_state := 0, fault_real_time := 0, fault_mono_time := 0,
        new_reset := false, new_halt_command := false, new_motion_command := false,
        requested_mode_of_operation := 0,
        motion_command := { csp := { target_position := 0, position_offset := 0,
                                     velocity_offset := 0, torque_offset_amps := 0 } },
        motor_rated_current := 10000, fault_occured_when_enabled := 0, interlock := 0 },
    slave_errors := [],
    outputs := rxpdo_zero }

/-- The scenario slave observed in the given state. -/
def slave_in_state (state : Nat) : jsd_t :=
  { slave_10000 with epd.pub.actual_state_machine_state := state }

/-- The scenario slave in OPERATION_ENABLED with a halt and a reset pending,
a motion command raised and CSP requested. -/
def slave_halt_and_reset : jsd_t :=
  { slave_in_state JSD_EPD_STATE_MACHINE_STATE_OPERATION_ENABLED with
    epd.new_halt_command := true
    epd.new_reset := true
    epd.new_motion_command := true
    epd.requested_mode_of_operation := JSD_EPD_MODE_OF_OPERATION_CSP }

/-- The scenario "fault with EMCY" of the spec: the slave observed in FAULT,
entered at wall-clock time 100.0 and monotonic time 50.0, with one emergency of
time 100.5 and code 0x7380 in the queue. -/
def slave_fault_emcy : jsd_t :=
  { slave_in_state JSD_EPD_STATE_MACHINE_STATE_FAULT with
    epd.fault_real_time := 100
    epd.fault_mono_time := 50
    slave_errors := [{ Time := 201 / 2, Etype := EC_ERR_TYPE_EMERGENCY, ErrorCode := 0x7380 }] }

/-- The CSP command of the scenario "CSP command round-trip" of the spec. -/
def csp_command_scenario : jsd_epd_motion_command_csp_t :=
  { target_position := 123456, position_offset := 10, velocity_offset := 20,
    torque_offset_amps := 1 }

/-- The scenario slave in SWITCH_ON_DISABLED with a reset latched. -/
def slave_reset_latched : jsd_t :=
  { slave_in_state JSD_EPD_STATE_MACHINE_STATE_SWITCH_ON_DISABLED with epd.new_reset := true }

/-- A host configuration with the currents of the scenarios of the spec:
10 A continuous (a motor rated current of 10000 mA) and 12.5 A peak. -/
def config_scenario : jsd_slave_config_t :=
  { epd :=
      { continuous_current_limit := 10, peak_current_limit := 25 / 2, peak_current_time := 1,
        max_profile_accel := 0, max_profile_decel := 0, velocity_tracking_error := 0,
        position_tracking_error := 0, motor_stuck_current_level_pct := 0,
        motor_stuck_velocity_threshold := 0, motor_stuck_timeout := 0,
        over_speed_threshold := 0, low_position_limit := 0, high_position_limit := 0,
        brake_engage_msec := 0, brake_disengage_msec := 0, loop_period_ms := 1,
        torque_slope := 0, max_motor_speed := 1000, smooth_factor := 0 },
    PO2SO_success := false }

/-- A slave descriptor as SOEM leaves it after enumeration, complete access
advertised. -/
def slave_descriptor_scenario : ec_slavet :=
  { CoEdetails := 0x0F, blockLRW := 0, PO2SOconfigx_set := false }

/-- The scenario slave right after `jsd_epd_init`. -/
def slave_initialized : jsd_t :=
  (jsd_epd_init slave_10000 config_scenario slave_descriptor_scenario).2.1

/-- The scenario slave with digital outputs 0 and 2 on (bits 16 and 18). -/
def slave_digital_outputs : jsd_t :=
  { slave_10000 with epd.rxpdo.digital_outputs := 0x00050000 }

/-- A transport that answers every request: MC[1] reads 20 A, every other
read gives 4096 (so CA[18] is 4096 counts per revolution). -/
def sdo_scenario : List sdo_request → sdo_request → Option ℚ :=
  fun _ request =>
    if request =
        sdo_request.get_param 0x31BC 1 jsd_sdo_data_type_t.JSD_SDO_DATA_FLOAT then some 20
    else some 4096

/-- A bus context over the answering transport, nothing issued yet. -/
def ecx_answering : ecx_contextt := { sdo := sdo_scenario, sdo_log := [] }

/-- A bus context whose every transfer fails, nothing issued yet. -/
def ecx_failing : ecx_contextt := { sdo := fun _ _ => none, sdo_log := [] }

/-- The scenario configuration after a startup configuration that succeeded. -/
def config_configured : jsd_slave_config_t :=
  { config_scenario with PO2SO_success := true }

/-! ## Subsets of the modes of operation -/

/-- The six modes of operation without a handler: the seven modes but CSP. -/
def jsd_epd_modes_not_implemented : List Int :=
  [ JSD_EPD_MODE_OF_OPERATION_DISABLED,
    JSD_EPD_MODE_OF_OPERATION_PROF_POS,
    JSD_EPD_MODE_OF_OPERATION_PROF_VEL,
    JSD_EPD_MODE_OF_OPERATION_PROF_TORQUE,
    JSD_EPD_MODE_OF_OPERATION_CSV,
    JSD_EPD_MODE_OF_OPERATION_CST ]

/-- The modes the driver itself requests: the zero-initialised DISABLED, and
PROF_POS and CSP. -/
def jsd_epd_modes_requested : List Int :=
  [ JSD_EPD_MODE_OF_OPERATION_DISABLED,
    JSD_EPD_MODE_OF_OPERATION_PROF_POS,
    JSD_EPD_MODE_OF_OPERATION_CSP ]

/-! ## The entries of a PDO mapping object -/

/-- One entry of a PDO mapping object. -/
structure pdo_mapping_entry where
  bit_length : Nat
  subindex : Nat
  index : Nat
  deriving DecidableEq, Repr

/-- The entries of a PDO mapping array behind its leading count word, two 16-bit
words each: the bit length of the mapped object is the low byte of the first
word, its sub-index the high byte, its object index the second word. -/
def pdo_mapping_entries : List Nat → List pdo_mapping_entry
  | first :: second :: rest =>
    { bit_length := first % 256, subindex := first / 256, index := second } ::
      pdo_mapping_entries rest
  | _ => []

/-- The bit lengths of the entries of a PDO mapping array, in order. -/
def pdo_mapping_bit_lengths (map : List Nat) : List Nat :=
  (pdo_mapping_entries map.tail).map pdo_mapping_entry.bit_length

/-- Modelled from the spec: the widths in bits of the fields of the RxPDO frame
`jsd_epd_rxpdo_data_t` of the missing header, in wire order: i32, i32, i16,
i32, i32, i16, i8, u16, u32, u16. -/
def jsd_epd_rxpdo_field_widths : List Nat := [32, 32, 16, 32, 32, 16, 8, 16, 32, 16]

/-- Modelled from the spec: the widths in bits of the fields of the TxPDO frame
`jsd_epd_txpdo_data_t` of the missing header, in wire order: i32, i32, i16, i8,
u32, i32, u32, u16, u16, u32, u32, u16. -/
def jsd_epd_txpdo_field_widths : List Nat :=
  [32, 32, 16, 8, 32, 32, 32, 16, 16, 32, 32, 16]

/-! ## The FAULT loop as the spec counts it -/

/-- The test of the FAULT loop on a popped entry: it is later than
`fault_real_time` and of kind EMERGENCY. -/
def jsd_epd_emcy_matches (fault_real_time : ℚ) (error : ec_errort) : Bool :=
  decide (error.Time > fault_real_time) && decide (error.Etype = EC_ERR_TYPE_EMERGENCY)

/-- The number of entries one cycle in FAULT removes from a queue, as the spec
bounds it: the least of the queue length, `JSD_EPD_MAX_ERROR_POPS_PER_CYCLE`
and the position of the first matching entry, counted from 1 (beyond the queue
when no entry matches). -/
def jsd_epd_drain_count (fault_real_time : ℚ) (queue : List ec_errort) : Nat :=
  min (min queue.length JSD_EPD_MAX_ERROR_POPS_PER_CYCLE)
    (queue.findIdx (jsd_epd_emcy_matches fault_real_time) + 1)

/-! ## Sequences of public calls -/

/-- A call of one of the public operations of the cyclic phase, with its
arguments; `read` carries the TxPDO image and the two clock values it reads,
`process` and `reset` the monotonic clock value they read. -/
inductive jsd_epd_call
  | read (inputs : jsd_epd_txpdo_data_t) (real_now mono_now : ℚ)
  | process (mono_now : ℚ)
  | reset (now : ℚ)
  | halt
  | set_digital_output (index output : Nat)
  | set_peak_current (peak_current : ℚ)
  | set_motion_command_csp (motion_command : jsd_epd_motion_command_csp_t)

/-- The slave after one call; `none` when the call ends in a failed
assertion.  The first two arguments are the macros
`JSD_EPD_NUM_DIGITAL_INPUTS` and `JSD_EPD_NUM_DIGITAL_OUTPUTS`. -/
def jsd_epd_call_run (JSD_EPD_NUM_DIGITAL_INPUTS JSD_EPD_NUM_DIGITAL_OUTPUTS : Nat)
    (self : jsd_t) : jsd_epd_call → Option jsd_t
  | jsd_epd_call.read inputs real_now mono_now =>
    some (jsd_epd_read JSD_EPD_NUM_DIGITAL_INPUTS self inputs real_now mono_now).1
  | jsd_epd_call.process mono_now => jsd_epd_process self mono_now
  | jsd_epd_call.reset now => some (jsd_epd_reset self now)
  | jsd_epd_call.halt => some (jsd_epd_halt self)
  | jsd_epd_call.set_digital_output index output =>
    jsd_epd_set_digital_output JSD_EPD_NUM_DIGITAL_OUTPUTS self index output
  | jsd_epd_call.set_peak_current peak_current =>
    some (jsd_epd_set_peak_current self peak_current)
  | jsd_epd_call.set_motion_command_csp motion_command =>
    some (jsd_epd_set_motion_command_csp self motion_command)

/-- The slave after a sequence of calls, first call first; `none` when one of
them ends in a failed assertion. -/
def jsd_epd_calls_run (JSD_EPD_NUM_DIGITAL_INPUTS JSD_EPD_NUM_DIGITAL_OUTPUTS : Nat) :
    jsd_t → List jsd_epd_call → Option jsd_t
  | self, [] => some self
  | self, call :: rest =>
    match jsd_epd_call_run JSD_EPD_NUM_DIGITAL_INPUTS JSD_EPD_NUM_DIGITAL_OUTPUTS self call with
    | none => none
    | some self =>
      jsd_epd_calls_run JSD_EPD_NUM_DIGITAL_INPUTS JSD_EPD_NUM_DIGITAL_OUTPUTS self rest

/-! ## More states used in the examples -/

/-- The scenario configuration with a negative maximum motor speed. -/
def config_negative_speed : jsd_slave_config_t :=
  { config_scenario with epd.max_motor_speed := -1 }

/-- The scenario slave in OPERATION_ENABLED with a CSP command staged in the
RxPDO by an earlier cycle and profiled torque requested now. -/
def slave_prof_torque_requested : jsd_t :=
  { slave_in_state JSD_EPD_STATE_MACHINE_STATE_OPERATION_ENABLED with
    epd.rxpdo.target_position := 123456
    epd.rxpdo.position_offset := 10
    epd.rxpdo.velocity_offset := 20
    epd.rxpdo.torque_offset := 100
    epd.rxpdo.mode_of_operation := JSD_EPD_MODE_OF_OPERATION_CSP
    epd.requested_mode_of_operation := JSD_EPD_MODE_OF_OPERATION_PROF_TORQUE }

/-- A TxPDO frame, all zero but the given statusword. -/
def txpdo_statusword (statusword : Nat) : jsd_epd_txpdo_data_t :=
  { txpdo_zero with statusword := statusword }

/-- The scenario "fault with EMCY" with five earlier entries in front of the
emergency: four of another kind and one emergency from before the fault. -/
def slave_fault_emcy_sixth : jsd_t :=
  { slave_fault_emcy with
    slave_errors :=
      [ { Time := 101, Etype := 0, ErrorCode := 1 },
        { Time := 101, Etype := 0, ErrorCode := 2 },
        { Time := 99, Etype := EC_ERR_TYPE_EMERGENCY, ErrorCode := 3 },
        { Time := 101, Etype := 0, ErrorCode := 4 },
        { Time := 101, Etype := 0, ErrorCode := 5 },
        { Time := 201 / 2, Etype := EC_ERR_TYPE_EMERGENCY, ErrorCode := 0x7380 } ] }

/-! ## Letter-command resolver: proofs -/

theorem char_eq_of_toNat_eq (c d : Char) (h : c.toNat = d.toNat) : c = d := by
  apply Char.ext
  apply UInt32.ext
  simpa [Char.toNat, UInt32.toNat] using h

/-- A binary search over a table none of whose elements compares equal to the
key finds nothing, whatever the window and the number of probes. -/
theorem bsearch_loop_none (key : jsd_epd_lc_pair_t) (base : List jsd_epd_lc_pair_t)
    (compar : jsd_epd_lc_pair_t → jsd_epd_lc_pair_t → Int)
    (h : ∀ p ∈ base, compar key p ≠ 0) :
    ∀ fuel l u, bsearch_loop key base compar fuel l u = none := by
  intro fuel
  induction fuel with
  | zero => intro l u; rfl
  | succ n ih =>
    intro l u
    rw [bsearch_loop]
    by_cases hlu : l < u
    · simp only [hlu, if_true]
      cases hg : base.get? ((l + u) / 2) with
      | none => rfl
      | some p =>
        have hp : compar key p ≠ 0 := h p (List.get?_mem hg)
        by_cases h1 : compar key p < 0
        · simp only [h1, if_true, ih]
        · by_cases h2 : compar key p > 0
          · simp only [h1, h2, if_true, if_false, ih]
          · omega
    · simp only [hlu, if_false]

/-- Two 2-character strings that `strcmp` finds equal are the same string, when
the second has no NUL in it. -/
theorem strcmp_two_eq_zero (c1 c2 a b : Char) (ha : a.toNat ≠ 0) (hb : b.toNat ≠ 0)
    (h : strcmp [c1, c2] [a, b] = 0) : c1 = a ∧ c2 = b := by
  simp only [strcmp] at h
  split at h
  · rename_i h1
    split at h
    · omega
    · split at h
      · rename_i h2
        exact ⟨char_eq_of_toNat_eq _ _ h1, char_eq_of_toNat_eq _ _ h2⟩
      · omega
  · omega

theorem jsd_epd_lc_to_do_miss (c1 c2 : Char)
    (h : [c1, c2] ∉ jsd_epd_lc_lookup_table.map jsd_epd_lc_pair_t.lc_chars) :
    jsd_epd_lc_to_do [c1, c2] = 0x0000 := by
  have hne : ∀ p ∈ jsd_epd_lc_lookup_table,
      jsd_epd_compare_lc_keys { lc_chars := [c1, c2], do_index := 0 } p ≠ 0 := by
    intro p hp h0
    apply h
    simp only [jsd_epd_lc_lookup_table, List.mem_cons, List.mem_nil_iff, or_false] at hp
    simp only [jsd_epd_compare_lc_keys] at h0
    rcases hp with rfl | rfl | rfl | rfl | rfl | rfl | rfl | rfl | rfl | rfl | rfl | rfl <;>
    · obtain ⟨rfl, rfl⟩ := strcmp_two_eq_zero _ _ _ _ (by decide) (by decide) h0
      decide
  simp only [jsd_epd_lc_to_do, bsearch, bsearch_loop_none _ _ _ hne]

/-- C1: the letter-command table is strictly increasing by mnemonic in the
order of `strcmp`; `jsd_epd_lc_to_do` returns the listed index for each of the
12 mnemonics, and `0x0000` for every other 2-character key. -/
theorem jsd_epd_lc_to_do_spec :
    jsd_epd_lc_lookup_table.Pairwise (fun l r => jsd_epd_compare_lc_keys l r < 0)
    ∧ jsd_epd_lc_lookup_table.map jsd_epd_lc_pair_t.lc_chars =
        [['A', 'C'], ['B', 'P'], ['C', 'A'], ['C', 'L'], ['D', 'C'], ['E', 'R'],
         ['H', 'L'], ['L', 'L'], ['M', 'C'], ['P', 'L'], ['S', 'F'], ['U', 'M']]
    ∧ jsd_epd_lc_to_do ['A', 'C'] = 0x300C
    ∧ jsd_epd_lc_to_do ['B', 'P'] = 0x303D
    ∧ jsd_epd_lc_to_do ['C', 'A'] = 0x3052
    ∧ jsd_epd_lc_to_do ['C', 'L'] = 0x305D
    ∧ jsd_epd_lc_to_do ['D', 'C'] = 0x3078
    ∧ jsd_epd_lc_to_do ['E', 'R'] = 0x30AB
    ∧ jsd_epd_lc_to_do ['H', 'L'] = 0x3111
    ∧ jsd_epd_lc_to_do ['L', 'L'] = 0x31A1
    ∧ jsd_epd_lc_to_do ['M', 'C'] = 0x31BC
    ∧ jsd_epd_lc_to_do ['P', 'L'] = 0x3231
    ∧ jsd_epd_lc_to_do ['S', 'F'] = 0x3297
    ∧ jsd_epd_lc_to_do ['U', 'M'] = 0x32E6
    ∧ ∀ c1 c2 : Char,
        [c1, c2] ∉ jsd_epd_lc_lookup_table.map jsd_epd_lc_pair_t.lc_chars →
        jsd_epd_lc_to_do [c1, c2] = 0x0000 := by
  refine ⟨by decide, by decide, by decide, by decide, by decide, by decide, by decide,
    by decide, by decide, by decide, by decide, by decide, by decide, by decide, ?_⟩
  exact jsd_epd_lc_to_do_miss

/-- The key `ZZ` is not a letter command of the table: the lookup misses. -/
theorem jsd_epd_lc_to_do_spec_witness :
    ['Z', 'Z'] ∉ jsd_epd_lc_lookup_table.map jsd_epd_lc_pair_t.lc_chars
    ∧ jsd_epd_lc_to_do ['Z', 'Z'] = 0x0000 :=
  ⟨by decide, jsd_epd_lc_to_do_spec.2.2.2.2.2.2.2.2.2.2.2.2.2.2 'Z' 'Z' (by decide)⟩


/-! ## The FAULT loop -/

/-- When the queue is `pre ++ e :: post`, with `e` an emergency later than
`fault_real_time`, no such entry in `pre` and `pre` shorter than the number of
pops allowed, the loop stops at `e`: it records the code of `e`, stages
FAULT_RESET, leaves `post` in the queue and reports `error_found = true`. -/
theorem jsd_epd_fault_pop_loop_match :
    ∀ (n : Nat) (epd : jsd_epd_private_state_t) (pre : List ec_errort) (e : ec_errort)
      (post : List ec_errort) (out : jsd_epd_rxpdo_data_t),
      pre.length < n →
      (∀ x ∈ pre, ¬ (x.Time > epd.fault_real_time ∧ x.Etype = EC_ERR_TYPE_EMERGENCY)) →
      e.Time > epd.fault_real_time → e.Etype = EC_ERR_TYPE_EMERGENCY →
      jsd_epd_fault_pop_loop n { epd := epd, slave_errors := pre ++ e :: post, outputs := out } =
        ({ epd := { epd with
                    pub.emcy_error_code := e.ErrorCode
                    rxpdo.controlword := JSD_EPD_STATE_MACHINE_CONTROLWORD_FAULT_RESET },
           slave_errors := post, outputs := out }, true) := by
  intro n
  induction n with
  | zero => intro epd pre e post out hlen; omega
  | succ n ih =>
    intro epd pre e post out hlen hpre ht hk
    cases pre with
    | nil =>
      simp only [jsd_epd_fault_pop_loop, jsd_error_cirq_pop, List.nil_append, ht, hk,
        if_true]
    | cons x pre =>
      have hx := hpre x (by simp)
      have hpre2 : ∀ y ∈ pre,
          ¬ (y.Time > epd.fault_real_time ∧ y.Etype = EC_ERR_TYPE_EMERGENCY) := by
        intro y hy
        exact hpre y (by simp [hy])
      have hlen2 : pre.length < n := by simp at hlen; omega
      simp only [jsd_epd_fault_pop_loop, jsd_error_cirq_pop, List.cons_append]
      by_cases h1 : x.Time > epd.fault_real_time
      · have h2 : ¬ x.Etype = EC_ERR_TYPE_EMERGENCY := fun h2 => hx ⟨h1, h2⟩
        simp only [h1, h2, if_true, if_false]
        exact ih epd pre e post out hlen2 hpre2 ht hk
      · simp only [h1, if_false]
        exact ih epd pre e post out hlen2 hpre2 ht hk


/-- The NOT_READY_TO_SWITCH_ON case of the `switch`. -/
theorem jsd_epd_process_state_machine_switch_not_ready (self : jsd_t) (mono_now : ℚ)
    (h : self.epd.pub.actual_state_machine_state = JSD_EPD_STATE_MACHINE_STATE_NOT_READY_TO_SWITCH_ON) :
    jsd_epd_process_state_machine_switch self mono_now =
      some self := by
  unfold jsd_epd_process_state_machine_switch
  simp only [h, JSD_EPD_STATE_MACHINE_STATE_FAULT,
    JSD_EPD_STATE_MACHINE_STATE_NOT_READY_TO_SWITCH_ON,
    JSD_EPD_STATE_MACHINE_STATE_SWITCH_ON_DISABLED,
    JSD_EPD_STATE_MACHINE_STATE_READY_TO_SWITCH_ON,
    JSD_EPD_STATE_MACHINE_STATE_SWITCHED_ON,
    JSD_EPD_STATE_MACHINE_STATE_OPERATION_ENABLED,
    JSD_EPD_STATE_MACHINE_STATE_QUICK_STOP_ACTIVE,
    JSD_EPD_STATE_MACHINE_STATE_FAULT_REACTION_ACTIVE, Nat.reduceEqDiff, if_true, if_false]

/-- The SWITCH_ON_DISABLED case of the `switch`. -/
theorem jsd_epd_process_state_machine_switch_switch_on_disabled (self : jsd_t) (mono_now : ℚ)
    (h : self.epd.pub.actual_state_machine_state = JSD_EPD_STATE_MACHINE_STATE_SWITCH_ON_DISABLED) :
    jsd_epd_process_state_machine_switch self mono_now =
      some { self with epd.rxpdo.controlword := JSD_EPD_STATE_MACHINE_CONTROLWORD_SHUTDOWN } := by
  unfold jsd_epd_process_state_machine_switch
  simp only [h, JSD_EPD_STATE_MACHINE_STATE_FAULT,
    JSD_EPD_STATE_MACHINE_STATE_NOT_READY_TO_SWITCH_ON,
    JSD_EPD_STATE_MACHINE_STATE_SWITCH_ON_DISABLED,
    JSD_EPD_STATE_MACHINE_STATE_READY_TO_SWITCH_ON,
    JSD_EPD_STATE_MACHINE_STATE_SWITCHED_ON,
    JSD_EPD_STATE_MACHINE_STATE_OPERATION_ENABLED,
    JSD_EPD_STATE_MACHINE_STATE_QUICK_STOP_ACTIVE,
    JSD_EPD_STATE_MACHINE_STATE_FAULT_REACTION_ACTIVE, Nat.reduceEqDiff, if_true, if_false]

/-- The READY_TO_SWITCH_ON case of the `switch`. -/
theorem jsd_epd_process_state_machine_switch_ready (self : jsd_t) (mono_now : ℚ)
    (h : self.epd.pub.actual_state_machine_state = JSD_EPD_STATE_MACHINE_STATE_READY_TO_SWITCH_ON) :
    jsd_epd_process_state_machine_switch self mono_now =
      some { self with epd.rxpdo.controlword := JSD_EPD_STATE_MACHINE_CONTROLWORD_SWITCH_ON } := by
  unfold jsd_epd_process_state_machine_switch
  simp only [h, JSD_EPD_STATE_MACHINE_STATE_FAULT,
    JSD_EPD_STATE_MACHINE_STATE_NOT_READY_TO_SWITCH_ON,
    JSD_EPD_STATE_MACHINE_STATE_SWITCH_ON_DISABLED,
    JSD_EPD_STATE_MACHINE_STATE_READY_TO_SWITCH_ON,
    JSD_EPD_STATE_MACHINE_STATE_SWITCHED_ON,
    JSD_EPD_STATE_MACHINE_STATE_OPERATION_ENABLED,
    JSD_EPD_STATE_MACHINE_STATE_QUICK_STOP_ACTIVE,
    JSD_EPD_STATE_MACHINE_STATE_FAULT_REACTION_ACTIVE, Nat.reduceEqDiff, if_true, if_false]

/-- The SWITCHED_ON case of the `switch`. -/
theorem jsd_epd_process_state_machine_switch_switched_on (self : jsd_t) (mono_now : ℚ)
    (h : self.epd.pub.actual_state_machine_state = JSD_EPD_STATE_MACHINE_STATE_SWITCHED_ON) :
    jsd_epd_process_state_machine_switch self mono_now =
      if self.epd.new_reset then
        some { self with
          epd.rxpdo.controlword := JSD_EPD_STATE_MACHINE_CONTROLWORD_ENABLE_OPERATION
          epd.requested_mode_of_operation := JSD_EPD_MODE_OF_OPERATION_PROF_POS
          epd.rxpdo.mode_of_operation := JSD_EPD_MODE_OF_OPERATION_PROF_POS
          epd.new_reset := false }
      else some self := by
  unfold jsd_epd_process_state_machine_switch
  simp only [h, JSD_EPD_STATE_MACHINE_STATE_FAULT,
    JSD_EPD_STATE_MACHINE_STATE_NOT_READY_TO_SWITCH_ON,
    JSD_EPD_STATE_MACHINE_STATE_SWITCH_ON_DISABLED,
    JSD_EPD_STATE_MACHINE_STATE_READY_TO_SWITCH_ON,
    JSD_EPD_STATE_MACHINE_STATE_SWITCHED_ON,
    JSD_EPD_STATE_MACHINE_STATE_OPERATION_ENABLED,
    JSD_EPD_STATE_MACHINE_STATE_QUICK_STOP_ACTIVE,
    JSD_EPD_STATE_MACHINE_STATE_FAULT_REACTION_ACTIVE, Nat.reduceEqDiff, if_true, if_false]

/-- The OPERATION_ENABLED case of the `switch`. -/
theorem jsd_epd_process_state_machine_switch_operation_enabled (self : jsd_t) (mono_now : ℚ)
    (h : self.epd.pub.actual_state_machine_state = JSD_EPD_STATE_MACHINE_STATE_OPERATION_ENABLED) :
    jsd_epd_process_state_machine_switch self mono_now =
      if self.epd.new_halt_command then
        some { self with
          epd.pub.emcy_error_code := 0
          epd.new_reset := false
          epd.rxpdo.controlword := JSD_EPD_STATE_MACHINE_CONTROLWORD_QUICK_STOP
          epd.requested_mode_of_operation := JSD_EPD_MODE_OF_OPERATION_PROF_POS
          epd.rxpdo.mode_of_operation := JSD_EPD_MODE_OF_OPERATION_PROF_POS }
      else
        jsd_epd_process_mode_of_operation
          { self with
            epd.pub.emcy_error_code := 0
            epd.rxpdo.controlword := JSD_EPD_STATE_MACHINE_CONTROLWORD_ENABLE_OPERATION } := by
  unfold jsd_epd_process_state_machine_switch
  simp only [h, JSD_EPD_STATE_MACHINE_STATE_FAULT,
    JSD_EPD_STATE_MACHINE_STATE_NOT_READY_TO_SWITCH_ON,
    JSD_EPD_STATE_MACHINE_STATE_SWITCH_ON_DISABLED,
    JSD_EPD_STATE_MACHINE_STATE_READY_TO_SWITCH_ON,
    JSD_EPD_STATE_MACHINE_STATE_SWITCHED_ON,
    JSD_EPD_STATE_MACHINE_STATE_OPERATION_ENABLED,
    JSD_EPD_STATE_MACHINE_STATE_QUICK_STOP_ACTIVE,
    JSD_EPD_STATE_MACHINE_STATE_FAULT_REACTION_ACTIVE, Nat.reduceEqDiff, if_true, if_false]

/-- The QUICK_STOP_ACTIVE case of the `switch`. -/
theorem jsd_epd_process_state_machine_switch_quick_stop_active (self : jsd_t) (mono_now : ℚ)
    (h : self.epd.pub.actual_state_machine_state = JSD_EPD_STATE_MACHINE_STATE_QUICK_STOP_ACTIVE) :
    jsd_epd_process_state_machine_switch self mono_now =
      some self := by
  unfold jsd_epd_process_state_machine_switch
  simp only [h, JSD_EPD_STATE_MACHINE_STATE_FAULT,
    JSD_EPD_STATE_MACHINE_STATE_NOT_READY_TO_SWITCH_ON,
    JSD_EPD_STATE_MACHINE_STATE_SWITCH_ON_DISABLED,
    JSD_EPD_STATE_MACHINE_STATE_READY_TO_SWITCH_ON,
    JSD_EPD_STATE_MACHINE_STATE_SWITCHED_ON,
    JSD_EPD_STATE_MACHINE_STATE_OPERATION_ENABLED,
    JSD_EPD_STATE_MACHINE_STATE_QUICK_STOP_ACTIVE,
    JSD_EPD_STATE_MACHINE_STATE_FAULT_REACTION_ACTIVE, Nat.reduceEqDiff, if_true, if_false]

/-- The FAULT_REACTION_ACTIVE case of the `switch`. -/
theorem jsd_epd_process_state_machine_switch_fault_reaction_active (self : jsd_t) (mono_now : ℚ)
    (h : self.epd.pub.actual_state_machine_state = JSD_EPD_STATE_MACHINE_STATE_FAULT_REACTION_ACTIVE) :
    jsd_epd_process_state_machine_switch self mono_now =
      some self := by
  unfold jsd_epd_process_state_machine_switch
  simp only [h, JSD_EPD_STATE_MACHINE_STATE_FAULT,
    JSD_EPD_STATE_MACHINE_STATE_NOT_READY_TO_SWITCH_ON,
    JSD_EPD_STATE_MACHINE_STATE_SWITCH_ON_DISABLED,
    JSD_EPD_STATE_MACHINE_STATE_READY_TO_SWITCH_ON,
    JSD_EPD_STATE_MACHINE_STATE_SWITCHED_ON,
    JSD_EPD_STATE_MACHINE_STATE_OPERATION_ENABLED,
    JSD_EPD_STATE_MACHINE_STATE_QUICK_STOP_ACTIVE,
    JSD_EPD_STATE_MACHINE_STATE_FAULT_REACTION_ACTIVE, Nat.reduceEqDiff, if_true, if_false]

/-- The FAULT case of the `switch`, in terms of the loop. -/
theorem jsd_epd_process_state_machine_switch_fault (self : jsd_t) (mono_now : ℚ)
    (h : self.epd.pub.actual_state_machine_state = JSD_EPD_STATE_MACHINE_STATE_FAULT) :
    jsd_epd_process_state_machine_switch self mono_now =
      if !(jsd_epd_fault_pop_loop JSD_EPD_MAX_ERROR_POPS_PER_CYCLE self).2 &&
          decide (mono_now > 1 +
            (jsd_epd_fault_pop_loop JSD_EPD_MAX_ERROR_POPS_PER_CYCLE self).1.epd.fault_mono_time)
      then
        some { (jsd_epd_fault_pop_loop JSD_EPD_MAX_ERROR_POPS_PER_CYCLE self).1 with
               epd.pub.emcy_error_code := 0xFFFF
               epd.rxpdo.controlword := JSD_EPD_STATE_MACHINE_CONTROLWORD_FAULT_RESET }
      else some (jsd_epd_fault_pop_loop JSD_EPD_MAX_ERROR_POPS_PER_CYCLE self).1 := by
  unfold jsd_epd_process_state_machine_switch
  simp only [h, JSD_EPD_STATE_MACHINE_STATE_FAULT,
    JSD_EPD_STATE_MACHINE_STATE_NOT_READY_TO_SWITCH_ON,
    JSD_EPD_STATE_MACHINE_STATE_SWITCH_ON_DISABLED,
    JSD_EPD_STATE_MACHINE_STATE_READY_TO_SWITCH_ON,
    JSD_EPD_STATE_MACHINE_STATE_SWITCHED_ON,
    JSD_EPD_STATE_MACHINE_STATE_OPERATION_ENABLED,
    JSD_EPD_STATE_MACHINE_STATE_QUICK_STOP_ACTIVE,
    JSD_EPD_STATE_MACHINE_STATE_FAULT_REACTION_ACTIVE, Nat.reduceEqDiff, if_true, if_false]


/-- The state machine returns what its `switch` produced, with the motion and
halt flags cleared. -/
theorem jsd_epd_process_state_machine_of_switch (self t : jsd_t) (mono_now : ℚ)
    (h : jsd_epd_process_state_machine_switch self mono_now = some t) :
    jsd_epd_process_state_machine self mono_now =
      some { t with epd.new_motion_command := false, epd.new_halt_command := false } := by
  simp only [jsd_epd_process_state_machine, h]

/-- The mode dispatcher returns for each of the seven modes. -/
theorem jsd_epd_process_mode_of_operation_known (self : jsd_t)
    (h : self.epd.requested_mode_of_operation ∈ jsd_epd_modes_of_operation) :
    ∃ t, jsd_epd_process_mode_of_operation self = some t := by
  simp only [jsd_epd_modes_of_operation, List.mem_cons, List.mem_nil_iff, or_false] at h
  unfold jsd_epd_process_mode_of_operation
  rcases h with h | h | h | h | h | h | h <;>
  · simp only [h, JSD_EPD_MODE_OF_OPERATION_DISABLED, JSD_EPD_MODE_OF_OPERATION_PROF_POS,
      JSD_EPD_MODE_OF_OPERATION_PROF_VEL, JSD_EPD_MODE_OF_OPERATION_PROF_TORQUE,
      JSD_EPD_MODE_OF_OPERATION_CSP, JSD_EPD_MODE_OF_OPERATION_CSV,
      JSD_EPD_MODE_OF_OPERATION_CST, Int.reduceEq, if_true, if_false]
    exact ⟨_, rfl⟩

/-- The `switch` of the state machine returns in each of the eight states, when
in OPERATION_ENABLED without a halt the requested mode is one of the seven. -/
theorem jsd_epd_process_state_machine_switch_known (self : jsd_t) (mono_now : ℚ)
    (hstate : self.epd.pub.actual_state_machine_state ∈ jsd_epd_state_machine_states)
    (hmode : self.epd.pub.actual_state_machine_state =
        JSD_EPD_STATE_MACHINE_STATE_OPERATION_ENABLED →
      self.epd.new_halt_command = false →
      self.epd.requested_mode_of_operation ∈ jsd_epd_modes_of_operation) :
    ∃ t, jsd_epd_process_state_machine_switch self mono_now = some t := by
  simp only [jsd_epd_state_machine_states, List.mem_cons, List.mem_nil_iff, or_false]
    at hstate
  rcases hstate with h | h | h | h | h | h | h | h
  · exact ⟨_, jsd_epd_process_state_machine_switch_not_ready self mono_now h⟩
  · exact ⟨_, jsd_epd_process_state_machine_switch_switch_on_disabled self mono_now h⟩
  · exact ⟨_, jsd_epd_process_state_machine_switch_ready self mono_now h⟩
  · rw [jsd_epd_process_state_machine_switch_switched_on self mono_now h]
    split <;> exact ⟨_, rfl⟩
  · rw [jsd_epd_process_state_machine_switch_operation_enabled self mono_now h]
    cases hh : self.epd.new_halt_command with
    | true => exact ⟨_, rfl⟩
    | false =>
      rw [if_neg (by decide)]
      exact jsd_epd_process_mode_of_operation_known _ (hmode h hh)
  · exact ⟨_, jsd_epd_process_state_machine_switch_quick_stop_active self mono_now h⟩
  · exact ⟨_, jsd_epd_process_state_machine_switch_fault_reaction_active self mono_now h⟩
  · rw [jsd_epd_process_state_machine_switch_fault self mono_now h]
    split <;> exact ⟨_, rfl⟩

/-- A cycle in FAULT whose queue is `pre ++ e :: post`, with `e` the first
emergency later than `fault_real_time` and fewer than
`JSD_EPD_MAX_ERROR_POPS_PER_CYCLE` entries before it. -/
theorem jsd_epd_process_state_machine_fault_match (epd : jsd_epd_private_state_t)
    (pre : List ec_errort) (e : ec_errort) (post : List ec_errort)
    (out : jsd_epd_rxpdo_data_t) (mono_now : ℚ)
    (h : epd.pub.actual_state_machine_state = JSD_EPD_STATE_MACHINE_STATE_FAULT)
    (hlen : pre.length < JSD_EPD_MAX_ERROR_POPS_PER_CYCLE)
    (hpre : ∀ x ∈ pre, ¬ (x.Time > epd.fault_real_time ∧ x.Etype = EC_ERR_TYPE_EMERGENCY))
    (ht : e.Time > epd.fault_real_time) (hk : e.Etype = EC_ERR_TYPE_EMERGENCY) :
    jsd_epd_process_state_machine
        { epd := epd, slave_errors := pre ++ e :: post, outputs := out } mono_now =
      some { epd := { epd with
                      pub.emcy_error_code := e.ErrorCode
                      rxpdo.controlword := JSD_EPD_STATE_MACHINE_CONTROLWORD_FAULT_RESET
                      new_motion_command := false
                      new_halt_command := false },
             slave_errors := post, outputs := out } := by
  have hsw := jsd_epd_process_state_machine_switch_fault
    { epd := epd, slave_errors := pre ++ e :: post, outputs := out } mono_now h
  rw [jsd_epd_fault_pop_loop_match _ epd pre e post out hlen hpre ht hk] at hsw
  simp only [Bool.not_true, Bool.false_and, Bool.false_eq_true, if_false] at hsw
  exact jsd_epd_process_state_machine_of_switch _ _ _ hsw

/-- The mode dispatcher runs the CSP handler when CSP is requested. -/
theorem jsd_epd_process_mode_of_operation_csp (self : jsd_t)
    (h : self.epd.requested_mode_of_operation = JSD_EPD_MODE_OF_OPERATION_CSP) :
    jsd_epd_process_mode_of_operation self = some (jsd_epd_mode_of_op_handle_csp self) := by
  unfold jsd_epd_process_mode_of_operation
  simp only [h, JSD_EPD_MODE_OF_OPERATION_DISABLED, JSD_EPD_MODE_OF_OPERATION_PROF_POS,
    JSD_EPD_MODE_OF_OPERATION_PROF_VEL, JSD_EPD_MODE_OF_OPERATION_PROF_TORQUE,
    JSD_EPD_MODE_OF_OPERATION_CSP, Int.reduceEq, if_true, if_false]

/-- The cycle `jsd_epd_process` returns what the state machine returned, with
the RxPDO copied to the output image. -/
theorem jsd_epd_process_of_state_machine (self t : jsd_t) (mono_now : ℚ)
    (h : jsd_epd_process_state_machine self mono_now = some t) :
    jsd_epd_process self mono_now = some { t with outputs := t.epd.rxpdo } := by
  simp only [jsd_epd_process, h]

/-- C9: in SWITCH_ON_DISABLED the state machine stages SHUTDOWN and in
READY_TO_SWITCH_ON it stages SWITCH_ON, changing no other RxPDO field; in
NOT_READY_TO_SWITCH_ON, QUICK_STOP_ACTIVE and FAULT_REACTION_ACTIVE it changes
no RxPDO field; in all five states `emcy_error_code`,
`requested_mode_of_operation` and the emergency queue are unchanged. -/
theorem jsd_epd_process_state_machine_non_branching (self : jsd_t) (mono_now : ℚ)
    (h : self.epd.pub.actual_state_machine_state =
          JSD_EPD_STATE_MACHINE_STATE_SWITCH_ON_DISABLED ∨
        self.epd.pub.actual_state_machine_state =
          JSD_EPD_STATE_MACHINE_STATE_READY_TO_SWITCH_ON ∨
        self.epd.pub.actual_state_machine_state =
          JSD_EPD_STATE_MACHINE_STATE_NOT_READY_TO_SWITCH_ON ∨
        self.epd.pub.actual_state_machine_state =
          JSD_EPD_STATE_MACHINE_STATE_QUICK_STOP_ACTIVE ∨
        self.epd.pub.actual_state_machine_state =
          JSD_EPD_STATE_MACHINE_STATE_FAULT_REACTION_ACTIVE) :
    ∃ s', jsd_epd_process_state_machine self mono_now = some s' ∧
      (self.epd.pub.actual_state_machine_state =
          JSD_EPD_STATE_MACHINE_STATE_SWITCH_ON_DISABLED →
        s'.epd.rxpdo =
          { self.epd.rxpdo with controlword := JSD_EPD_STATE_MACHINE_CONTROLWORD_SHUTDOWN }) ∧
      (self.epd.pub.actual_state_machine_state =
          JSD_EPD_STATE_MACHINE_STATE_READY_TO_SWITCH_ON →
        s'.epd.rxpdo =
          { self.epd.rxpdo with controlword := JSD_EPD_STATE_MACHINE_CONTROLWORD_SWITCH_ON }) ∧
      (self.epd.pub.actual_state_machine_state =
          JSD_EPD_STATE_MACHINE_STATE_NOT_READY_TO_SWITCH_ON ∨
        self.epd.pub.actual_state_machine_state =
          JSD_EPD_STATE_MACHINE_STATE_QUICK_STOP_ACTIVE ∨
        self.epd.pub.actual_state_machine_state =
          JSD_EPD_STATE_MACHINE_STATE_FAULT_REACTION_ACTIVE →
        s'.epd.rxpdo = self.epd.rxpdo) ∧
      s'.epd.pub.emcy_error_code = self.epd.pub.emcy_error_code ∧
      s'.epd.requested_mode_of_operation = self.epd.requested_mode_of_operation ∧
      s'.slave_errors = self.slave_errors := by
  rcases h with h | h | h | h | h
  · refine ⟨_, jsd_epd_process_state_machine_of_switch _ _ _
      (jsd_epd_process_state_machine_switch_switch_on_disabled self mono_now h),
      fun _ => rfl, ?_, ?_, rfl, rfl, rfl⟩
    · intro h'; rw [h] at h'; exact absurd h' (by decide)
    · intro h'; rw [h] at h'; exact absurd h' (by decide)
  · refine ⟨_, jsd_epd_process_state_machine_of_switch _ _ _
      (jsd_epd_process_state_machine_switch_ready self mono_now h),
      ?_, fun _ => rfl, ?_, rfl, rfl, rfl⟩
    · intro h'; rw [h] at h'; exact absurd h' (by decide)
    · intro h'; rw [h] at h'; exact absurd h' (by decide)
  · refine ⟨_, jsd_epd_process_state_machine_of_switch _ _ _
      (jsd_epd_process_state_machine_switch_not_ready self mono_now h),
      ?_, ?_, fun _ => rfl, rfl, rfl, rfl⟩
    · intro h'; rw [h] at h'; exact absurd h' (by decide)
    · intro h'; rw [h] at h'; exact absurd h' (by decide)
  · refine ⟨_, jsd_epd_process_state_machine_of_switch _ _ _
      (jsd_epd_process_state_machine_switch_quick_stop_active self mono_now h),
      ?_, ?_, fun _ => rfl, rfl, rfl, rfl⟩
    · intro h'; rw [h] at h'; exact absurd h' (by decide)
    · intro h'; rw [h] at h'; exact absurd h' (by decide)
  · refine ⟨_, jsd_epd_process_state_machine_of_switch _ _ _
      (jsd_epd_process_state_machine_switch_fault_reaction_active self mono_now h),
      ?_, ?_, fun _ => rfl, rfl, rfl, rfl⟩
    · intro h'; rw [h] at h'; exact absurd h' (by decide)
    · intro h'; rw [h] at h'; exact absurd h' (by decide)

/-- The scenario slave in SWITCH_ON_DISABLED: the cycle stages SHUTDOWN and
keeps the rest. -/
theorem jsd_epd_process_state_machine_non_branching_witness :
    ∃ s', jsd_epd_process_state_machine
        (slave_in_state JSD_EPD_STATE_MACHINE_STATE_SWITCH_ON_DISABLED) 0 = some s' ∧
      s'.epd.rxpdo =
        { rxpdo_zero with controlword := JSD_EPD_STATE_MACHINE_CONTROLWORD_SHUTDOWN } ∧
      s'.epd.pub.emcy_error_code = 0 ∧ s'.slave_errors = [] := by
  obtain ⟨s', hs, h1, _, _, h4, _, h6⟩ :=
    jsd_epd_process_state_machine_non_branching
      (slave_in_state JSD_EPD_STATE_MACHINE_STATE_SWITCH_ON_DISABLED) 0 (Or.inl rfl)
  exact ⟨s', hs, h1 rfl, h4, h6⟩


/-- C5: halt has priority over reset and over motion.  In OPERATION_ENABLED with
`new_halt_command` set, whatever the other flags and the requested mode, the
state machine stages QUICK_STOP, clears `new_reset`, makes the requested mode
and the RxPDO mode PROF_POS, clears `emcy_error_code`, and changes no other
RxPDO field: the mode dispatcher does not run. -/
theorem jsd_epd_process_state_machine_halt (self : jsd_t) (mono_now : ℚ)
    (h : self.epd.pub.actual_state_machine_state =
      JSD_EPD_STATE_MACHINE_STATE_OPERATION_ENABLED)
    (hhalt : self.epd.new_halt_command = true) :
    ∃ s', jsd_epd_process_state_machine self mono_now = some s' ∧
      s'.epd.rxpdo.controlword = JSD_EPD_STATE_MACHINE_CONTROLWORD_QUICK_STOP ∧
      s'.epd.new_reset = false ∧
      s'.epd.requested_mode_of_operation = JSD_EPD_MODE_OF_OPERATION_PROF_POS ∧
      s'.epd.rxpdo.mode_of_operation = JSD_EPD_MODE_OF_OPERATION_PROF_POS ∧
      s'.epd.pub.emcy_error_code = 0 ∧
      s'.epd.rxpdo.target_position = self.epd.rxpdo.target_position ∧
      s'.epd.rxpdo.target_velocity = self.epd.rxpdo.target_velocity ∧
      s'.epd.rxpdo.target_torque = self.epd.rxpdo.target_torque ∧
      s'.epd.rxpdo.position_offset = self.epd.rxpdo.position_offset ∧
      s'.epd.rxpdo.velocity_offset = self.epd.rxpdo.velocity_offset ∧
      s'.epd.rxpdo.torque_offset = self.epd.rxpdo.torque_offset ∧
      s'.epd.rxpdo =
        { self.epd.rxpdo with
          controlword := JSD_EPD_STATE_MACHINE_CONTROLWORD_QUICK_STOP
          mode_of_operation := JSD_EPD_MODE_OF_OPERATION_PROF_POS } := by
  have hsw := jsd_epd_process_state_machine_switch_operation_enabled self mono_now h
  rw [hhalt, if_pos rfl] at hsw
  exact ⟨_, jsd_epd_process_state_machine_of_switch _ _ _ hsw,
    rfl, rfl, rfl, rfl, rfl, rfl, rfl, rfl, rfl, rfl, rfl, rfl⟩

/-- The scenario of the spec: halt and reset raised in the same cycle, in
OPERATION_ENABLED.  The cycle stages QUICK_STOP in PROF_POS and drops the
reset. -/
theorem jsd_epd_process_state_machine_halt_witness :
    ∃ s', jsd_epd_process_state_machine slave_halt_and_reset 0 = some s' ∧
      s'.epd.rxpdo.controlword = JSD_EPD_STATE_MACHINE_CONTROLWORD_QUICK_STOP ∧
      s'.epd.new_reset = false ∧
      s'.epd.rxpdo.mode_of_operation = JSD_EPD_MODE_OF_OPERATION_PROF_POS := by
  obtain ⟨s', hs, h1, h2, _, h4, _⟩ :=
    jsd_epd_process_state_machine_halt slave_halt_and_reset 0 rfl rfl
  exact ⟨s', hs, h1, h2, h4⟩


/-- C10: `jsd_epd_halt` changes nothing but `new_halt_command`, which it sets,
so any number of calls leaves the state one call leaves; and in each of the
eight known states, whatever the flags were, the state machine returns with
`new_halt_command` and `new_motion_command` both false.  (In OPERATION_ENABLED
without a halt the requested mode is taken to be a value of its enumeration;
every return of the state machine has the two flags false, without any
assumption.) -/
theorem jsd_epd_halt_idempotent_flags_cleared (self : jsd_t) (mono_now : ℚ) (n : Nat)
    (hstate : self.epd.pub.actual_state_machine_state ∈ jsd_epd_state_machine_states)
    (hmode : self.epd.pub.actual_state_machine_state =
        JSD_EPD_STATE_MACHINE_STATE_OPERATION_ENABLED →
      self.epd.new_halt_command = false →
      self.epd.requested_mode_of_operation ∈ jsd_epd_modes_of_operation) :
    jsd_epd_halt self = { self with epd.new_halt_command := true } ∧
    (jsd_epd_halt^[n + 1]) self = jsd_epd_halt self ∧
    (∃ s', jsd_epd_process_state_machine self mono_now = some s' ∧
      s'.epd.new_halt_command = false ∧ s'.epd.new_motion_command = false) ∧
    (∀ s mono s', jsd_epd_process_state_machine s mono = some s' →
      s'.epd.new_halt_command = false ∧ s'.epd.new_motion_command = false) := by
  refine ⟨rfl, ?_, ?_, ?_⟩
  · induction n with
    | zero => rfl
    | succ k ih =>
      rw [Function.iterate_succ_apply', ih]
      rfl
  · obtain ⟨t, ht⟩ := jsd_epd_process_state_machine_switch_known self mono_now hstate hmode
    exact ⟨_, jsd_epd_process_state_machine_of_switch _ _ _ ht, rfl, rfl⟩
  · intro s mono s' hs
    unfold jsd_epd_process_state_machine at hs
    cases hsw : jsd_epd_process_state_machine_switch s mono with
    | none => rw [hsw] at hs; exact absurd hs (by simp)
    | some t =>
      rw [hsw] at hs
      simp only [Option.some.injEq] at hs
      subst hs
      exact ⟨rfl, rfl⟩

/-- The scenario slave with halt, reset and motion raised in OPERATION_ENABLED:
three calls of `jsd_epd_halt` are one call, and the cycle clears the halt and
motion flags. -/
theorem jsd_epd_halt_idempotent_flags_cleared_witness :
    jsd_epd_halt (jsd_epd_halt (jsd_epd_halt slave_halt_and_reset)) =
      jsd_epd_halt slave_halt_and_reset ∧
    ∃ s', jsd_epd_process_state_machine slave_halt_and_reset 0 = some s' ∧
      s'.epd.new_halt_command = false ∧ s'.epd.new_motion_command = false :=
  ⟨(jsd_epd_halt_idempotent_flags_cleared slave_halt_and_reset 0 2 (by decide)
      (fun _ h => absurd h (by decide))).2.1,
   (jsd_epd_halt_idempotent_flags_cleared slave_halt_and_reset 0 2 (by decide)
      (fun _ h => absurd h (by decide))).2.2.1⟩


/-- C3: in FAULT the state machine accepts the first entry, in FIFO order among
those it pops this cycle, that is later than `fault_real_time` and of kind
EMERGENCY: with the queue `pre ++ e :: post`, `e` such an entry, none in `pre`
and `pre` shorter than `JSD_EPD_MAX_ERROR_POPS_PER_CYCLE`, `emcy_error_code`
becomes the code of `e`, the controlword becomes FAULT_RESET, the entries of
`pre` are discarded and `post` stays in the queue. -/
theorem jsd_epd_process_state_machine_fault_accepts_first (self : jsd_t) (mono_now : ℚ)
    (pre : List ec_errort) (e : ec_errort) (post : List ec_errort)
    (h : self.epd.pub.actual_state_machine_state = JSD_EPD_STATE_MACHINE_STATE_FAULT)
    (hq : self.slave_errors = pre ++ e :: post)
    (hlen : pre.length < JSD_EPD_MAX_ERROR_POPS_PER_CYCLE)
    (hpre : ∀ x ∈ pre,
      ¬ (x.Time > self.epd.fault_real_time ∧ x.Etype = EC_ERR_TYPE_EMERGENCY))
    (ht : e.Time > self.epd.fault_real_time) (hk : e.Etype = EC_ERR_TYPE_EMERGENCY) :
    ∃ s', jsd_epd_process_state_machine self mono_now = some s' ∧
      s'.epd.pub.emcy_error_code = e.ErrorCode ∧
      s'.epd.rxpdo.controlword = JSD_EPD_STATE_MACHINE_CONTROLWORD_FAULT_RESET ∧
      s'.slave_errors = post := by
  obtain ⟨epd, q, out⟩ := self
  simp only at h hq hpre ht
  subst hq
  exact ⟨_, jsd_epd_process_state_machine_fault_match epd pre e post out mono_now h hlen
    hpre ht hk, rfl, rfl, rfl⟩

/-- The scenario "fault with EMCY" of the spec: `fault_real_time = 100.0` and a
queue holding one emergency of time 100.5 and code 0x7380 give
`emcy_error_code = 0x7380`, FAULT_RESET and an empty queue. -/
theorem jsd_epd_process_state_machine_fault_accepts_first_witness :
    ∃ s', jsd_epd_process_state_machine slave_fault_emcy (501 / 10) = some s' ∧
      s'.epd.pub.emcy_error_code = 0x7380 ∧
      s'.epd.rxpdo.controlword = JSD_EPD_STATE_MACHINE_CONTROLWORD_FAULT_RESET ∧
      s'.slave_errors = [] :=
  jsd_epd_process_state_machine_fault_accepts_first slave_fault_emcy (501 / 10) []
    { Time := 201 / 2, Etype := EC_ERR_TYPE_EMERGENCY, ErrorCode := 0x7380 } []
    rfl rfl (by decide) (by simp)
    (by show (201 / 2 : ℚ) > 100; norm_num) rfl

/-- C6: CSP command round trip.  `jsd_epd_set_motion_command_csp` raises
`new_motion_command`, requests CSP and stores the command; a `jsd_epd_process`
after it, observed in OPERATION_ENABLED with no halt pending, stages the target
position and the position and velocity offsets of the command, zero target
velocity and torque, mode CSP (8), controlword ENABLE_OPERATION, and clears
`emcy_error_code`; the output image is the staged RxPDO. -/
theorem jsd_epd_process_csp_round_trip (self : jsd_t)
    (cmd : jsd_epd_motion_command_csp_t) (mono_now : ℚ)
    (h : self.epd.pub.actual_state_machine_state =
      JSD_EPD_STATE_MACHINE_STATE_OPERATION_ENABLED)
    (hhalt : self.epd.new_halt_command = false) :
    (jsd_epd_set_motion_command_csp self cmd).epd.new_motion_command = true ∧
    (jsd_epd_set_motion_command_csp self cmd).epd.requested_mode_of_operation =
      JSD_EPD_MODE_OF_OPERATION_CSP ∧
    (jsd_epd_set_motion_command_csp self cmd).epd.motion_command.csp = cmd ∧
    ∃ s', jsd_epd_process (jsd_epd_set_motion_command_csp self cmd) mono_now = some s' ∧
      s'.epd.rxpdo.target_position = cmd.target_position ∧
      s'.epd.rxpdo.position_offset = cmd.position_offset ∧
      s'.epd.rxpdo.velocity_offset = cmd.velocity_offset ∧
      s'.epd.rxpdo.target_velocity = 0 ∧
      s'.epd.rxpdo.target_torque = 0 ∧
      s'.epd.rxpdo.mode_of_operation = JSD_EPD_MODE_OF_OPERATION_CSP ∧
      JSD_EPD_MODE_OF_OPERATION_CSP = 8 ∧
      s'.epd.rxpdo.controlword = JSD_EPD_STATE_MACHINE_CONTROLWORD_ENABLE_OPERATION ∧
      s'.epd.pub.emcy_error_code = 0 ∧
      s'.outputs = s'.epd.rxpdo := by
  refine ⟨rfl, rfl, rfl, ?_⟩
  have hsw := jsd_epd_process_state_machine_switch_operation_enabled
    (jsd_epd_set_motion_command_csp self cmd) mono_now h
  have hh : (jsd_epd_set_motion_command_csp self cmd).epd.new_halt_command = false := hhalt
  rw [hh, if_neg (by decide), jsd_epd_process_mode_of_operation_csp _ rfl] at hsw
  exact ⟨_, jsd_epd_process_of_state_machine _ _ _
    (jsd_epd_process_state_machine_of_switch _ _ _ hsw),
    rfl, rfl, rfl, rfl, rfl, rfl, rfl, rfl, rfl, rfl⟩

/-- The scenario "CSP command round-trip" of the spec: target position 123456,
position offset 10, velocity offset 20. -/
theorem jsd_epd_process_csp_round_trip_witness :
    ∃ s', jsd_epd_process
        (jsd_epd_set_motion_command_csp
          (slave_in_state JSD_EPD_STATE_MACHINE_STATE_OPERATION_ENABLED)
          csp_command_scenario) 0 = some s' ∧
      s'.epd.rxpdo.target_position = 123456 ∧
      s'.epd.rxpdo.position_offset = 10 ∧
      s'.epd.rxpdo.velocity_offset = 20 ∧
      s'.epd.rxpdo.target_velocity = 0 ∧
      s'.epd.rxpdo.target_torque = 0 ∧
      s'.epd.rxpdo.mode_of_operation = 8 ∧
      s'.epd.rxpdo.controlword = JSD_EPD_STATE_MACHINE_CONTROLWORD_ENABLE_OPERATION ∧
      s'.epd.pub.emcy_error_code = 0 := by
  obtain ⟨_, _, _, s', hs, h1, h2, h3, h4, h5, h6, h7, h8, h9, _⟩ :=
    jsd_epd_process_csp_round_trip
      (slave_in_state JSD_EPD_STATE_MACHINE_STATE_OPERATION_ENABLED)
      csp_command_scenario 0 rfl rfl
  exact ⟨s', hs, h1, h2, h3, h4, h5, h6.trans h7, h8, h9⟩

/-- The FAULT loop does not touch `new_reset`. -/
theorem jsd_epd_fault_pop_loop_new_reset :
    ∀ (n : Nat) (self : jsd_t),
      (jsd_epd_fault_pop_loop n self).1.epd.new_reset = self.epd.new_reset := by
  intro n
  induction n with
  | zero => intro self; rfl
  | succ n ih =>
    intro self
    obtain ⟨epd, q, out⟩ := self
    cases q with
    | nil => rfl
    | cons e rest =>
      simp only [jsd_epd_fault_pop_loop, jsd_error_cirq_pop]
      split
      · split
        · rfl
        · exact ih _
      · exact ih _

/-- The mode dispatcher does not touch `new_reset`. -/
theorem jsd_epd_process_mode_of_operation_new_reset (self t : jsd_t)
    (h : jsd_epd_process_mode_of_operation self = some t) :
    t.epd.new_reset = self.epd.new_reset := by
  unfold jsd_epd_process_mode_of_operation at h
  simp only at h
  repeat' split at h
  all_goals first
    | (simp only [Option.some.injEq] at h; subst h; rfl)
    | exact absurd h (by simp)

/-- What a cycle of the state machine does to `new_reset`: it is cleared in
SWITCHED_ON and in OPERATION_ENABLED with a halt pending, and kept otherwise. -/
theorem jsd_epd_process_state_machine_new_reset (self s' : jsd_t) (mono_now : ℚ)
    (h : jsd_epd_process_state_machine self mono_now = some s') :
    s'.epd.new_reset =
      if self.epd.pub.actual_state_machine_state = JSD_EPD_STATE_MACHINE_STATE_SWITCHED_ON ∨
          (self.epd.pub.actual_state_machine_state =
              JSD_EPD_STATE_MACHINE_STATE_OPERATION_ENABLED ∧
            self.epd.new_halt_command = true)
      then false else self.epd.new_reset := by
  unfold jsd_epd_process_state_machine at h
  cases hsw : jsd_epd_process_state_machine_switch self mono_now with
  | none => rw [hsw] at h; exact absurd h (by simp)
  | some t =>
    rw [hsw] at h
    simp only [Option.some.injEq] at h
    subst h
    show t.epd.new_reset = _
    by_cases h_not_ready : self.epd.pub.actual_state_machine_state = JSD_EPD_STATE_MACHINE_STATE_NOT_READY_TO_SWITCH_ON
    · rw [jsd_epd_process_state_machine_switch_not_ready self mono_now h_not_ready] at hsw
      simp only [Option.some.injEq] at hsw
      subst hsw
      rw [if_neg]
      rintro (h | ⟨h, _⟩) <;> rw [h_not_ready] at h <;> exact absurd h (by decide)
    by_cases h_switch_on_disabled : self.epd.pub.actual_state_machine_state = JSD_EPD_STATE_MACHINE_STATE_SWITCH_ON_DISABLED
    · rw [jsd_epd_process_state_machine_switch_switch_on_disabled self mono_now h_switch_on_disabled] at hsw
      simp only [Option.some.injEq] at hsw
      subst hsw
      rw [if_neg]
      rintro (h | ⟨h, _⟩) <;> rw [h_switch_on_disabled] at h <;> exact absurd h (by decide)
    by_cases h_ready : self.epd.pub.actual_state_machine_state = JSD_EPD_STATE_MACHINE_STATE_READY_TO_SWITCH_ON
    · rw [jsd_epd_process_state_machine_switch_ready self mono_now h_ready] at hsw
      simp only [Option.some.injEq] at hsw
      subst hsw
      rw [if_neg]
      rintro (h | ⟨h, _⟩) <;> rw [h_ready] at h <;> exact absurd h (by decide)
    by_cases h_quick_stop_active : self.epd.pub.actual_state_machine_state = JSD_EPD_STATE_MACHINE_STATE_QUICK_STOP_ACTIVE
    · rw [jsd_epd_process_state_machine_switch_quick_stop_active self mono_now h_quick_stop_active] at hsw
      simp only [Option.some.injEq] at hsw
      subst hsw
      rw [if_neg]
      rintro (h | ⟨h, _⟩) <;> rw [h_quick_stop_active] at h <;> exact absurd h (by decide)
    by_cases h_fault_reaction_active : self.epd.pub.actual_state_machine_state = JSD_EPD_STATE_MACHINE_STATE_FAULT_REACTION_ACTIVE
    · rw [jsd_epd_process_state_machine_switch_fault_reaction_active self mono_now h_fault_reaction_active] at hsw
      simp only [Option.some.injEq] at hsw
      subst hsw
      rw [if_neg]
      rintro (h | ⟨h, _⟩) <;> rw [h_fault_reaction_active] at h <;> exact absurd h (by decide)
    by_cases h_switched_on : self.epd.pub.actual_state_machine_state =
        JSD_EPD_STATE_MACHINE_STATE_SWITCHED_ON
    · rw [jsd_epd_process_state_machine_switch_switched_on self mono_now h_switched_on] at hsw
      rw [if_pos (Or.inl h_switched_on)]
      cases hr : self.epd.new_reset with
      | true =>
        rw [hr, if_pos rfl] at hsw
        simp only [Option.some.injEq] at hsw
        subst hsw
        rfl
      | false =>
        rw [hr, if_neg (by decide)] at hsw
        simp only [Option.some.injEq] at hsw
        subst hsw
        exact hr
    by_cases h_operation_enabled : self.epd.pub.actual_state_machine_state =
        JSD_EPD_STATE_MACHINE_STATE_OPERATION_ENABLED
    · rw [jsd_epd_process_state_machine_switch_operation_enabled self mono_now
        h_operation_enabled] at hsw
      cases hh : self.epd.new_halt_command with
      | true =>
        rw [hh, if_pos rfl] at hsw
        simp only [Option.some.injEq] at hsw
        subst hsw
        rw [if_pos (Or.inr ⟨h_operation_enabled, rfl⟩)]
      | false =>
        rw [hh, if_neg (by decide)] at hsw
        rw [jsd_epd_process_mode_of_operation_new_reset _ _ hsw, if_neg]
        rintro (h | ⟨_, h⟩)
        · exact h_switched_on h
        · exact absurd h (by decide)
    by_cases h_fault : self.epd.pub.actual_state_machine_state =
        JSD_EPD_STATE_MACHINE_STATE_FAULT
    · rw [jsd_epd_process_state_machine_switch_fault self mono_now h_fault] at hsw
      rw [if_neg]
      · split at hsw <;>
        · simp only [Option.some.injEq] at hsw
          subst hsw
          exact jsd_epd_fault_pop_loop_new_reset _ self
      · rintro (h | ⟨h, _⟩) <;> rw [h_fault] at h <;> exact absurd h (by decide)
    · unfold jsd_epd_process_state_machine_switch at hsw
      simp only [h_not_ready, h_switch_on_disabled, h_ready, h_quick_stop_active,
        h_fault_reaction_active, h_switched_on, h_operation_enabled, h_fault, if_false] at hsw
      exact absurd hsw (by simp)

/-- C11 fails as stated: the scenario slave observed in SWITCH_ON_DISABLED with
a reset latched.  The cycle returns, and `new_reset` is still set after it. -/
theorem jsd_epd_process_flags_counterexample :
    slave_reset_latched.epd.pub.actual_state_machine_state ∈ jsd_epd_state_machine_states ∧
    ∃ s', jsd_epd_process slave_reset_latched 0 = some s' ∧
      ¬ (s'.epd.new_reset = false ∧ s'.epd.new_halt_command = false ∧
          s'.epd.new_motion_command = false) := by
  refine ⟨by decide, _, jsd_epd_process_of_state_machine _ _ _
    (jsd_epd_process_state_machine_of_switch _ _ _
      (jsd_epd_process_state_machine_switch_switch_on_disabled slave_reset_latched 0 rfl)), ?_⟩
  intro h
  exact absurd h.1 (by decide)

/-- C11, amended: in each of the eight known states and for every prior value of
the flags, `jsd_epd_process` returns with `new_halt_command` and
`new_motion_command` false; `new_reset` is false after a cycle observed in
SWITCHED_ON or in OPERATION_ENABLED with a halt pending, and keeps its prior
value in every other case.  (In OPERATION_ENABLED without a halt the requested
mode is taken to be a value of its enumeration.) -/
theorem jsd_epd_process_flags (self : jsd_t) (mono_now : ℚ)
    (hstate : self.epd.pub.actual_state_machine_state ∈ jsd_epd_state_machine_states)
    (hmode : self.epd.pub.actual_state_machine_state =
        JSD_EPD_STATE_MACHINE_STATE_OPERATION_ENABLED →
      self.epd.new_halt_command = false →
      self.epd.requested_mode_of_operation ∈ jsd_epd_modes_of_operation) :
    ∃ s', jsd_epd_process self mono_now = some s' ∧
      s'.epd.new_halt_command = false ∧
      s'.epd.new_motion_command = false ∧
      s'.epd.new_reset =
        if self.epd.pub.actual_state_machine_state =
              JSD_EPD_STATE_MACHINE_STATE_SWITCHED_ON ∨
            (self.epd.pub.actual_state_machine_state =
                JSD_EPD_STATE_MACHINE_STATE_OPERATION_ENABLED ∧
              self.epd.new_halt_command = true)
        then false else self.epd.new_reset := by
  obtain ⟨t, ht⟩ := jsd_epd_process_state_machine_switch_known self mono_now hstate hmode
  have hpsm := jsd_epd_process_state_machine_of_switch _ _ _ ht
  have hr := jsd_epd_process_state_machine_new_reset _ _ _ hpsm
  exact ⟨_, jsd_epd_process_of_state_machine _ _ _ hpsm, rfl, rfl, hr⟩

/-- The scenario "halt priority": after the cycle all three flags are false.
The slave with a reset latched in SWITCH_ON_DISABLED keeps it. -/
theorem jsd_epd_process_flags_witness :
    (∃ s', jsd_epd_process slave_halt_and_reset 0 = some s' ∧
      s'.epd.new_halt_command = false ∧ s'.epd.new_motion_command = false ∧
      s'.epd.new_reset = false) ∧
    (∃ s', jsd_epd_process slave_reset_latched 0 = some s' ∧
      s'.epd.new_halt_command = false ∧ s'.epd.new_motion_command = false ∧
      s'.epd.new_reset = true) := by
  constructor
  · obtain ⟨s', hs, h1, h2, h3⟩ := jsd_epd_process_flags slave_halt_and_reset 0 (by decide)
      (fun _ h => absurd h (by decide))
    exact ⟨s', hs, h1, h2, h3.trans (if_pos (Or.inr ⟨rfl, rfl⟩))⟩
  · obtain ⟨s', hs, h1, h2, h3⟩ := jsd_epd_process_flags slave_reset_latched 0 (by decide)
      (fun h _ => absurd h (by decide))
    refine ⟨s', hs, h1, h2, h3.trans ?_⟩
    rw [if_neg]
    · rfl
    · rintro (h | ⟨h, _⟩) <;> exact absurd h (by decide)

/-! ## Reset -/

/-- Truncation leaves an integer as it is. -/
theorem double_trunc_intCast (z : Int) : double_trunc (z : ℚ) = z := by
  unfold double_trunc
  split
  · exact Int.floor_intCast z
  · exact Int.ceil_intCast z

/-- The scenario configuration initializes: 10 A continuous is a motor rated
current of 10000 mA. -/
theorem jsd_epd_init_scenario :
    (jsd_epd_init slave_10000 config_scenario slave_descriptor_scenario).1 = true := by
  have h : double_to_uint32 ((10 : ℚ) * 1000) = 10000 := by
    have e : (10 : ℚ) * 1000 = ((10000 : ℤ) : ℚ) := by norm_num
    rw [double_to_uint32, e, double_trunc_intCast]
    rfl
  unfold jsd_epd_init
  simp only [config_scenario, h]
  rfl

/-- A reset more than `JSD_EPD_RESET_DERATE_SEC` after the last latched one is
latched. -/
theorem jsd_epd_reset_accepted (self : jsd_t) (now : ℚ)
    (h : now - self.epd.last_reset_time > JSD_EPD_RESET_DERATE_SEC) :
    jsd_epd_reset self now =
      { self with epd.new_reset := true, epd.last_reset_time := now } := by
  simp only [jsd_epd_reset, if_pos h]

/-- A reset not more than `JSD_EPD_RESET_DERATE_SEC` after the last latched one
changes nothing. -/
theorem jsd_epd_reset_rejected (self : jsd_t) (now : ℚ)
    (h : ¬ now - self.epd.last_reset_time > JSD_EPD_RESET_DERATE_SEC) :
    jsd_epd_reset self now = self := by
  simp only [jsd_epd_reset, if_neg h]

/-- C12: `jsd_epd_reset` at monotonic time `now` is accepted exactly when
`now - last_reset_time > JSD_EPD_RESET_DERATE_SEC`.  Accepted, it sets
`new_reset`, makes `last_reset_time` equal to `now` and changes nothing else;
rejected, it leaves the whole slave state as it was. -/
theorem jsd_epd_reset_spec (self : jsd_t) (now : ℚ) :
    (now - self.epd.last_reset_time > JSD_EPD_RESET_DERATE_SEC →
      (jsd_epd_reset self now).epd.new_reset = true ∧
      (jsd_epd_reset self now).epd.last_reset_time = now ∧
      jsd_epd_reset self now =
        { self with epd.new_reset := true, epd.last_reset_time := now }) ∧
    (¬ now - self.epd.last_reset_time > JSD_EPD_RESET_DERATE_SEC →
      jsd_epd_reset self now = self) ∧
    (jsd_epd_reset self now ≠ self →
      now - self.epd.last_reset_time > JSD_EPD_RESET_DERATE_SEC) := by
  refine ⟨fun h => ?_, fun h => jsd_epd_reset_rejected self now h, fun h => ?_⟩
  · rw [jsd_epd_reset_accepted self now h]
    exact ⟨rfl, rfl, rfl⟩
  · by_contra hn
    exact h (jsd_epd_reset_rejected self now hn)

/-- After `jsd_epd_init`, whatever it returns, `last_reset_time` is 0. -/
theorem jsd_epd_init_last_reset_time (self : jsd_t) (config : jsd_slave_config_t)
    (slave : ec_slavet) :
    (jsd_epd_init self config slave).2.1.epd.last_reset_time = 0 := by
  unfold jsd_epd_init
  simp only
  split <;> rfl

/-- C13 fails as stated: on the freshly initialized scenario slave, whose
`last_reset_time` is 0, the reset at `t = 0` is rejected, and so is the one at
`t = 0.5`: two calls within `JSD_EPD_RESET_DERATE_SEC` of each other, and
`new_reset` is never raised (`jsd_epd_init` returned `true`). -/
theorem jsd_epd_reset_rate_limit_counterexample :
    (jsd_epd_init slave_10000 config_scenario slave_descriptor_scenario).1 = true ∧
    jsd_epd_reset slave_initialized 0 = slave_initialized ∧
    jsd_epd_reset (jsd_epd_reset slave_initialized 0) (1 / 2) = slave_initialized ∧
    (jsd_epd_reset (jsd_epd_reset slave_initialized 0) (1 / 2)).epd.new_reset = false := by
  have h0 : slave_initialized.epd.last_reset_time = 0 :=
    jsd_epd_init_last_reset_time _ _ _
  have h1 : jsd_epd_reset slave_initialized 0 = slave_initialized := by
    apply jsd_epd_reset_rejected
    rw [h0, JSD_EPD_RESET_DERATE_SEC]
    norm_num
  have h2 : jsd_epd_reset slave_initialized (1 / 2) = slave_initialized := by
    apply jsd_epd_reset_rejected
    rw [h0, JSD_EPD_RESET_DERATE_SEC]
    norm_num
  refine ⟨jsd_epd_init_scenario, h1, by rw [h1, h2], ?_⟩
  rw [h1, h2]
  show (jsd_epd_init slave_10000 config_scenario
    slave_descriptor_scenario).2.1.epd.new_reset = false
  unfold jsd_epd_init
  simp only
  split <;> rfl

/-- Successful or not, `jsd_epd_init` leaves `new_reset` as it was. -/
theorem jsd_epd_init_new_reset (self : jsd_t) (config : jsd_slave_config_t)
    (slave : ec_slavet) :
    (jsd_epd_init self config slave).2.1.epd.new_reset = self.epd.new_reset := by
  unfold jsd_epd_init
  simp only
  split <;> rfl

/-- C13, amended: on a slave fresh from `jsd_epd_init` (its `last_reset_time`
is 0), a reset at `t1 > JSD_EPD_RESET_DERATE_SEC` is accepted and a second one
at `t2` with `t2 - t1 ≤ JSD_EPD_RESET_DERATE_SEC` is rejected, so the two calls
raise `new_reset` once; a third one at `t3` with
`t3 - t1 > JSD_EPD_RESET_DERATE_SEC` is accepted again.  A reset at
`t ≤ JSD_EPD_RESET_DERATE_SEC` on the fresh slave is rejected. -/
theorem jsd_epd_reset_rate_limit (self : jsd_t) (config : jsd_slave_config_t)
    (slave : ec_slavet) (t1 t2 t3 : ℚ)
    (h1 : t1 > JSD_EPD_RESET_DERATE_SEC)
    (h2 : t2 - t1 ≤ JSD_EPD_RESET_DERATE_SEC)
    (h3 : t3 - t1 > JSD_EPD_RESET_DERATE_SEC) :
    (jsd_epd_reset (jsd_epd_init self config slave).2.1 t1).epd.new_reset = true ∧
    (jsd_epd_reset (jsd_epd_init self config slave).2.1 t1).epd.last_reset_time = t1 ∧
    jsd_epd_reset (jsd_epd_reset (jsd_epd_init self config slave).2.1 t1) t2 =
      jsd_epd_reset (jsd_epd_init self config slave).2.1 t1 ∧
    (jsd_epd_reset (jsd_epd_reset (jsd_epd_reset
      (jsd_epd_init self config slave).2.1 t1) t2) t3).epd.last_reset_time = t3 ∧
    (∀ t, t ≤ JSD_EPD_RESET_DERATE_SEC →
      jsd_epd_reset (jsd_epd_init self config slave).2.1 t =
        (jsd_epd_init self config slave).2.1) := by
  have h0 := jsd_epd_init_last_reset_time self config slave
  have ha := jsd_epd_reset_accepted (jsd_epd_init self config slave).2.1 t1
    (by rw [h0]; linarith)
  have hl : (jsd_epd_reset (jsd_epd_init self config slave).2.1 t1).epd.last_reset_time = t1 := by
    rw [ha]
  have hb := jsd_epd_reset_rejected (jsd_epd_reset (jsd_epd_init self config slave).2.1 t1) t2
    (by rw [hl]; linarith)
  have hc := jsd_epd_reset_accepted (jsd_epd_reset (jsd_epd_init self config slave).2.1 t1) t3
    (by rw [hl]; linarith)
  refine ⟨by rw [ha], hl, hb, by rw [hb, hc], fun t ht => ?_⟩
  apply jsd_epd_reset_rejected
  rw [h0]
  linarith

/-- On the freshly initialized scenario slave, with
`JSD_EPD_RESET_DERATE_SEC = 1.0`: the reset at `t = 1.5` is accepted, the one
at `t = 2.0` is rejected, the one at `t = 3.1` is accepted. -/
theorem jsd_epd_reset_rate_limit_witness :
    (jsd_epd_reset slave_initialized (3 / 2)).epd.new_reset = true ∧
    (jsd_epd_reset slave_initialized (3 / 2)).epd.last_reset_time = 3 / 2 ∧
    jsd_epd_reset (jsd_epd_reset slave_initialized (3 / 2)) 2 =
      jsd_epd_reset slave_initialized (3 / 2) ∧
    (jsd_epd_reset (jsd_epd_reset (jsd_epd_reset slave_initialized (3 / 2)) 2)
      (31 / 10)).epd.last_reset_time = 31 / 10 := by
  obtain ⟨h1, h2, h3, h4, _⟩ :=
    jsd_epd_reset_rate_limit slave_10000 config_scenario slave_descriptor_scenario
      (3 / 2) 2 (31 / 10)
      (by rw [JSD_EPD_RESET_DERATE_SEC]; norm_num)
      (by rw [JSD_EPD_RESET_DERATE_SEC]; norm_num)
      (by rw [JSD_EPD_RESET_DERATE_SEC]; norm_num)
  exact ⟨h1, h2, h3, h4⟩

/-! ## Digital outputs -/

/-- Bit `j` of a word with bit `s` set. -/
theorem testBit_or_one_shiftLeft (d s j : Nat) :
    (d ||| (0x01 <<< s)).testBit j = if j = s then true else d.testBit j := by
  rw [Nat.testBit_or, Nat.one_shiftLeft, Nat.testBit_two_pow]
  by_cases h : j = s
  · subst h; simp
  · have : ¬ s = j := fun e => h e.symm
    simp [h, this]

/-- Bit `j` of a 32-bit word with bit `s` cleared by the 32-bit mask. -/
theorem testBit_and_not_one_shiftLeft (d s j : Nat) (hd : d < 2 ^ 32) (hs : s < 32) :
    (d &&& (0xFFFFFFFF ^^^ (0x01 <<< s))).testBit j =
      if j = s then false else d.testBit j := by
  have e : (0xFFFFFFFF : Nat) = 2 ^ 32 - 1 := by norm_num
  rw [Nat.testBit_and, Nat.testBit_xor, Nat.one_shiftLeft, Nat.testBit_two_pow, e,
    Nat.testBit_two_pow_sub_one]
  by_cases h : j = s
  · subst h; simp [hs]
  · have : ¬ s = j := fun e => h e.symm
    by_cases hj : j < 32
    · simp [h, this, hj]
    · have : d.testBit j = false := by
        apply Nat.testBit_lt_two_pow
        calc d < 2 ^ 32 := hd
          _ ≤ 2 ^ j := Nat.pow_le_pow_right (by norm_num) (by omega)
      simp [h, this]

/-- The word `jsd_epd_set_digital_output` stores, bit by bit. -/
theorem digital_outputs_written (d s output : Nat) (hd : d < 2 ^ 32) (hs : s < 32) :
    (if output > 0 then d ||| (0x01 <<< s)
      else d &&& (0xFFFFFFFF ^^^ (0x01 <<< s))) < 2 ^ 32 ∧
    ∀ j, (if output > 0 then d ||| (0x01 <<< s)
        else d &&& (0xFFFFFFFF ^^^ (0x01 <<< s))).testBit j =
      if j = s then decide (output > 0) else d.testBit j := by
  by_cases ho : output > 0
  · simp only [ho, if_true, decide_True]
    refine ⟨?_, fun j => testBit_or_one_shiftLeft d s j⟩
    apply Nat.or_lt_two_pow hd
    rw [Nat.one_shiftLeft]
    exact Nat.pow_lt_pow_right (by norm_num) hs
  · simp only [ho, if_false, decide_False]
    exact ⟨lt_of_le_of_lt Nat.and_le_left hd,
      fun j => testBit_and_not_one_shiftLeft d s j hd hs⟩

/-- With the index in range `jsd_epd_set_digital_output` returns, and only the
word `digital_outputs` is replaced. -/
theorem jsd_epd_set_digital_output_eq (JSD_EPD_NUM_DIGITAL_OUTPUTS : Nat) (self : jsd_t)
    (index output : Nat) (hi : index < JSD_EPD_NUM_DIGITAL_OUTPUTS) :
    jsd_epd_set_digital_output JSD_EPD_NUM_DIGITAL_OUTPUTS self index output =
      some { self with
        epd.rxpdo.digital_outputs :=
          if output > 0 then self.epd.rxpdo.digital_outputs ||| (0x01 <<< (16 + index))
          else self.epd.rxpdo.digital_outputs &&&
            (0xFFFFFFFF ^^^ (0x01 <<< (16 + index))) } := by
  unfold jsd_epd_set_digital_output
  rw [if_pos hi]
  split <;> rfl

/-- Replacing `digital_outputs` by the value it has changes nothing. -/
theorem jsd_t_digital_outputs_eta (self : jsd_t) (d : Nat)
    (h : d = self.epd.rxpdo.digital_outputs) :
    ({ self with epd.rxpdo.digital_outputs := d } : jsd_t) = self := by
  subst h
  rfl


/-- C14: for every index below `JSD_EPD_NUM_DIGITAL_OUTPUTS` and every prior
32-bit `digital_outputs`, `jsd_epd_set_digital_output` returns the state with
bit `16 + index` of `digital_outputs` equal to 1 when `output > 0` and to 0
when `output = 0`, every other bit of the word as it was, the word still in 32
bits, and nothing else changed.  The operation is idempotent, and operations
on different indices commute.  (The macro is taken to be at most 15, so that
`0x01 << (16 + index)` stays inside a 32-bit `int`.) -/
theorem jsd_epd_set_digital_output_spec (JSD_EPD_NUM_DIGITAL_OUTPUTS : Nat) (self : jsd_t)
    (index output : Nat)
    (hnum : JSD_EPD_NUM_DIGITAL_OUTPUTS ≤ 15)
    (hi : index < JSD_EPD_NUM_DIGITAL_OUTPUTS)
    (hd : self.epd.rxpdo.digital_outputs < 2 ^ 32) :
    ∃ s', jsd_epd_set_digital_output JSD_EPD_NUM_DIGITAL_OUTPUTS self index output = some s' ∧
      s' = { self with epd.rxpdo.digital_outputs := s'.epd.rxpdo.digital_outputs } ∧
      s'.epd.rxpdo.digital_outputs < 2 ^ 32 ∧
      (∀ j, s'.epd.rxpdo.digital_outputs.testBit j =
        if j = 16 + index then decide (output > 0)
        else self.epd.rxpdo.digital_outputs.testBit j) ∧
      jsd_epd_set_digital_output JSD_EPD_NUM_DIGITAL_OUTPUTS s' index output = some s' ∧
      (∀ index2 output2, index2 < JSD_EPD_NUM_DIGITAL_OUTPUTS → index2 ≠ index →
        (jsd_epd_set_digital_output JSD_EPD_NUM_DIGITAL_OUTPUTS self index output).bind
            (fun t => jsd_epd_set_digital_output JSD_EPD_NUM_DIGITAL_OUTPUTS t index2 output2) =
          (jsd_epd_set_digital_output JSD_EPD_NUM_DIGITAL_OUTPUTS self index2 output2).bind
            (fun t => jsd_epd_set_digital_output JSD_EPD_NUM_DIGITAL_OUTPUTS t index output)) := by
  have hs : 16 + index < 32 := by omega
  obtain ⟨hlt, hbits⟩ :=
    digital_outputs_written self.epd.rxpdo.digital_outputs (16 + index) output hd hs
  refine ⟨_, jsd_epd_set_digital_output_eq _ self index output hi, rfl, hlt, hbits, ?_, ?_⟩
  · rw [jsd_epd_set_digital_output_eq _ _ index output hi]
    congr 1
    apply jsd_t_digital_outputs_eta
    apply Nat.eq_of_testBit_eq
    intro j
    obtain ⟨_, hbits2⟩ := digital_outputs_written
      (if output > 0 then self.epd.rxpdo.digital_outputs ||| (0x01 <<< (16 + index))
        else self.epd.rxpdo.digital_outputs &&& (0xFFFFFFFF ^^^ (0x01 <<< (16 + index))))
      (16 + index) output hlt hs
    show (if output > 0 then _ else _ : Nat).testBit j = _
    rw [hbits2 j]
    show _ = (if output > 0 then _ else _ : Nat).testBit j
    rw [hbits j]
    by_cases hj : j = 16 + index <;> simp [hj]
  · intro index2 output2 hi2 hne
    have hs2 : 16 + index2 < 32 := by omega
    obtain ⟨hlt2, hbitsB⟩ :=
      digital_outputs_written self.epd.rxpdo.digital_outputs (16 + index2) output2 hd hs2
    rw [jsd_epd_set_digital_output_eq _ self index output hi,
      jsd_epd_set_digital_output_eq _ self index2 output2 hi2]
    simp only [Option.some_bind]
    rw [jsd_epd_set_digital_output_eq _ _ index2 output2 hi2,
      jsd_epd_set_digital_output_eq _ _ index output hi]
    have key : (if output2 > 0 then
          (if output > 0 then self.epd.rxpdo.digital_outputs ||| (0x01 <<< (16 + index))
            else self.epd.rxpdo.digital_outputs &&&
              (0xFFFFFFFF ^^^ (0x01 <<< (16 + index)))) ||| (0x01 <<< (16 + index2))
        else
          (if output > 0 then self.epd.rxpdo.digital_outputs ||| (0x01 <<< (16 + index))
            else self.epd.rxpdo.digital_outputs &&&
              (0xFFFFFFFF ^^^ (0x01 <<< (16 + index)))) &&&
            (0xFFFFFFFF ^^^ (0x01 <<< (16 + index2)))) =
        (if output > 0 then
          (if output2 > 0 then self.epd.rxpdo.digital_outputs ||| (0x01 <<< (16 + index2))
            else self.epd.rxpdo.digital_outputs &&&
              (0xFFFFFFFF ^^^ (0x01 <<< (16 + index2)))) ||| (0x01 <<< (16 + index))
        else
          (if output2 > 0 then self.epd.rxpdo.digital_outputs ||| (0x01 <<< (16 + index2))
            else self.epd.rxpdo.digital_outputs &&&
              (0xFFFFFFFF ^^^ (0x01 <<< (16 + index2)))) &&&
            (0xFFFFFFFF ^^^ (0x01 <<< (16 + index)))) := by
      apply Nat.eq_of_testBit_eq
      intro j
      rw [(digital_outputs_written _ (16 + index2) output2 hlt hs2).2 j,
        (digital_outputs_written _ (16 + index) output hlt2 hs).2 j, hbits j, hbitsB j]
      by_cases hj : j = 16 + index
      · have hj2 : j ≠ 16 + index2 := by omega
        rw [if_neg hj2, if_pos hj, if_pos hj]
      · by_cases hj2 : j = 16 + index2
        · rw [if_pos hj2, if_neg hj, if_pos hj2]
        · rw [if_neg hj2, if_neg hj, if_neg hj, if_neg hj2]
    show some ({ self with epd.rxpdo.digital_outputs := _ } : jsd_t) =
      some ({ self with epd.rxpdo.digital_outputs := _ } : jsd_t)
    rw [key]

/-- With four digital outputs and outputs 0 and 2 on (`0x00050000`): switching
output 1 on gives `0x00070000`, and switching output 2 off gives
`0x00010000`. -/
theorem jsd_epd_set_digital_output_spec_witness :
    (∃ s', jsd_epd_set_digital_output 4 slave_digital_outputs 1 1 = some s' ∧
      s'.epd.rxpdo.digital_outputs = 0x00070000) ∧
    (∃ s', jsd_epd_set_digital_output 4 slave_digital_outputs 2 0 = some s' ∧
      s'.epd.rxpdo.digital_outputs = 0x00010000) := by
  constructor
  · obtain ⟨s', hs, _, _, hb, _⟩ := jsd_epd_set_digital_output_spec 4 slave_digital_outputs 1 1
      (by decide) (by decide) (by decide)
    refine ⟨s', hs, ?_⟩
    rw [jsd_epd_set_digital_output_eq 4 _ 1 1 (by decide)] at hs
    simp only [Option.some.injEq] at hs
    subst hs
    decide
  · obtain ⟨s', hs, _, _, hb, _⟩ := jsd_epd_set_digital_output_spec 4 slave_digital_outputs 2 0
      (by decide) (by decide) (by decide)
    refine ⟨s', hs, ?_⟩
    rw [jsd_epd_set_digital_output_eq 4 _ 2 0 (by decide)] at hs
    simp only [Option.some.injEq] at hs
    subst hs
    decide


/-! ## Peak current -/

/-- Shifting right by `k` and masking with 1 reads bit `k`. -/
theorem shiftRight_and_one (n k : Nat) : n >>> k &&& 0x01 = (n.testBit k).toNat := by
  rw [Nat.toNat_testBit, Nat.and_one_is_mod, Nat.shiftRight_eq_div_pow]

/-- C16: after `jsd_epd_update_state_from_PDO_data` the bit-field telemetry is
the documented extraction from the TxPDO: the state is `statusword & 0x006F`;
`warning` and `target_reached` are bits 7 and 10 of the statusword;
`servo_enabled`, `motor_on`, `in_motion` are bits 4, 22, 23 of
`status_register_1`; `sto_engaged` is the negation of the conjunction of its
bits 25 and 26, so it is 0 exactly when both are 1; `hall_state` is
`status_register_2 & 0x7`; `interlock` is bit 3 of `digital_inputs`; and the
public digital input `i` is bit `16 + i` of `digital_inputs`, for every `i`
below `JSD_EPD_NUM_DIGITAL_INPUTS`. -/
theorem jsd_epd_update_state_from_PDO_data_bits (JSD_EPD_NUM_DIGITAL_INPUTS : Nat)
    (self : jsd_t) (real_now mono_now : ℚ) :
    (jsd_epd_update_state_from_PDO_data JSD_EPD_NUM_DIGITAL_INPUTS self real_now
        mono_now).1.epd.pub.actual_state_machine_state =
      self.epd.txpdo.statusword &&& 0x006F ∧
    (jsd_epd_update_state_from_PDO_data JSD_EPD_NUM_DIGITAL_INPUTS self real_now
        mono_now).1.epd.pub.warning = (self.epd.txpdo.statusword.testBit 7).toNat ∧
    (jsd_epd_update_state_from_PDO_data JSD_EPD_NUM_DIGITAL_INPUTS self real_now
        mono_now).1.epd.pub.target_reached = (self.epd.txpdo.statusword.testBit 10).toNat ∧
    (jsd_epd_update_state_from_PDO_data JSD_EPD_NUM_DIGITAL_INPUTS self real_now
        mono_now).1.epd.pub.servo_enabled =
      (self.epd.txpdo.status_register_1.testBit 4).toNat ∧
    (jsd_epd_update_state_from_PDO_data JSD_EPD_NUM_DIGITAL_INPUTS self real_now
        mono_now).1.epd.pub.motor_on = (self.epd.txpdo.status_register_1.testBit 22).toNat ∧
    (jsd_epd_update_state_from_PDO_data JSD_EPD_NUM_DIGITAL_INPUTS self real_now
        mono_now).1.epd.pub.in_motion = (self.epd.txpdo.status_register_1.testBit 23).toNat ∧
    (jsd_epd_update_state_from_PDO_data JSD_EPD_NUM_DIGITAL_INPUTS self real_now
        mono_now).1.epd.pub.sto_engaged =
      (!(self.epd.txpdo.status_register_1.testBit 25 &&
          self.epd.txpdo.status_register_1.testBit 26)).toNat ∧
    ((jsd_epd_update_state_from_PDO_data JSD_EPD_NUM_DIGITAL_INPUTS self real_now
        mono_now).1.epd.pub.sto_engaged = 0 ↔
      (self.epd.txpdo.status_register_1.testBit 25 = true ∧
        self.epd.txpdo.status_register_1.testBit 26 = true)) ∧
    (jsd_epd_update_state_from_PDO_data JSD_EPD_NUM_DIGITAL_INPUTS self real_now
        mono_now).1.epd.pub.hall_state = self.epd.txpdo.status_register_2 &&& 0x7 ∧
    (jsd_epd_update_state_from_PDO_data JSD_EPD_NUM_DIGITAL_INPUTS self real_now
        mono_now).1.epd.interlock = (self.epd.txpdo.digital_inputs.testBit 3).toNat ∧
    (jsd_epd_update_state_from_PDO_data JSD_EPD_NUM_DIGITAL_INPUTS self real_now
        mono_now).1.epd.pub.digital_inputs.length = JSD_EPD_NUM_DIGITAL_INPUTS ∧
    (∀ i, i < JSD_EPD_NUM_DIGITAL_INPUTS →
      (jsd_epd_update_state_from_PDO_data JSD_EPD_NUM_DIGITAL_INPUTS self real_now
          mono_now).1.epd.pub.digital_inputs[i]? =
        some (self.epd.txpdo.digital_inputs.testBit (16 + i)).toNat) := by
  have hsto : (if (self.epd.txpdo.status_register_1 >>> 25 &&& 0x01) &&&
        (self.epd.txpdo.status_register_1 >>> 26 &&& 0x01) = 0 then 1 else 0 : Nat) =
      (!(self.epd.txpdo.status_register_1.testBit 25 &&
          self.epd.txpdo.status_register_1.testBit 26)).toNat := by
    rw [shiftRight_and_one, shiftRight_and_one]
    cases self.epd.txpdo.status_register_1.testBit 25 <;>
      cases self.epd.txpdo.status_register_1.testBit 26 <;> decide
  refine ⟨rfl, shiftRight_and_one _ _, shiftRight_and_one _ _, shiftRight_and_one _ _,
    shiftRight_and_one _ _, shiftRight_and_one _ _, hsto, ?_, ?_, shiftRight_and_one _ _,
    ?_, ?_⟩
  · show (if (self.epd.txpdo.status_register_1 >>> 25 &&& 0x01) &&&
        (self.epd.txpdo.status_register_1 >>> 26 &&& 0x01) = 0 then 1 else 0 : Nat) = 0 ↔ _
    rw [hsto]
    cases self.epd.txpdo.status_register_1.testBit 25 <;>
      cases self.epd.txpdo.status_register_1.testBit 26 <;> decide
  · show self.epd.txpdo.status_register_2 >>> 0 &&& 0x07 = _
    rw [Nat.shiftRight_zero]
  · show ((List.range JSD_EPD_NUM_DIGITAL_INPUTS).map _).length = _
    rw [List.length_map, List.length_range]
  · intro i hi
    show ((List.range JSD_EPD_NUM_DIGITAL_INPUTS).map
      (fun i => self.epd.txpdo.digital_inputs >>> (16 + i) &&& 0x01))[i]? = _
    rw [List.getElem?_map, List.getElem?_range hi, Option.map_some', shiftRight_and_one]

/-- C17: fault-entry edge detection.  `jsd_epd_update_state_from_PDO_data`
records `fault_real_time` and `fault_mono_time`, and signals the emergency
check, exactly when the decoded state is FAULT and differs from
`last_state_machine_state`; otherwise both timestamps are as they were and
nothing is signalled.  After the call `last_state_machine_state` is the decoded
state, so a second read whose frame is again in FAULT keeps the timestamps of
the first and signals nothing. -/
theorem jsd_epd_update_state_from_PDO_data_fault_entry (JSD_EPD_NUM_DIGITAL_INPUTS : Nat)
    (self : jsd_t) (real_now mono_now : ℚ) (inputs2 : jsd_epd_txpdo_data_t)
    (real_now2 mono_now2 : ℚ) :
    ((self.epd.txpdo.statusword &&& JSD_EPD_STATE_MACHINE_STATE_BITMASK =
          JSD_EPD_STATE_MACHINE_STATE_FAULT ∧
        self.epd.txpdo.statusword &&& JSD_EPD_STATE_MACHINE_STATE_BITMASK ≠
          self.epd.last_state_machine_state) →
      (jsd_epd_update_state_from_PDO_data JSD_EPD_NUM_DIGITAL_INPUTS self real_now
          mono_now).1.epd.fault_real_time = real_now ∧
      (jsd_epd_update_state_from_PDO_data JSD_EPD_NUM_DIGITAL_INPUTS self real_now
          mono_now).1.epd.fault_mono_time = mono_now ∧
      (jsd_epd_update_state_from_PDO_data JSD_EPD_NUM_DIGITAL_INPUTS self real_now
          mono_now).2 = true) ∧
    (¬ (self.epd.txpdo.statusword &&& JSD_EPD_STATE_MACHINE_STATE_BITMASK =
          JSD_EPD_STATE_MACHINE_STATE_FAULT ∧
        self.epd.txpdo.statusword &&& JSD_EPD_STATE_MACHINE_STATE_BITMASK ≠
          self.epd.last_state_machine_state) →
      (jsd_epd_update_state_from_PDO_data JSD_EPD_NUM_DIGITAL_INPUTS self real_now
          mono_now).1.epd.fault_real_time = self.epd.fault_real_time ∧
      (jsd_epd_update_state_from_PDO_data JSD_EPD_NUM_DIGITAL_INPUTS self real_now
          mono_now).1.epd.fault_mono_time = self.epd.fault_mono_time ∧
      (jsd_epd_update_state_from_PDO_data JSD_EPD_NUM_DIGITAL_INPUTS self real_now
          mono_now).2 = false) ∧
    (jsd_epd_update_state_from_PDO_data JSD_EPD_NUM_DIGITAL_INPUTS self real_now
        mono_now).1.epd.last_state_machine_state =
      (jsd_epd_update_state_from_PDO_data JSD_EPD_NUM_DIGITAL_INPUTS self real_now
        mono_now).1.epd.pub.actual_state_machine_state ∧
    ((self.epd.txpdo.statusword &&& JSD_EPD_STATE_MACHINE_STATE_BITMASK =
          JSD_EPD_STATE_MACHINE_STATE_FAULT ∧
        inputs2.statusword &&& JSD_EPD_STATE_MACHINE_STATE_BITMASK =
          JSD_EPD_STATE_MACHINE_STATE_FAULT) →
      (jsd_epd_read JSD_EPD_NUM_DIGITAL_INPUTS
          (jsd_epd_update_state_from_PDO_data JSD_EPD_NUM_DIGITAL_INPUTS self real_now
            mono_now).1 inputs2 real_now2 mono_now2).1.epd.fault_real_time =
        (jsd_epd_update_state_from_PDO_data JSD_EPD_NUM_DIGITAL_INPUTS self real_now
          mono_now).1.epd.fault_real_time ∧
      (jsd_epd_read JSD_EPD_NUM_DIGITAL_INPUTS
          (jsd_epd_update_state_from_PDO_data JSD_EPD_NUM_DIGITAL_INPUTS self real_now
            mono_now).1 inputs2 real_now2 mono_now2).1.epd.fault_mono_time =
        (jsd_epd_update_state_from_PDO_data JSD_EPD_NUM_DIGITAL_INPUTS self real_now
          mono_now).1.epd.fault_mono_time ∧
      (jsd_epd_read JSD_EPD_NUM_DIGITAL_INPUTS
          (jsd_epd_update_state_from_PDO_data JSD_EPD_NUM_DIGITAL_INPUTS self real_now
            mono_now).1 inputs2 real_now2 mono_now2).2 = false) := by
  refine ⟨fun h => ?_, fun h => ?_, rfl, fun h => ?_⟩
  · have hc : (decide (self.epd.txpdo.statusword &&& JSD_EPD_STATE_MACHINE_STATE_BITMASK ≠
          self.epd.last_state_machine_state) &&
        decide (self.epd.txpdo.statusword &&& JSD_EPD_STATE_MACHINE_STATE_BITMASK =
          JSD_EPD_STATE_MACHINE_STATE_FAULT)) = true := by
      simp only [Bool.and_eq_true, decide_eq_true_eq]
      exact ⟨h.2, h.1⟩
    simp only [jsd_epd_update_state_from_PDO_data, hc, if_true, and_self]
  · have hc : (decide (self.epd.txpdo.statusword &&& JSD_EPD_STATE_MACHINE_STATE_BITMASK ≠
          self.epd.last_state_machine_state) &&
        decide (self.epd.txpdo.statusword &&& JSD_EPD_STATE_MACHINE_STATE_BITMASK =
          JSD_EPD_STATE_MACHINE_STATE_FAULT)) = false := by
      rw [Bool.eq_false_iff]
      intro hc
      simp only [Bool.and_eq_true, decide_eq_true_eq] at hc
      exact h ⟨hc.2, hc.1⟩
    simp only [jsd_epd_update_state_from_PDO_data, hc, Bool.false_eq_true, if_false, and_self]
  · have hc : (decide (inputs2.statusword &&& JSD_EPD_STATE_MACHINE_STATE_BITMASK ≠
          self.epd.txpdo.statusword &&& JSD_EPD_STATE_MACHINE_STATE_BITMASK) &&
        decide (inputs2.statusword &&& JSD_EPD_STATE_MACHINE_STATE_BITMASK =
          JSD_EPD_STATE_MACHINE_STATE_FAULT)) = false := by
      rw [Bool.eq_false_iff]
      intro hc
      simp only [Bool.and_eq_true, decide_eq_true_eq] at hc
      exact hc.1 (h.2.trans h.1.symm)
    simp only [jsd_epd_read, jsd_epd_update_state_from_PDO_data, hc, Bool.false_eq_true,
      if_false, and_self]


/-! ## The startup configuration -/

theorem sdo_all_succeed_append (sdo : List sdo_request → sdo_request → Option ℚ) :
    ∀ (a log b : List sdo_request),
      sdo_all_succeed sdo log (a ++ b) =
        (sdo_all_succeed sdo log a && sdo_all_succeed sdo (log ++ a) b) := by
  intro a
  induction a with
  | nil => intro log b; simp [sdo_all_succeed]
  | cons x a ih =>
    intro log b
    show ((sdo log x).isSome && sdo_all_succeed sdo (log ++ [x]) (a ++ b)) =
      (((sdo log x).isSome && sdo_all_succeed sdo (log ++ [x]) a) &&
        sdo_all_succeed sdo (log ++ x :: a) b)
    rw [ih, Bool.and_assoc, List.append_assoc, List.singleton_append]

theorem sdo_all_succeed_dropLast (sdo : List sdo_request → sdo_request → Option ℚ)
    (log issued : List sdo_request) (h : sdo_all_succeed sdo log issued = true) :
    sdo_all_succeed sdo log issued.dropLast = true := by
  rcases List.eq_nil_or_concat issued with rfl | ⟨a, x, rfl⟩
  · rfl
  · rw [List.concat_eq_append, sdo_all_succeed_append] at h
    rw [List.concat_eq_append, List.dropLast_concat]
    simp only [Bool.and_eq_true] at h
    exact h.1

theorem sdo_ran_refl (ecx : ecx_contextt) : sdo_ran ecx ecx [] :=
  ⟨[], by simp, rfl, rfl⟩

/-- One more request that succeeds. -/
theorem sdo_ran_step (ecx e : ecx_contextt) (done : List sdo_address) (request : sdo_request)
    (h : sdo_ran ecx e done) (hok : (e.sdo e.sdo_log request).isSome = true) :
    sdo_ran ecx { e with sdo_log := e.sdo_log ++ [request] } (done ++ [request.address]) := by
  obtain ⟨issued, rfl, hmap, hall⟩ := h
  refine ⟨issued ++ [request], by simp, by simp [hmap], ?_⟩
  rw [sdo_all_succeed_append, hall]
  simpa [sdo_all_succeed] using hok

/-- A stage that returns 0 right after one more request. -/
theorem sdo_stage_fail (ecx e : ecx_contextt) (done schedule : List sdo_address)
    (request : sdo_request) (h : sdo_ran ecx e done)
    (hpre : done ++ [request.address] <+: schedule) :
    sdo_stage ecx (0, { e with sdo_log := e.sdo_log ++ [request] }) schedule := by
  obtain ⟨issued, rfl, hmap, hall⟩ := h
  refine ⟨issued ++ [request], by simp, by simpa [hmap] using hpre, ?_, ?_, Or.inl rfl⟩
  · rw [List.dropLast_concat]
    exact hall
  · intro h
    exact absurd (show (0 : Int) = 1 from h) (by decide)

/-- A stage that returns 0 at a check, without a further request. -/
theorem sdo_stage_check_fail (ecx e : ecx_contextt) (done schedule : List sdo_address)
    (h : sdo_ran ecx e done) (hpre : done <+: schedule) :
    sdo_stage ecx (0, e) schedule := by
  obtain ⟨issued, rfl, hmap, hall⟩ := h
  refine ⟨issued, rfl, by simpa [hmap] using hpre,
    sdo_all_succeed_dropLast _ _ _ hall, ?_, Or.inl rfl⟩
  intro h
  exact absurd (show (0 : Int) = 1 from h) (by decide)

/-- A stage that returns 1 after the whole schedule. -/
theorem sdo_stage_done (ecx e : ecx_contextt) (schedule : List sdo_address)
    (h : sdo_ran ecx e schedule) : sdo_stage ecx (1, e) schedule := by
  obtain ⟨issued, rfl, hmap, hall⟩ := h
  exact ⟨issued, rfl, by rw [hmap], sdo_all_succeed_dropLast _ _ _ hall,
    fun _ => ⟨hmap, hall⟩, Or.inr rfl⟩

/-- A stage that returned 1 ran its whole schedule. -/
theorem sdo_stage_ran (ecx : ecx_contextt) (res : Int × ecx_contextt)
    (schedule : List sdo_address) (h : sdo_stage ecx res schedule) (h1 : res.1 = 1) :
    sdo_ran ecx res.2 schedule := by
  obtain ⟨issued, he, _, _, hfull, _⟩ := h
  exact ⟨issued, he, (hfull h1).1, (hfull h1).2⟩

/-- A stage run after a successful one. -/
theorem sdo_ran_stage (ecx e : ecx_contextt) (res : Int × ecx_contextt)
    (s1 s2 : List sdo_address) (h : sdo_ran ecx e s1) (h2 : sdo_stage e res s2) :
    sdo_stage ecx res (s1 ++ s2) := by
  obtain ⟨i1, rfl, hmap1, hall1⟩ := h
  obtain ⟨i2, he, hpre, hdrop, hfull, h01⟩ := h2
  simp only at he hdrop hfull
  refine ⟨i1 ++ i2, by rw [he]; simp, ?_, ?_, ?_, h01⟩
  · rw [List.map_append, hmap1]
    exact (List.prefix_append_right_inj s1).mpr hpre
  · rcases List.eq_nil_or_concat i2 with rfl | ⟨a, x, rfl⟩
    · rw [List.append_nil]
      exact sdo_all_succeed_dropLast _ _ _ hall1
    · rw [List.concat_eq_append, List.dropLast_concat] at hdrop
      rw [List.concat_eq_append, ← List.append_assoc, List.dropLast_concat,
        sdo_all_succeed_append, hall1, hdrop]
      rfl
  · intro h1
    obtain ⟨hm, ha⟩ := hfull h1
    exact ⟨by rw [List.map_append, hmap1, hm], by rw [sdo_all_succeed_append, hall1, ha]; rfl⟩

/-- A stage that returned 0 also follows any longer schedule. -/
theorem sdo_stage_weaken (ecx : ecx_contextt) (res : Int × ecx_contextt)
    (s1 s2 : List sdo_address) (h : sdo_stage ecx res s1) (h0 : res.1 = 0) :
    sdo_stage ecx res (s1 ++ s2) := by
  obtain ⟨issued, he, hpre, hdrop, _, h01⟩ := h
  refine ⟨issued, he, hpre.trans (List.prefix_append s1 s2), hdrop, ?_, h01⟩
  intro h1
  rw [h0] at h1
  exact absurd h1 (by decide)


theorem sdo_ran_set (ecx e : ecx_contextt) (index subindex : Nat)
    (data_type : jsd_sdo_data_type_t) (value : ℚ) (done : List sdo_address)
    (h : sdo_ran ecx e done)
    (hok : (jsd_sdo_set_param_blocking e index subindex data_type value).1 = true) :
    sdo_ran ecx (jsd_sdo_set_param_blocking e index subindex data_type value).2
      (done ++ [⟨sdo_kind.set, index, subindex⟩]) :=
  sdo_ran_step ecx e done _ h hok

theorem sdo_ran_set_ca (ecx e : ecx_contextt) (index subindex param_size : Nat)
    (param : List Nat) (done : List sdo_address)
    (h : sdo_ran ecx e done)
    (hok : (jsd_sdo_set_ca_param_blocking e index subindex param_size param).1 = true) :
    sdo_ran ecx (jsd_sdo_set_ca_param_blocking e index subindex param_size param).2
      (done ++ [⟨sdo_kind.set_ca, index, subindex⟩]) :=
  sdo_ran_step ecx e done _ h hok

theorem sdo_ran_get (ecx e : ecx_contextt) (index subindex : Nat)
    (data_type : jsd_sdo_data_type_t) (value : ℚ) (done : List sdo_address)
    (h : sdo_ran ecx e done)
    (hok : (jsd_sdo_get_param_blocking e index subindex data_type).1 = some value) :
    sdo_ran ecx (jsd_sdo_get_param_blocking e index subindex data_type).2
      (done ++ [⟨sdo_kind.get, index, subindex⟩]) :=
  sdo_ran_step ecx e done (sdo_request.get_param index subindex data_type) h
    (by
      have h' : e.sdo e.sdo_log (sdo_request.get_param index subindex data_type) =
        some value := hok
      rw [h']
      rfl)

theorem sdo_stage_fail_set (ecx e : ecx_contextt) (index subindex : Nat)
    (data_type : jsd_sdo_data_type_t) (value : ℚ) (done schedule : List sdo_address)
    (h : sdo_ran ecx e done)
    (hpre : done ++ [⟨sdo_kind.set, index, subindex⟩] <+: schedule) :
    sdo_stage ecx (0, (jsd_sdo_set_param_blocking e index subindex data_type value).2)
      schedule :=
  sdo_stage_fail ecx e done schedule _ h hpre

theorem sdo_stage_fail_set_ca (ecx e : ecx_contextt) (index subindex param_size : Nat)
    (param : List Nat) (done schedule : List sdo_address)
    (h : sdo_ran ecx e done)
    (hpre : done ++ [⟨sdo_kind.set_ca, index, subindex⟩] <+: schedule) :
    sdo_stage ecx (0, (jsd_sdo_set_ca_param_blocking e index subindex param_size param).2)
      schedule :=
  sdo_stage_fail ecx e done schedule _ h hpre

theorem sdo_stage_fail_get (ecx e : ecx_contextt) (index subindex : Nat)
    (data_type : jsd_sdo_data_type_t) (done schedule : List sdo_address)
    (h : sdo_ran ecx e done)
    (hpre : done ++ [⟨sdo_kind.get, index, subindex⟩] <+: schedule) :
    sdo_stage ecx (0, (jsd_sdo_get_param_blocking e index subindex data_type).2) schedule :=
  sdo_stage_fail ecx e done schedule
    (sdo_request.get_param index subindex data_type) h hpre

/-- The PDO mapping stage follows its schedule. -/
theorem jsd_epd_config_PDO_mapping_stage (ecx : ecx_contextt) :
    sdo_stage ecx (jsd_epd_config_PDO_mapping ecx) jsd_epd_PDO_mapping_schedule := by
  unfold jsd_epd_config_PDO_mapping
  simp only
  have h0 := sdo_ran_refl ecx
  split
  · exact sdo_stage_fail_set_ca ecx _ _ _ _ _ _ _ h0 (by decide)
  rename_i c
  simp only [Bool.not_eq_true', Bool.not_eq_false] at c
  have h1 := sdo_ran_set_ca ecx _ _ _ _ _ _ h0 c
  clear c
  split
  · exact sdo_stage_fail_set_ca ecx _ _ _ _ _ _ _ h1 (by decide)
  rename_i c
  simp only [Bool.not_eq_true', Bool.not_eq_false] at c
  have h2 := sdo_ran_set_ca ecx _ _ _ _ _ _ h1 c
  clear c
  split
  · exact sdo_stage_fail_set_ca ecx _ _ _ _ _ _ _ h2 (by decide)
  rename_i c
  simp only [Bool.not_eq_true', Bool.not_eq_false] at c
  have h3 := sdo_ran_set_ca ecx _ _ _ _ _ _ h2 c
  clear c
  split
  · exact sdo_stage_fail_set_ca ecx _ _ _ _ _ _ _ h3 (by decide)
  rename_i c
  simp only [Bool.not_eq_true', Bool.not_eq_false] at c
  have h4 := sdo_ran_set_ca ecx _ _ _ _ _ _ h3 c
  clear c
  split
  · exact sdo_stage_fail_set_ca ecx _ _ _ _ _ _ _ h4 (by decide)
  rename_i c
  simp only [Bool.not_eq_true', Bool.not_eq_false] at c
  have h5 := sdo_ran_set_ca ecx _ _ _ _ _ _ h4 c
  clear c
  split
  · exact sdo_stage_fail_set_ca ecx _ _ _ _ _ _ _ h5 (by decide)
  rename_i c
  simp only [Bool.not_eq_true', Bool.not_eq_false] at c
  have h6 := sdo_ran_set_ca ecx _ _ _ _ _ _ h5 c
  clear c
  exact sdo_stage_done ecx _ _ h6


/-- The CiA-402 stage follows its schedule. -/
theorem jsd_epd_config_COE_params_stage (ecx : ecx_contextt) (config : jsd_slave_config_t) :
    sdo_stage ecx (jsd_epd_config_COE_params ecx config) jsd_epd_COE_schedule := by
  unfold jsd_epd_config_COE_params
  lift_lets
  intro controlword r1 pos_opt_code r2 loop_period_ms r3 extra_cycles r4
    quick_stop_opt_code r5 motor_rated_current r6 torque_slope r7 g
  have h0 := sdo_ran_refl ecx
  by_cases c1 : r1.1 = true
  swap
  · rw [if_pos (by simpa using c1)]
    exact sdo_stage_fail_set ecx _ _ _ _ _ _ _ h0 (by decide)
  rw [if_neg (by simpa using c1)]
  have h1 := sdo_ran_set ecx _ _ _ _ _ _ h0 c1
  by_cases c2 : r2.1 = true
  swap
  · rw [if_pos (by simpa using c2)]
    exact sdo_stage_fail_set ecx _ _ _ _ _ _ _ h1 (by decide)
  rw [if_neg (by simpa using c2)]
  have h2 := sdo_ran_set ecx _ _ _ _ _ _ h1 c2
  by_cases c3 : r3.1 = true
  swap
  · rw [if_pos (by simpa using c3)]
    exact sdo_stage_fail_set ecx _ _ _ _ _ _ _ h2 (by decide)
  rw [if_neg (by simpa using c3)]
  have h3 := sdo_ran_set ecx _ _ _ _ _ _ h2 c3
  by_cases c4 : r4.1 = true
  swap
  · rw [if_pos (by simpa using c4)]
    exact sdo_stage_fail_set ecx _ _ _ _ _ _ _ h3 (by decide)
  rw [if_neg (by simpa using c4)]
  have h4 := sdo_ran_set ecx _ _ _ _ _ _ h3 c4
  by_cases c5 : r5.1 = true
  swap
  · rw [if_pos (by simpa using c5)]
    exact sdo_stage_fail_set ecx _ _ _ _ _ _ _ h4 (by decide)
  rw [if_neg (by simpa using c5)]
  have h5 := sdo_ran_set ecx _ _ _ _ _ _ h4 c5
  by_cases c6 : r6.1 = true
  swap
  · rw [if_pos (by simpa using c6)]
    exact sdo_stage_fail_set ecx _ _ _ _ _ _ _ h5 (by decide)
  rw [if_neg (by simpa using c6)]
  have h6 := sdo_ran_set ecx _ _ _ _ _ _ h5 c6
  by_cases c7 : r7.1 = true
  swap
  · rw [if_pos (by simpa using c7)]
    exact sdo_stage_fail_set ecx _ _ _ _ _ _ _ h6 (by decide)
  rw [if_neg (by simpa using c7)]
  have h7 := sdo_ran_set ecx _ _ _ _ _ _ h6 c7
  cases c8 : g.1 with
  | none => exact sdo_stage_fail_get ecx _ _ _ _ _ _ h7 (by decide)
  | some value =>
    have h8 := sdo_ran_get ecx _ _ _ _ value _ h7 c8
    dsimp only
    by_cases hneg : config.epd.max_motor_speed < 0
    · rw [if_pos hneg]
      exact sdo_stage_check_fail ecx _ _ _ h8 (by decide)
    rw [if_neg hneg]
    by_cases c9 : (jsd_sdo_set_param_blocking g.2 0x6080 0 jsd_sdo_data_type_t.JSD_SDO_DATA_U32
        (double_to_uint32 (config.epd.max_motor_speed / value * 60))).1 = true
    swap
    · rw [if_pos (by simpa using c9)]
      exact sdo_stage_fail_set ecx _ _ _ _ _ _ _ h8 (by decide)
    rw [if_neg (by simpa using c9)]
    have h9 := sdo_ran_set ecx _ _ _ _ _ _ h8 c9
    exact sdo_stage_done ecx _ _ h9

/-- The letter-command stage follows its schedule. -/
theorem jsd_epd_config_LC_params_stage (ecx : ecx_contextt) (config : jsd_slave_config_t) :
    sdo_stage ecx (jsd_epd_config_LC_params ecx config) jsd_epd_LC_schedule := by
  unfold jsd_epd_config_LC_params
  lift_lets
  intro r1 r2 r3 r4 r5 r6 r7 r8 r9 r10 r11 r12 r13 r14 r15 r16 g u
  have h0 := sdo_ran_refl ecx
  by_cases c1 : r1.1 = true
  swap
  · rw [if_pos (by simpa using c1)]
    exact sdo_stage_fail_set ecx _ _ _ _ _ _ _ h0 (by decide)
  rw [if_neg (by simpa using c1)]
  have h1 := sdo_ran_set ecx _ _ _ _ _ _ h0 c1
  by_cases c2 : r2.1 = true
  swap
  · rw [if_pos (by simpa using c2)]
    exact sdo_stage_fail_set ecx _ _ _ _ _ _ _ h1 (by decide)
  rw [if_neg (by simpa using c2)]
  have h2 := sdo_ran_set ecx _ _ _ _ _ _ h1 c2
  by_cases c3 : r3.1 = true
  swap
  · rw [if_pos (by simpa using c3)]
    exact sdo_stage_fail_set ecx _ _ _ _ _ _ _ h2 (by decide)
  rw [if_neg (by simpa using c3)]
  have h3 := sdo_ran_set ecx _ _ _ _ _ _ h2 c3
  by_cases c4 : r4.1 = true
  swap
  · rw [if_pos (by simpa using c4)]
    exact sdo_stage_fail_set ecx _ _ _ _ _ _ _ h3 (by decide)
  rw [if_neg (by simpa using c4)]
  have h4 := sdo_ran_set ecx _ _ _ _ _ _ h3 c4
  by_cases c5 : r5.1 = true
  swap
  · rw [if_pos (by simpa using c5)]
    exact sdo_stage_fail_set ecx _ _ _ _ _ _ _ h4 (by decide)
  rw [if_neg (by simpa using c5)]
  have h5 := sdo_ran_set ecx _ _ _ _ _ _ h4 c5
  by_cases c6 : r6.1 = true
  swap
  · rw [if_pos (by simpa using c6)]
    exact sdo_stage_fail_set ecx _ _ _ _ _ _ _ h5 (by decide)
  rw [if_neg (by simpa using c6)]
  have h6 := sdo_ran_set ecx _ _ _ _ _ _ h5 c6
  by_cases c7 : r7.1 = true
  swap
  · rw [if_pos (by simpa using c7)]
    exact sdo_stage_fail_set ecx _ _ _ _ _ _ _ h6 (by decide)
  rw [if_neg (by simpa using c7)]
  have h7 := sdo_ran_set ecx _ _ _ _ _ _ h6 c7
  by_cases c8 : r8.1 = true
  swap
  · rw [if_pos (by simpa using c8)]
    exact sdo_stage_fail_set ecx _ _ _ _ _ _ _ h7 (by decide)
  rw [if_neg (by simpa using c8)]
  have h8 := sdo_ran_set ecx _ _ _ _ _ _ h7 c8
  by_cases c9 : r9.1 = true
  swap
  · rw [if_pos (by simpa using c9)]
    exact sdo_stage_fail_set ecx _ _ _ _ _ _ _ h8 (by decide)
  rw [if_neg (by simpa using c9)]
  have h9 := sdo_ran_set ecx _ _ _ _ _ _ h8 c9
  by_cases c10 : r10.1 = true
  swap
  · rw [if_pos (by simpa using c10)]
    exact sdo_stage_fail_set ecx _ _ _ _ _ _ _ h9 (by decide)
  rw [if_neg (by simpa using c10)]
  have h10 := sdo_ran_set ecx _ _ _ _ _ _ h9 c10
  by_cases c11 : r11.1 = true
  swap
  · rw [if_pos (by simpa using c11)]
    exact sdo_stage_fail_set ecx _ _ _ _ _ _ _ h10 (by decide)
  rw [if_neg (by simpa using c11)]
  have h11 := sdo_ran_set ecx _ _ _ _ _ _ h10 c11
  by_cases c12 : r12.1 = true
  swap
  · rw [if_pos (by simpa using c12)]
    exact sdo_stage_fail_set ecx _ _ _ _ _ _ _ h11 (by decide)
  rw [if_neg (by simpa using c12)]
  have h12 := sdo_ran_set ecx _ _ _ _ _ _ h11 c12
  by_cases c13 : r13.1 = true
  swap
  · rw [if_pos (by simpa using c13)]
    exact sdo_stage_fail_set ecx _ _ _ _ _ _ _ h12 (by decide)
  rw [if_neg (by simpa using c13)]
  have h13 := sdo_ran_set ecx _ _ _ _ _ _ h12 c13
  by_cases c14 : r14.1 = true
  swap
  · rw [if_pos (by simpa using c14)]
    exact sdo_stage_fail_set ecx _ _ _ _ _ _ _ h13 (by decide)
  rw [if_neg (by simpa using c14)]
  have h14 := sdo_ran_set ecx _ _ _ _ _ _ h13 c14
  by_cases c15 : r15.1 = true
  swap
  · rw [if_pos (by simpa using c15)]
    exact sdo_stage_fail_set ecx _ _ _ _ _ _ _ h14 (by decide)
  rw [if_neg (by simpa using c15)]
  have h15 := sdo_ran_set ecx _ _ _ _ _ _ h14 c15
  by_cases c16 : r16.1 = true
  swap
  · rw [if_pos (by simpa using c16)]
    exact sdo_stage_fail_set ecx _ _ _ _ _ _ _ h15 (by decide)
  rw [if_neg (by simpa using c16)]
  have h16 := sdo_ran_set ecx _ _ _ _ _ _ h15 c16
  cases c17 : g.1 with
  | none => exact sdo_stage_fail_get ecx _ _ _ _ _ _ h16 (by decide)
  | some value =>
    have h17 := sdo_ran_get ecx _ _ _ _ value _ h16 c17
    dsimp only
    by_cases hpeak : config.epd.peak_current_limit > value
    · rw [if_pos hpeak]
      exact sdo_stage_check_fail ecx _ _ _ h17 (by decide)
    rw [if_neg hpeak]
    by_cases hcont : config.epd.continuous_current_limit > config.epd.peak_current_limit
    · rw [if_pos hcont]
      exact sdo_stage_check_fail ecx _ _ _ h17 (by decide)
    rw [if_neg hcont]
    cases c18 : u.1 with
    | none => exact sdo_stage_fail_get ecx _ _ _ _ _ _ h17 (by decide)
    | some um =>
      have h18 := sdo_ran_get ecx _ _ _ _ um _ h17 c18
      exact sdo_stage_done ecx _ _ h18


/-- A stage leaves the transport as it is. -/
theorem sdo_stage_sdo (ecx : ecx_contextt) (res : Int × ecx_contextt)
    (schedule : List sdo_address) (h : sdo_stage ecx res schedule) :
    res.2.sdo = ecx.sdo := by
  obtain ⟨issued, he, _⟩ := h
  rw [he]

/-- A stage result with its return value spelled out. -/
theorem sdo_stage_eq (ecx : ecx_contextt) (res : Int × ecx_contextt)
    (schedule : List sdo_address) (v : Int) (h : sdo_stage ecx res schedule)
    (hv : res.1 = v) : sdo_stage ecx (v, res.2) schedule := by
  obtain ⟨a, b⟩ := res
  simp only at hv
  subst hv
  exact h

/-- The whole startup configuration follows the three schedules in turn; it
sets `PO2SO_success` when it returns 1 and leaves the configuration as it was
when it returns 0. -/
theorem jsd_epd_PO2SO_config_stage (ecx : ecx_contextt) (config : jsd_slave_config_t) :
    sdo_stage ecx ((jsd_epd_PO2SO_config ecx config).1, (jsd_epd_PO2SO_config ecx config).2.1)
      (jsd_epd_PDO_mapping_schedule ++ (jsd_epd_COE_schedule ++ jsd_epd_LC_schedule)) ∧
    ((jsd_epd_PO2SO_config ecx config).1 = 1 →
      (jsd_epd_PO2SO_config ecx config).2.2 = { config with PO2SO_success := true }) ∧
    ((jsd_epd_PO2SO_config ecx config).1 = 0 →
      (jsd_epd_PO2SO_config ecx config).2.2 = config) := by
  have s1 := jsd_epd_config_PDO_mapping_stage ecx
  have s2 := jsd_epd_config_COE_params_stage (jsd_epd_config_PDO_mapping ecx).2 config
  have s3 := jsd_epd_config_LC_params_stage
    (jsd_epd_config_COE_params (jsd_epd_config_PDO_mapping ecx).2 config).2 config
  unfold jsd_epd_PO2SO_config
  dsimp only
  by_cases h1 : (jsd_epd_config_PDO_mapping ecx).1 = 0
  · rw [if_pos h1]
    exact ⟨sdo_stage_weaken _ (_, _) _ _ (sdo_stage_eq _ _ _ _ s1 h1) rfl,
      fun h => absurd (show (0 : Int) = 1 from h) (by decide), fun _ => rfl⟩
  rw [if_neg h1]
  have h1' : (jsd_epd_config_PDO_mapping ecx).1 = 1 := by
    obtain ⟨_, _, _, _, _, h01⟩ := s1
    exact h01.resolve_left h1
  have ran1 := sdo_stage_ran _ _ _ s1 h1'
  by_cases h2 : (jsd_epd_config_COE_params (jsd_epd_config_PDO_mapping ecx).2 config).1 = 0
  · rw [if_pos h2]
    refine ⟨sdo_ran_stage _ _ (_, _) _ _ ran1 (sdo_stage_weaken _ (_, _) _ _ ?_ rfl),
      fun h => absurd (show (0 : Int) = 1 from h) (by decide), fun _ => rfl⟩
    exact sdo_stage_eq _ _ _ _ s2 h2
  rw [if_neg h2]
  have h2' : (jsd_epd_config_COE_params (jsd_epd_config_PDO_mapping ecx).2 config).1 = 1 := by
    obtain ⟨_, _, _, _, _, h01⟩ := s2
    exact h01.resolve_left h2
  have ran2 := sdo_stage_ran _ _ _ s2 h2'
  by_cases h3 : (jsd_epd_config_LC_params
      (jsd_epd_config_COE_params (jsd_epd_config_PDO_mapping ecx).2 config).2 config).1 = 0
  · rw [if_pos h3]
    refine ⟨sdo_ran_stage _ _ (_, _) _ _ ran1 (sdo_ran_stage _ _ (_, _) _ _ ran2 ?_),
      fun h => absurd (show (0 : Int) = 1 from h) (by decide), fun _ => rfl⟩
    exact sdo_stage_eq _ _ _ _ s3 h3
  rw [if_neg h3]
  have h3' : (jsd_epd_config_LC_params
      (jsd_epd_config_COE_params (jsd_epd_config_PDO_mapping ecx).2 config).2 config).1 = 1 := by
    obtain ⟨_, _, _, _, _, h01⟩ := s3
    exact h01.resolve_left h3
  refine ⟨sdo_ran_stage _ _ (_, _) _ _ ran1 (sdo_ran_stage _ _ (_, _) _ _ ran2 ?_),
    fun _ => rfl, fun h => absurd (show (1 : Int) = 0 from h) (by decide)⟩
  exact sdo_stage_eq _ _ _ _ s3 h3'

/-- A write over a transport that never fails succeeds. -/
theorem sdo_set_ok (e : ecx_contextt) (index subindex : Nat)
    (data_type : jsd_sdo_data_type_t) (value : ℚ)
    (sdo : List sdo_request → sdo_request → Option ℚ) (hs : e.sdo = sdo)
    (hok : ∀ log request, (sdo log request).isSome = true) :
    (jsd_sdo_set_param_blocking e index subindex data_type value).1 = true := by
  show (e.sdo _ _).isSome = true
  rw [hs]
  exact hok _ _

/-- A complete-access write over a transport that never fails succeeds. -/
theorem sdo_set_ca_ok (e : ecx_contextt) (index subindex param_size : Nat)
    (param : List Nat)
    (sdo : List sdo_request → sdo_request → Option ℚ) (hs : e.sdo = sdo)
    (hok : ∀ log request, (sdo log request).isSome = true) :
    (jsd_sdo_set_ca_param_blocking e index subindex param_size param).1 = true := by
  show (e.sdo _ _).isSome = true
  rw [hs]
  exact hok _ _

/-- A read over a transport that answers it with `value`. -/
theorem sdo_get_ok (e : ecx_contextt) (index subindex : Nat)
    (data_type : jsd_sdo_data_type_t) (value : ℚ)
    (sdo : List sdo_request → sdo_request → Option ℚ) (hs : e.sdo = sdo)
    (hval : ∀ log, sdo log (sdo_request.get_param index subindex data_type) = some value) :
    (jsd_sdo_get_param_blocking e index subindex data_type).1 = some value := by
  show e.sdo _ _ = some value
  rw [hs]
  exact hval _

/-- A read over a transport that never fails succeeds. -/
theorem sdo_get_isSome (e : ecx_contextt) (index subindex : Nat)
    (data_type : jsd_sdo_data_type_t)
    (sdo : List sdo_request → sdo_request → Option ℚ) (hs : e.sdo = sdo)
    (hok : ∀ log request, (sdo log request).isSome = true) :
    (jsd_sdo_get_param_blocking e index subindex data_type).1.isSome = true := by
  show (e.sdo _ _).isSome = true
  rw [hs]
  exact hok _ _

/-- With a transport that never fails, the PDO mapping stage returns 1. -/
theorem jsd_epd_config_PDO_mapping_ok (ecx : ecx_contextt)
    (hok : ∀ log request, (ecx.sdo log request).isSome = true) :
    (jsd_epd_config_PDO_mapping ecx).1 = 1 := by
  unfold jsd_epd_config_PDO_mapping
  lift_lets
  intro r1 r2 r3 r4 r5 r6
  have hs0 : ecx.sdo = ecx.sdo := rfl
  have c1 : r1.1 = true := sdo_set_ca_ok _ _ _ _ _ _ hs0 hok
  have hs1 : r1.2.sdo = ecx.sdo := hs0
  rw [if_neg (by simpa using c1)]
  have c2 : r2.1 = true := sdo_set_ca_ok _ _ _ _ _ _ hs1 hok
  have hs2 : r2.2.sdo = ecx.sdo := hs1
  rw [if_neg (by simpa using c2)]
  have c3 : r3.1 = true := sdo_set_ca_ok _ _ _ _ _ _ hs2 hok
  have hs3 : r3.2.sdo = ecx.sdo := hs2
  rw [if_neg (by simpa using c3)]
  have c4 : r4.1 = true := sdo_set_ca_ok _ _ _ _ _ _ hs3 hok
  have hs4 : r4.2.sdo = ecx.sdo := hs3
  rw [if_neg (by simpa using c4)]
  have c5 : r5.1 = true := sdo_set_ca_ok _ _ _ _ _ _ hs4 hok
  have hs5 : r5.2.sdo = ecx.sdo := hs4
  rw [if_neg (by simpa using c5)]
  have c6 : r6.1 = true := sdo_set_ca_ok _ _ _ _ _ _ hs5 hok
  have hs6 : r6.2.sdo = ecx.sdo := hs5
  rw [if_neg (by simpa using c6)]

/-- With a transport that never fails and `ca_18` read from CA[18], the CiA-402
stage returns 0 exactly when `max_motor_speed` is negative, and otherwise its
last request is the write of the truncated rpm value to 0x6080. -/
theorem jsd_epd_config_COE_params_ok (ecx : ecx_contextt) (config : jsd_slave_config_t)
    (ca_18 : ℚ)
    (hok : ∀ log request, (ecx.sdo log request).isSome = true)
    (hca : ∀ log, ecx.sdo log (sdo_request.get_param 0x3052 18
      jsd_sdo_data_type_t.JSD_SDO_DATA_I64) = some ca_18) :
    (jsd_epd_config_COE_params ecx config).1 =
      (if config.epd.max_motor_speed < 0 then 0 else 1) ∧
    (¬ config.epd.max_motor_speed < 0 →
      ∃ log, (jsd_epd_config_COE_params ecx config).2.sdo_log =
        log ++ [sdo_request.set_param 0x6080 0 jsd_sdo_data_type_t.JSD_SDO_DATA_U32
          (double_to_uint32 (config.epd.max_motor_speed / ca_18 * 60))]) := by
  unfold jsd_epd_config_COE_params
  lift_lets
  intro controlword r1 pos_opt_code r2 loop_period_ms r3 extra_cycles r4
    quick_stop_opt_code r5 motor_rated_current r6 torque_slope r7 g
  have hs0 : ecx.sdo = ecx.sdo := rfl
  have c1 : r1.1 = true := sdo_set_ok _ _ _ _ _ _ hs0 hok
  have hs1 : r1.2.sdo = ecx.sdo := hs0
  rw [if_neg (by simpa using c1)]
  have c2 : r2.1 = true := sdo_set_ok _ _ _ _ _ _ hs1 hok
  have hs2 : r2.2.sdo = ecx.sdo := hs1
  rw [if_neg (by simpa using c2)]
  have c3 : r3.1 = true := sdo_set_ok _ _ _ _ _ _ hs2 hok
  have hs3 : r3.2.sdo = ecx.sdo := hs2
  rw [if_neg (by simpa using c3)]
  have c4 : r4.1 = true := sdo_set_ok _ _ _ _ _ _ hs3 hok
  have hs4 : r4.2.sdo = ecx.sdo := hs3
  rw [if_neg (by simpa using c4)]
  have c5 : r5.1 = true := sdo_set_ok _ _ _ _ _ _ hs4 hok
  have hs5 : r5.2.sdo = ecx.sdo := hs4
  rw [if_neg (by simpa using c5)]
  have c6 : r6.1 = true := sdo_set_ok _ _ _ _ _ _ hs5 hok
  have hs6 : r6.2.sdo = ecx.sdo := hs5
  rw [if_neg (by simpa using c6)]
  have c7 : r7.1 = true := sdo_set_ok _ _ _ _ _ _ hs6 hok
  have hs7 : r7.2.sdo = ecx.sdo := hs6
  rw [if_neg (by simpa using c7)]
  have cg : g.1 = some ca_18 := sdo_get_ok _ _ _ _ _ _ hs7 hca
  have hs8 : g.2.sdo = ecx.sdo := hs7
  rw [cg]
  dsimp only
  by_cases hneg : config.epd.max_motor_speed < 0
  · rw [if_pos hneg, if_pos hneg]
    exact ⟨rfl, fun h => absurd hneg h⟩
  rw [if_neg hneg, if_neg hneg]
  have c9 : (jsd_sdo_set_param_blocking g.2 0x6080 0 jsd_sdo_data_type_t.JSD_SDO_DATA_U32
      (double_to_uint32 (config.epd.max_motor_speed / ca_18 * 60))).1 = true :=
    sdo_set_ok _ _ _ _ _ _ hs8 hok
  rw [if_neg (by simpa using c9)]
  exact ⟨rfl, fun _ => ⟨g.2.sdo_log, rfl⟩⟩

/-- With a transport that never fails and `drive_max_current` read from MC[1],
the letter-command stage returns 1 exactly when the two checks of the current
limits pass. -/
theorem jsd_epd_config_LC_params_ok (ecx : ecx_contextt) (config : jsd_slave_config_t)
    (drive_max_current : ℚ)
    (hok : ∀ log request, (ecx.sdo log request).isSome = true)
    (hmc : ∀ log, ecx.sdo log (sdo_request.get_param 0x31BC 1
      jsd_sdo_data_type_t.JSD_SDO_DATA_FLOAT) = some drive_max_current) :
    (jsd_epd_config_LC_params ecx config).1 =
      (if config.epd.peak_current_limit > drive_max_current then 0
       else if config.epd.continuous_current_limit > config.epd.peak_current_limit then 0
       else 1) := by
  unfold jsd_epd_config_LC_params
  lift_lets
  intro r1 r2 r3 r4 r5 r6 r7 r8 r9 r10 r11 r12 r13 r14 r15 r16 g u
  have hs0 : ecx.sdo = ecx.sdo := rfl
  have c1 : r1.1 = true := sdo_set_ok _ _ _ _ _ _ hs0 hok
  have hs1 : r1.2.sdo = ecx.sdo := hs0
  rw [if_neg (by simpa using c1)]
  have c2 : r2.1 = true := sdo_set_ok _ _ _ _ _ _ hs1 hok
  have hs2 : r2.2.sdo = ecx.sdo := hs1
  rw [if_neg (by simpa using c2)]
  have c3 : r3.1 = true := sdo_set_ok _ _ _ _ _ _ hs2 hok
  have hs3 : r3.2.sdo = ecx.sdo := hs2
  rw [if_neg (by simpa using c3)]
  have c4 : r4.1 = true := sdo_set_ok _ _ _ _ _ _ hs3 hok
  have hs4 : r4.2.sdo = ecx.sdo := hs3
  rw [if_neg (by simpa using c4)]
  have c5 : r5.1 = true := sdo_set_ok _ _ _ _ _ _ hs4 hok
  have hs5 : r5.2.sdo = ecx.sdo := hs4
  rw [if_neg (by simpa using c5)]
  have c6 : r6.1 = true := sdo_set_ok _ _ _ _ _ _ hs5 hok
  have hs6 : r6.2.sdo = ecx.sdo := hs5
  rw [if_neg (by simpa using c6)]
  have c7 : r7.1 = true := sdo_set_ok _ _ _ _ _ _ hs6 hok
  have hs7 : r7.2.sdo = ecx.sdo := hs6
  rw [if_neg (by simpa using c7)]
  have c8 : r8.1 = true := sdo_set_ok _ _ _ _ _ _ hs7 hok
  have hs8 : r8.2.sdo = ecx.sdo := hs7
  rw [if_neg (by simpa using c8)]
  have c9 : r9.1 = true := sdo_set_ok _ _ _ _ _ _ hs8 hok
  have hs9 : r9.2.sdo = ecx.sdo := hs8
  rw [if_neg (by simpa using c9)]
  have c10 : r10.1 = true := sdo_set_ok _ _ _ _ _ _ hs9 hok
  have hs10 : r10.2.sdo = ecx.sdo := hs9
  rw [if_neg (by simpa using c10)]
  have c11 : r11.1 = true := sdo_set_ok _ _ _ _ _ _ hs10 hok
  have hs11 : r11.2.sdo = ecx.sdo := hs10
  rw [if_neg (by simpa using c11)]
  have c12 : r12.1 = true := sdo_set_ok _ _ _ _ _ _ hs11 hok
  have hs12 : r12.2.sdo = ecx.sdo := hs11
  rw [if_neg (by simpa using c12)]
  have c13 : r13.1 = true := sdo_set_ok _ _ _ _ _ _ hs12 hok
  have hs13 : r13.2.sdo = ecx.sdo := hs12
  rw [if_neg (by simpa using c13)]
  have c14 : r14.1 = true := sdo_set_ok _ _ _ _ _ _ hs13 hok
  have hs14 : r14.2.sdo = ecx.sdo := hs13
  rw [if_neg (by simpa using c14)]
  have c15 : r15.1 = true := sdo_set_ok _ _ _ _ _ _ hs14 hok
  have hs15 : r15.2.sdo = ecx.sdo := hs14
  rw [if_neg (by simpa using c15)]
  have c16 : r16.1 = true := sdo_set_ok _ _ _ _ _ _ hs15 hok
  have hs16 : r16.2.sdo = ecx.sdo := hs15
  rw [if_neg (by simpa using c16)]
  have cg : g.1 = some drive_max_current := sdo_get_ok _ _ _ _ _ _ hs16 hmc
  have hs17 : g.2.sdo = ecx.sdo := hs16
  rw [cg]
  dsimp only
  by_cases hpeak : config.epd.peak_current_limit > drive_max_current
  · rw [if_pos hpeak, if_pos hpeak]
  rw [if_neg hpeak, if_neg hpeak]
  by_cases hcont : config.epd.continuous_current_limit > config.epd.peak_current_limit
  · rw [if_pos hcont, if_pos hcont]
  rw [if_neg hcont, if_neg hcont]
  have cu : (u.1).isSome = true := sdo_get_isSome _ _ _ _ _ hs17 hok
  cases hu : u.1 with
  | none => rw [hu] at cu; exact absurd cu (by decide)
  | some um => rfl


/-- When the CiA-402 stage returns 1, `max_motor_speed` is not negative. -/
theorem jsd_epd_config_COE_params_checks (ecx : ecx_contextt)
    (config : jsd_slave_config_t) :
    (jsd_epd_config_COE_params ecx config).1 = 1 → 0 ≤ config.epd.max_motor_speed := by
  unfold jsd_epd_config_COE_params
  lift_lets
  intro controlword r1 pos_opt_code r2 loop_period_ms r3 extra_cycles r4
    quick_stop_opt_code r5 motor_rated_current r6 torque_slope r7 g
  have hs0 : ecx.sdo = ecx.sdo := rfl
  by_cases c1 : r1.1 = true
  swap
  · rw [if_pos (by simpa using c1)]
    intro h
    exact absurd (show (0 : Int) = 1 from h) (by decide)
  rw [if_neg (by simpa using c1)]
  have hs1 : r1.2.sdo = ecx.sdo := hs0
  by_cases c2 : r2.1 = true
  swap
  · rw [if_pos (by simpa using c2)]
    intro h
    exact absurd (show (0 : Int) = 1 from h) (by decide)
  rw [if_neg (by simpa using c2)]
  have hs2 : r2.2.sdo = ecx.sdo := hs1
  by_cases c3 : r3.1 = true
  swap
  · rw [if_pos (by simpa using c3)]
    intro h
    exact absurd (show (0 : Int) = 1 from h) (by decide)
  rw [if_neg (by simpa using c3)]
  have hs3 : r3.2.sdo = ecx.sdo := hs2
  by_cases c4 : r4.1 = true
  swap
  · rw [if_pos (by simpa using c4)]
    intro h
    exact absurd (show (0 : Int) = 1 from h) (by decide)
  rw [if_neg (by simpa using c4)]
  have hs4 : r4.2.sdo = ecx.sdo := hs3
  by_cases c5 : r5.1 = true
  swap
  · rw [if_pos (by simpa using c5)]
    intro h
    exact absurd (show (0 : Int) = 1 from h) (by decide)
  rw [if_neg (by simpa using c5)]
  have hs5 : r5.2.sdo = ecx.sdo := hs4
  by_cases c6 : r6.1 = true
  swap
  · rw [if_pos (by simpa using c6)]
    intro h
    exact absurd (show (0 : Int) = 1 from h) (by decide)
  rw [if_neg (by simpa using c6)]
  have hs6 : r6.2.sdo = ecx.sdo := hs5
  by_cases c7 : r7.1 = true
  swap
  · rw [if_pos (by simpa using c7)]
    intro h
    exact absurd (show (0 : Int) = 1 from h) (by decide)
  rw [if_neg (by simpa using c7)]
  have hs7 : r7.2.sdo = ecx.sdo := hs6
  cases cg : g.1 with
  | none =>
    intro h
    exact absurd (show (0 : Int) = 1 from h) (by decide)
  | some value =>
    dsimp only
    by_cases hneg : config.epd.max_motor_speed < 0
    · rw [if_pos hneg]
      intro h
      exact absurd (show (0 : Int) = 1 from h) (by decide)
    intro _
    exact not_lt.mp hneg

/-- With a transport that never fails, the values `ca_18` and
`drive_max_current` read from CA[18] and MC[1], a `max_motor_speed` that is not
negative and current limits in order, the startup configuration returns 1. -/
theorem jsd_epd_PO2SO_config_ok (ecx : ecx_contextt) (config : jsd_slave_config_t)
    (ca_18 drive_max_current : ℚ)
    (hok : ∀ log request, (ecx.sdo log request).isSome = true)
    (hca : ∀ log, ecx.sdo log (sdo_request.get_param 0x3052 18
      jsd_sdo_data_type_t.JSD_SDO_DATA_I64) = some ca_18)
    (hmc : ∀ log, ecx.sdo log (sdo_request.get_param 0x31BC 1
      jsd_sdo_data_type_t.JSD_SDO_DATA_FLOAT) = some drive_max_current)
    (hspeed : 0 ≤ config.epd.max_motor_speed)
    (hpeak : config.epd.peak_current_limit ≤ drive_max_current)
    (hcont : config.epd.continuous_current_limit ≤ config.epd.peak_current_limit) :
    (jsd_epd_PO2SO_config ecx config).1 = 1 := by
  have e1 : (jsd_epd_config_PDO_mapping ecx).2.sdo = ecx.sdo :=
    sdo_stage_sdo _ _ _ (jsd_epd_config_PDO_mapping_stage ecx)
  have e2 : (jsd_epd_config_COE_params (jsd_epd_config_PDO_mapping ecx).2 config).2.sdo =
      ecx.sdo :=
    (sdo_stage_sdo _ _ _ (jsd_epd_config_COE_params_stage _ config)).trans e1
  have p1 := jsd_epd_config_PDO_mapping_ok ecx hok
  have p2 := (jsd_epd_config_COE_params_ok (jsd_epd_config_PDO_mapping ecx).2 config ca_18
    (by rw [e1]; exact hok) (by rw [e1]; exact hca)).1
  rw [if_neg (not_lt.mpr hspeed)] at p2
  have p3 := jsd_epd_config_LC_params_ok
    (jsd_epd_config_COE_params (jsd_epd_config_PDO_mapping ecx).2 config).2 config
    drive_max_current (by rw [e2]; exact hok) (by rw [e2]; exact hmc)
  rw [if_neg (not_lt.mpr hpeak), if_neg (not_lt.mpr hcont)] at p3
  unfold jsd_epd_PO2SO_config
  dsimp only
  rw [if_neg (by rw [p1]; decide), if_neg (by rw [p2]; decide), if_neg (by rw [p3]; decide)]


/-- The answering transport never fails. -/
theorem sdo_scenario_ok : ∀ log request, (sdo_scenario log request).isSome = true := by
  intro log request
  unfold sdo_scenario
  split <;> rfl

/-- The answering transport reads CA[18] as 4096. -/
theorem sdo_scenario_ca : ∀ log, sdo_scenario log (sdo_request.get_param 0x3052 18
    jsd_sdo_data_type_t.JSD_SDO_DATA_I64) = some 4096 := by
  intro log
  unfold sdo_scenario
  rw [if_neg (by decide)]

/-- The answering transport reads MC[1] as 20. -/
theorem sdo_scenario_mc : ∀ log, sdo_scenario log (sdo_request.get_param 0x31BC 1
    jsd_sdo_data_type_t.JSD_SDO_DATA_FLOAT) = some 20 := by
  intro log
  unfold sdo_scenario
  rw [if_pos rfl]

/-- C18 fails as stated: the scenario configuration is configured once over a
transport that answers (the call returns 1 and sets `PO2SO_success`), then
again over a transport whose transfers fail.  The second call returns 0, and
`PO2SO_success` is still true after it. -/
theorem jsd_epd_PO2SO_config_short_circuit_counterexample :
    (jsd_epd_PO2SO_config ecx_answering config_scenario).1 = 1 ∧
    (jsd_epd_PO2SO_config ecx_answering config_scenario).2.2 = config_configured ∧
    (jsd_epd_PO2SO_config ecx_failing config_configured).1 = 0 ∧
    ¬ (jsd_epd_PO2SO_config ecx_failing config_configured).2.2.PO2SO_success = false := by
  have h1 : (jsd_epd_PO2SO_config ecx_answering config_scenario).1 = 1 :=
    jsd_epd_PO2SO_config_ok ecx_answering config_scenario 4096 20 sdo_scenario_ok
      sdo_scenario_ca sdo_scenario_mc
      (by show (0 : ℚ) ≤ 1000; norm_num)
      (by show (25 / 2 : ℚ) ≤ 20; norm_num)
      (by show (10 : ℚ) ≤ 25 / 2; norm_num)
  refine ⟨h1, (jsd_epd_PO2SO_config_stage ecx_answering config_scenario).2.1 h1, rfl, ?_⟩
  intro h
  exact absurd (show true = false from h) (by decide)

/-- C18, amended: `jsd_epd_PO2SO_config` issues its SDO requests along the
schedule of the PDO mapping stage, then that of the CiA-402 stage, then that
of the letter-command stage, in order, and issues none after the first that
fails (every issued request but possibly the last succeeded).  It returns 0 or
1.  When it returns 1 the whole schedule was issued, every request succeeded
and `PO2SO_success` is set; when a request failed it returns 0; when it returns
0 the slave configuration, `PO2SO_success` included, is as it was before the
call.  Over a transport that never fails it returns 1 when the checks pass
(`max_motor_speed` not negative, continuous ≤ peak ≤ MC[1]). -/
theorem jsd_epd_PO2SO_config_short_circuit (ecx : ecx_contextt)
    (config : jsd_slave_config_t) :
    (∃ issued,
      (jsd_epd_PO2SO_config ecx config).2.1 =
        { ecx with sdo_log := ecx.sdo_log ++ issued } ∧
      issued.map sdo_request.address <+:
        jsd_epd_PDO_mapping_schedule ++ (jsd_epd_COE_schedule ++ jsd_epd_LC_schedule) ∧
      sdo_all_succeed ecx.sdo ecx.sdo_log issued.dropLast = true ∧
      ((jsd_epd_PO2SO_config ecx config).1 = 1 →
        issued.map sdo_request.address =
          jsd_epd_PDO_mapping_schedule ++ (jsd_epd_COE_schedule ++ jsd_epd_LC_schedule) ∧
        sdo_all_succeed ecx.sdo ecx.sdo_log issued = true) ∧
      (sdo_all_succeed ecx.sdo ecx.sdo_log issued = false →
        (jsd_epd_PO2SO_config ecx config).1 = 0)) ∧
    ((jsd_epd_PO2SO_config ecx config).1 = 0 ∨ (jsd_epd_PO2SO_config ecx config).1 = 1) ∧
    ((jsd_epd_PO2SO_config ecx config).1 = 1 →
      (jsd_epd_PO2SO_config ecx config).2.2 = { config with PO2SO_success := true } ∧
      (jsd_epd_PO2SO_config ecx config).2.2.PO2SO_success = true) ∧
    ((jsd_epd_PO2SO_config ecx config).1 = 0 →
      (jsd_epd_PO2SO_config ecx config).2.2 = config) ∧
    ((∀ log request, (ecx.sdo log request).isSome = true) →
      ∀ ca_18 drive_max_current : ℚ,
        (∀ log, ecx.sdo log (sdo_request.get_param 0x3052 18
          jsd_sdo_data_type_t.JSD_SDO_DATA_I64) = some ca_18) →
        (∀ log, ecx.sdo log (sdo_request.get_param 0x31BC 1
          jsd_sdo_data_type_t.JSD_SDO_DATA_FLOAT) = some drive_max_current) →
        0 ≤ config.epd.max_motor_speed →
        config.epd.peak_current_limit ≤ drive_max_current →
        config.epd.continuous_current_limit ≤ config.epd.peak_current_limit →
        (jsd_epd_PO2SO_config ecx config).1 = 1) := by
  obtain ⟨⟨issued, he, hpre, hdrop, hfull, h01⟩, hset, hkeep⟩ :=
    jsd_epd_PO2SO_config_stage ecx config
  simp only at he hfull h01
  refine ⟨⟨issued, he, hpre, hdrop, hfull, fun hf => ?_⟩, h01, fun h1 => ?_, hkeep,
    fun hok ca_18 drive_max_current hca hmc hspeed hpeak hcont =>
      jsd_epd_PO2SO_config_ok ecx config ca_18 drive_max_current hok hca hmc hspeed hpeak
        hcont⟩
  · rcases h01 with h0 | h1
    · exact h0
    · rw [(hfull h1).2] at hf
      exact absurd hf (by decide)
  · rw [hset h1]
    exact ⟨rfl, rfl⟩


/-- With a negative `max_motor_speed` the CiA-402 stage follows its schedule
without the last entry, the write of 0x6080: it returns at the check after the
read of CA[18] at the latest. -/
theorem jsd_epd_config_COE_params_negative_stage (ecx : ecx_contextt)
    (config : jsd_slave_config_t) (hneg : config.epd.max_motor_speed < 0) :
    sdo_stage ecx (jsd_epd_config_COE_params ecx config) jsd_epd_COE_schedule.dropLast := by
  unfold jsd_epd_config_COE_params
  lift_lets
  intro controlword r1 pos_opt_code r2 loop_period_ms r3 extra_cycles r4
    quick_stop_opt_code r5 motor_rated_current r6 torque_slope r7 g
  have h0 := sdo_ran_refl ecx
  by_cases c1 : r1.1 = true
  swap
  · rw [if_pos (by simpa using c1)]
    exact sdo_stage_fail_set ecx _ _ _ _ _ _ _ h0 (by decide)
  rw [if_neg (by simpa using c1)]
  have h1 := sdo_ran_set ecx _ _ _ _ _ _ h0 c1
  by_cases c2 : r2.1 = true
  swap
  · rw [if_pos (by simpa using c2)]
    exact sdo_stage_fail_set ecx _ _ _ _ _ _ _ h1 (by decide)
  rw [if_neg (by simpa using c2)]
  have h2 := sdo_ran_set ecx _ _ _ _ _ _ h1 c2
  by_cases c3 : r3.1 = true
  swap
  · rw [if_pos (by simpa using c3)]
    exact sdo_stage_fail_set ecx _ _ _ _ _ _ _ h2 (by decide)
  rw [if_neg (by simpa using c3)]
  have h3 := sdo_ran_set ecx _ _ _ _ _ _ h2 c3
  by_cases c4 : r4.1 = true
  swap
  · rw [if_pos (by simpa using c4)]
    exact sdo_stage_fail_set ecx _ _ _ _ _ _ _ h3 (by decide)
  rw [if_neg (by simpa using c4)]
  have h4 := sdo_ran_set ecx _ _ _ _ _ _ h3 c4
  by_cases c5 : r5.1 = true
  swap
  · rw [if_pos (by simpa using c5)]
    exact sdo_stage_fail_set ecx _ _ _ _ _ _ _ h4 (by decide)
  rw [if_neg (by simpa using c5)]
  have h5 := sdo_ran_set ecx _ _ _ _ _ _ h4 c5
  by_cases c6 : r6.1 = true
  swap
  · rw [if_pos (by simpa using c6)]
    exact sdo_stage_fail_set ecx _ _ _ _ _ _ _ h5 (by decide)
  rw [if_neg (by simpa using c6)]
  have h6 := sdo_ran_set ecx _ _ _ _ _ _ h5 c6
  by_cases c7 : r7.1 = true
  swap
  · rw [if_pos (by simpa using c7)]
    exact sdo_stage_fail_set ecx _ _ _ _ _ _ _ h6 (by decide)
  rw [if_neg (by simpa using c7)]
  have h7 := sdo_ran_set ecx _ _ _ _ _ _ h6 c7
  cases c8 : g.1 with
  | none => exact sdo_stage_fail_get ecx _ _ _ _ _ _ h7 (by decide)
  | some value =>
    have h8 := sdo_ran_get ecx _ _ _ _ value _ h7 c8
    dsimp only
    rw [if_pos hneg]
    exact sdo_stage_check_fail ecx _ _ _ h8 (by decide)

/-- With a negative `max_motor_speed` the CiA-402 stage returns 0. -/
theorem jsd_epd_config_COE_params_negative (ecx : ecx_contextt)
    (config : jsd_slave_config_t) (hneg : config.epd.max_motor_speed < 0) :
    (jsd_epd_config_COE_params ecx config).1 = 0 := by
  obtain ⟨_, _, _, _, _, h01⟩ := jsd_epd_config_COE_params_stage ecx config
  rcases h01 with h | h
  · exact h
  · exact absurd (jsd_epd_config_COE_params_checks ecx config h) (not_le.mpr hneg)

/-- A stage that follows a schedule without an address issued no request to that
object. -/
theorem sdo_stage_not_issued (ecx : ecx_contextt) (res : Int × ecx_contextt)
    (schedule : List sdo_address) (index : Nat) (h : sdo_stage ecx res schedule)
    (hs : ∀ a ∈ schedule, a.index ≠ index) :
    ∃ issued, res.2 = { ecx with sdo_log := ecx.sdo_log ++ issued } ∧
      ∀ r ∈ issued, r.address.index ≠ index := by
  obtain ⟨issued, he, hpre, _⟩ := h
  refine ⟨issued, he, ?_⟩
  intro r hr
  exact hs _ (hpre.subset (List.mem_map_of_mem _ hr))

/-- With a negative `max_motor_speed` the startup configuration returns 0 and
follows the schedule up to the read of CA[18]. -/
theorem jsd_epd_PO2SO_config_negative_stage (ecx : ecx_contextt)
    (config : jsd_slave_config_t) (hneg : config.epd.max_motor_speed < 0) :
    (jsd_epd_PO2SO_config ecx config).1 = 0 ∧
    sdo_stage ecx ((jsd_epd_PO2SO_config ecx config).1, (jsd_epd_PO2SO_config ecx config).2.1)
      (jsd_epd_PDO_mapping_schedule ++ jsd_epd_COE_schedule.dropLast) := by
  have s1 := jsd_epd_config_PDO_mapping_stage ecx
  have s2 := jsd_epd_config_COE_params_negative_stage (jsd_epd_config_PDO_mapping ecx).2 config
    hneg
  have h2 := jsd_epd_config_COE_params_negative (jsd_epd_config_PDO_mapping ecx).2 config hneg
  unfold jsd_epd_PO2SO_config
  dsimp only
  by_cases h1 : (jsd_epd_config_PDO_mapping ecx).1 = 0
  · rw [if_pos h1]
    exact ⟨rfl, sdo_stage_weaken _ (_, _) _ _ (sdo_stage_eq _ _ _ _ s1 h1) rfl⟩
  rw [if_neg h1, if_pos h2]
  have h1' : (jsd_epd_config_PDO_mapping ecx).1 = 1 := by
    obtain ⟨_, _, _, _, _, h01⟩ := s1
    exact h01.resolve_left h1
  have ran1 := sdo_stage_ran _ _ _ s1 h1'
  exact ⟨rfl, sdo_ran_stage _ _ (_, _) _ _ ran1 (sdo_stage_eq _ _ _ _ s2 h2)⟩

/-- A startup configuration with a negative `max_motor_speed` leaves the slave
configuration as it is, however often it runs. -/
theorem jsd_epd_PO2SO_config_negative_runs (runs : List ecx_contextt) :
    ∀ config : jsd_slave_config_t, config.epd.max_motor_speed < 0 →
      runs.foldl (fun c e => (jsd_epd_PO2SO_config e c).2.2) config = config := by
  induction runs with
  | nil => intro config _; rfl
  | cons e rest ih =>
    intro config hneg
    have h0 := (jsd_epd_PO2SO_config_negative_stage e config hneg).1
    have hc := (jsd_epd_PO2SO_config_stage e config).2.2 h0
    rw [List.foldl_cons, hc]
    exact ih config hneg

/-- C21: a negative `max_motor_speed` is rejected at startup.  For every bus
context and every configuration with `max_motor_speed < 0`,
`jsd_epd_config_COE_params` returns 0 and none of the requests it issues goes
to object 0x6080; `jsd_epd_PO2SO_config` returns 0, leaves the slave
configuration (with `PO2SO_success`) as it was and issues no request to 0x6080
either; and after `jsd_epd_init`, which clears the flag, `PO2SO_success` is
still false after any number of startup configurations, so a set flag implies
`max_motor_speed ≥ 0`. -/
theorem jsd_epd_config_COE_params_negative_speed (ecx : ecx_contextt)
    (config : jsd_slave_config_t) (h : config.epd.max_motor_speed < 0) :
    (jsd_epd_config_COE_params ecx config).1 = 0 ∧
    (∃ issued,
      (jsd_epd_config_COE_params ecx config).2 =
        { ecx with sdo_log := ecx.sdo_log ++ issued } ∧
      ∀ r ∈ issued, r.address.index ≠ 0x6080) ∧
    (jsd_epd_PO2SO_config ecx config).1 = 0 ∧
    (jsd_epd_PO2SO_config ecx config).2.2 = config ∧
    (∃ issued,
      (jsd_epd_PO2SO_config ecx config).2.1 =
        { ecx with sdo_log := ecx.sdo_log ++ issued } ∧
      ∀ r ∈ issued, r.address.index ≠ 0x6080) ∧
    ∀ (self : jsd_t) (slave : ec_slavet) (runs : List ecx_contextt),
      (runs.foldl (fun c e => (jsd_epd_PO2SO_config e c).2.2)
        (jsd_epd_init self config slave).2.2.1).PO2SO_success = false := by
  have hp := jsd_epd_PO2SO_config_negative_stage ecx config h
  refine ⟨jsd_epd_config_COE_params_negative ecx config h,
    sdo_stage_not_issued ecx _ _ 0x6080
      (jsd_epd_config_COE_params_negative_stage ecx config h) (by decide),
    hp.1, (jsd_epd_PO2SO_config_stage ecx config).2.2 hp.1,
    sdo_stage_not_issued ecx (_, _) _ 0x6080 hp.2 (by decide), ?_⟩
  intro self slave runs
  have hinit : (jsd_epd_init self config slave).2.2.1 =
      { config with PO2SO_success := false } := by
    unfold jsd_epd_init
    dsimp only
    split <;> rfl
  rw [hinit, jsd_epd_PO2SO_config_negative_runs runs { config with PO2SO_success := false } h]

/-- The scenario configuration with `max_motor_speed = -1`, over a transport
that answers every request: the CiA-402 stage and the startup configuration
return 0, and the flag stays false after `jsd_epd_init` and two startup
configurations. -/
theorem jsd_epd_config_COE_params_negative_speed_witness :
    config_negative_speed.epd.max_motor_speed < 0 ∧
    (jsd_epd_config_COE_params ecx_answering config_negative_speed).1 = 0 ∧
    (jsd_epd_PO2SO_config ecx_answering config_negative_speed).1 = 0 ∧
    (jsd_epd_PO2SO_config ecx_answering config_negative_speed).2.2 = config_negative_speed ∧
    ([ecx_answering, ecx_answering].foldl (fun c e => (jsd_epd_PO2SO_config e c).2.2)
      (jsd_epd_init slave_10000 config_negative_speed slave_descriptor_scenario).2.2.1
      ).PO2SO_success = false :=
  have hneg : config_negative_speed.epd.max_motor_speed < 0 := by
    show (-1 : ℚ) < 0
    norm_num
  have h := jsd_epd_config_COE_params_negative_speed ecx_answering config_negative_speed hneg
  ⟨hneg, h.1, h.2.2.1, h.2.2.2.1,
    h.2.2.2.2.2 slave_10000 slave_descriptor_scenario [ecx_answering, ecx_answering]⟩

/-! ## Initialization -/

/-- The mode dispatcher leaves the slave as it is for the six modes without a
handler. -/
theorem jsd_epd_process_mode_of_operation_not_implemented (self : jsd_t)
    (h : self.epd.requested_mode_of_operation ∈ jsd_epd_modes_not_implemented) :
    jsd_epd_process_mode_of_operation self = some self := by
  simp only [jsd_epd_modes_not_implemented, List.mem_cons, List.mem_nil_iff, or_false] at h
  unfold jsd_epd_process_mode_of_operation
  rcases h with h | h | h | h | h | h <;>
  · simp only [h, JSD_EPD_MODE_OF_OPERATION_DISABLED, JSD_EPD_MODE_OF_OPERATION_PROF_POS,
      JSD_EPD_MODE_OF_OPERATION_PROF_VEL, JSD_EPD_MODE_OF_OPERATION_PROF_TORQUE,
      JSD_EPD_MODE_OF_OPERATION_CSP, JSD_EPD_MODE_OF_OPERATION_CSV,
      JSD_EPD_MODE_OF_OPERATION_CST, Int.reduceEq, if_true, if_false]

/-- C23: for every requested mode among DISABLED, PROF_POS, PROF_VEL,
PROF_TORQUE, CSV and CST, `jsd_epd_process_mode_of_operation` returns the slave
as it is, the whole RxPDO unchanged; and a cycle in OPERATION_ENABLED without a
halt returns, changes of the RxPDO only the controlword, to ENABLE_OPERATION,
and copies that RxPDO to the output image. -/
theorem jsd_epd_process_mode_of_operation_reserved (self : jsd_t) (mono_now : ℚ)
    (hmode : self.epd.requested_mode_of_operation ∈ jsd_epd_modes_not_implemented) :
    jsd_epd_process_mode_of_operation self = some self ∧
    (self.epd.pub.actual_state_machine_state =
        JSD_EPD_STATE_MACHINE_STATE_OPERATION_ENABLED →
      self.epd.new_halt_command = false →
      jsd_epd_process_state_machine self mono_now =
        some { self with
          epd.pub.emcy_error_code := 0
          epd.rxpdo.controlword := JSD_EPD_STATE_MACHINE_CONTROLWORD_ENABLE_OPERATION
          epd.new_motion_command := false
          epd.new_halt_command := false } ∧
      ∃ s', jsd_epd_process self mono_now = some s' ∧
        s'.epd.rxpdo =
          { self.epd.rxpdo with
            controlword := JSD_EPD_STATE_MACHINE_CONTROLWORD_ENABLE_OPERATION } ∧
        s'.outputs = s'.epd.rxpdo ∧
        s'.epd.requested_mode_of_operation = self.epd.requested_mode_of_operation) := by
  refine ⟨jsd_epd_process_mode_of_operation_not_implemented self hmode, ?_⟩
  intro hstate hhalt
  have hsw : jsd_epd_process_state_machine_switch self mono_now =
      some { self with
        epd.pub.emcy_error_code := 0
        epd.rxpdo.controlword := JSD_EPD_STATE_MACHINE_CONTROLWORD_ENABLE_OPERATION } := by
    rw [jsd_epd_process_state_machine_switch_operation_enabled self mono_now hstate, hhalt,
      if_neg (by decide)]
    exact jsd_epd_process_mode_of_operation_not_implemented _ hmode
  have hpsm := jsd_epd_process_state_machine_of_switch self _ mono_now hsw
  exact ⟨hpsm, _, jsd_epd_process_of_state_machine self _ mono_now hpsm, rfl, rfl, rfl⟩

/-- The scenario slave with a CSP command staged and profiled torque requested:
after the cycle the targets, the offsets and the mode of operation of the RxPDO
are those staged before, and the controlword is ENABLE_OPERATION. -/
theorem jsd_epd_process_mode_of_operation_reserved_witness :
    slave_prof_torque_requested.epd.requested_mode_of_operation ∈
      jsd_epd_modes_not_implemented ∧
    jsd_epd_process_mode_of_operation slave_prof_torque_requested =
      some slave_prof_torque_requested ∧
    ∃ s', jsd_epd_process slave_prof_torque_requested 0 = some s' ∧
      s'.epd.rxpdo =
        { target_position := 123456, target_velocity := 0, target_torque := 0,
          position_offset := 10, velocity_offset := 20, torque_offset := 100,
          mode_of_operation := JSD_EPD_MODE_OF_OPERATION_CSP, max_current := 0,
          digital_outputs := 0,
          controlword := JSD_EPD_STATE_MACHINE_CONTROLWORD_ENABLE_OPERATION } := by
  have hm : slave_prof_torque_requested.epd.requested_mode_of_operation ∈
      jsd_epd_modes_not_implemented := by decide
  obtain ⟨h1, h2⟩ :=
    jsd_epd_process_mode_of_operation_reserved slave_prof_torque_requested 0 hm
  obtain ⟨_, s', hs', hrx, _, _⟩ := h2 rfl rfl
  exact ⟨hm, h1, s', hs', hrx⟩

/-! ## The fatal branches -/

/-- The mode dispatcher fails for a mode that is none of the seven. -/
theorem jsd_epd_process_mode_of_operation_unknown (self : jsd_t)
    (h : self.epd.requested_mode_of_operation ∉ jsd_epd_modes_of_operation) :
    jsd_epd_process_mode_of_operation self = none := by
  simp only [jsd_epd_modes_of_operation, List.mem_cons, List.mem_nil_iff, or_false,
    not_or] at h
  obtain ⟨h1, h2, h3, h4, h5, h6, h7⟩ := h
  unfold jsd_epd_process_mode_of_operation
  simp only [h1, h2, h3, h4, h5, h6, h7, if_false]

/-- The `switch` of the state machine fails for a state that is none of the
eight. -/
theorem jsd_epd_process_state_machine_switch_unknown (self : jsd_t) (mono_now : ℚ)
    (h : self.epd.pub.actual_state_machine_state ∉ jsd_epd_state_machine_states) :
    jsd_epd_process_state_machine_switch self mono_now = none := by
  simp only [jsd_epd_state_machine_states, List.mem_cons, List.mem_nil_iff, or_false,
    not_or] at h
  obtain ⟨h1, h2, h3, h4, h5, h6, h7, h8⟩ := h
  unfold jsd_epd_process_state_machine_switch
  simp only [h1, h2, h3, h4, h5, h6, h7, h8, if_false]

/-- The state machine fails exactly when its `switch` does. -/
theorem jsd_epd_process_state_machine_eq_none (self : jsd_t) (mono_now : ℚ) :
    jsd_epd_process_state_machine self mono_now = none ↔
      jsd_epd_process_state_machine_switch self mono_now = none := by
  unfold jsd_epd_process_state_machine
  cases jsd_epd_process_state_machine_switch self mono_now <;> simp

/-- The state machine fails exactly in the two `default` branches: the observed
state is none of the eight, or in OPERATION_ENABLED without a halt the
requested mode is none of the seven. -/
theorem jsd_epd_process_state_machine_eq_none_iff (self : jsd_t) (mono_now : ℚ) :
    jsd_epd_process_state_machine self mono_now = none ↔
      self.epd.pub.actual_state_machine_state ∉ jsd_epd_state_machine_states ∨
      (self.epd.pub.actual_state_machine_state =
          JSD_EPD_STATE_MACHINE_STATE_OPERATION_ENABLED ∧
        self.epd.new_halt_command = false ∧
        self.epd.requested_mode_of_operation ∉ jsd_epd_modes_of_operation) := by
  rw [jsd_epd_process_state_machine_eq_none]
  constructor
  · intro hnone
    by_contra hcon
    rw [not_or, not_not] at hcon
    obtain ⟨hstate, hmode⟩ := hcon
    obtain ⟨t, ht⟩ := jsd_epd_process_state_machine_switch_known self mono_now hstate
      (fun h1 h2 => by
        by_contra h3
        exact hmode ⟨h1, h2, h3⟩)
    rw [ht] at hnone
    exact absurd hnone (by simp)
  · rintro (h | ⟨h1, h2, h3⟩)
    · exact jsd_epd_process_state_machine_switch_unknown self mono_now h
    · rw [jsd_epd_process_state_machine_switch_operation_enabled self mono_now h1, h2,
        if_neg (by decide)]
      exact jsd_epd_process_mode_of_operation_unknown _ h3

/-- The state `jsd_epd_read` records is the statusword under the state mask. -/
theorem jsd_epd_read_state (JSD_EPD_NUM_DIGITAL_INPUTS : Nat) (self : jsd_t)
    (inputs : jsd_epd_txpdo_data_t) (real_now mono_now : ℚ) :
    (jsd_epd_read JSD_EPD_NUM_DIGITAL_INPUTS self inputs real_now
      mono_now).1.epd.pub.actual_state_machine_state =
      inputs.statusword &&& JSD_EPD_STATE_MACHINE_STATE_BITMASK := rfl

/-- The function `jsd_epd_process` fails exactly when the state machine does. -/
theorem jsd_epd_process_eq_none (self : jsd_t) (mono_now : ℚ) :
    jsd_epd_process self mono_now = none ↔
      jsd_epd_process_state_machine self mono_now = none := by
  unfold jsd_epd_process
  cases jsd_epd_process_state_machine self mono_now <;> simp

/-- C24: `jsd_epd_process_state_machine` ends in its fatal assertion if and only
if the observed state is none of the eight CiA-402 states or, in
OPERATION_ENABLED without a halt, the requested mode is none of the seven
modes.  A TxPDO frame whose statusword under the mask `0x006F` is none of the
eight states makes the `jsd_epd_process` that follows its `jsd_epd_read` fatal,
whatever the slave state before; and there is such a 16-bit statusword. -/
theorem jsd_epd_process_state_machine_fatal_iff (self : jsd_t) (mono_now : ℚ) :
    (jsd_epd_process_state_machine self mono_now = none ↔
      self.epd.pub.actual_state_machine_state ∉ jsd_epd_state_machine_states ∨
      (self.epd.pub.actual_state_machine_state =
          JSD_EPD_STATE_MACHINE_STATE_OPERATION_ENABLED ∧
        self.epd.new_halt_command = false ∧
        self.epd.requested_mode_of_operation ∉ jsd_epd_modes_of_operation)) ∧
    (∀ (JSD_EPD_NUM_DIGITAL_INPUTS : Nat) (inputs : jsd_epd_txpdo_data_t)
        (real_now read_mono_now : ℚ),
      inputs.statusword &&& JSD_EPD_STATE_MACHINE_STATE_BITMASK ∉
        jsd_epd_state_machine_states →
      jsd_epd_process
        (jsd_epd_read JSD_EPD_NUM_DIGITAL_INPUTS self inputs real_now read_mono_now).1
        mono_now = none) ∧
    ∃ statusword : Nat, statusword < 2 ^ 16 ∧
      statusword &&& JSD_EPD_STATE_MACHINE_STATE_BITMASK ∉ jsd_epd_state_machine_states := by
  refine ⟨jsd_epd_process_state_machine_eq_none_iff self mono_now, ?_, 0x0001, by decide,
    by decide⟩
  intro n inputs real_now read_mono_now h
  rw [jsd_epd_process_eq_none, jsd_epd_process_state_machine_eq_none_iff]
  left
  rw [jsd_epd_read_state]
  exact h

/-- The scenario slave reads a frame with statusword `0x0001`: the cycle that
follows is fatal. -/
theorem jsd_epd_process_state_machine_fatal_iff_witness :
    (txpdo_statusword 0x0001).statusword &&& JSD_EPD_STATE_MACHINE_STATE_BITMASK ∉
      jsd_epd_state_machine_states ∧
    jsd_epd_process (jsd_epd_read 6 slave_10000 (txpdo_statusword 0x0001) 0 0).1 0 = none :=
  ⟨by decide,
    (jsd_epd_process_state_machine_fatal_iff slave_10000 0).2.1 6 (txpdo_statusword 0x0001) 0 0
      (by decide)⟩


/-! ## The PDO mapping objects -/

/-- The requests `jsd_epd_config_PDO_mapping` issues are the first of its six
complete-access writes, all six when it returns 1. -/
theorem jsd_epd_config_PDO_mapping_requests (ecx : ecx_contextt) :
    ∃ issued,
      (jsd_epd_config_PDO_mapping ecx).2 = { ecx with sdo_log := ecx.sdo_log ++ issued } ∧
      issued <+:
        [ sdo_request.set_ca_param 0x1602 0x00 34 map_output_pdos_1602,
          sdo_request.set_ca_param 0x1603 0x00 10 map_output_pdos_1603,
          sdo_request.set_ca_param 0x1C12 0x00 6 map_output_RxPDO,
          sdo_request.set_ca_param 0x1A02 0x00 34 map_input_pdos_1a02,
          sdo_request.set_ca_param 0x1A03 0x00 18 map_input_pdos_1a03,
          sdo_request.set_ca_param 0x1C13 0x00 6 map_input_TxPDO ] ∧
      ((jsd_epd_config_PDO_mapping ecx).1 = 1 → issued =
        [ sdo_request.set_ca_param 0x1602 0x00 34 map_output_pdos_1602,
          sdo_request.set_ca_param 0x1603 0x00 10 map_output_pdos_1603,
          sdo_request.set_ca_param 0x1C12 0x00 6 map_output_RxPDO,
          sdo_request.set_ca_param 0x1A02 0x00 34 map_input_pdos_1a02,
          sdo_request.set_ca_param 0x1A03 0x00 18 map_input_pdos_1a03,
          sdo_request.set_ca_param 0x1C13 0x00 6 map_input_TxPDO ]) := by
  unfold jsd_epd_config_PDO_mapping
  lift_lets
  intro r1 r2 r3 r4 r5 r6
  by_cases c1 : r1.1 = true
  swap
  · rw [if_pos (by simpa using c1)]
    refine ⟨List.take 1 [ sdo_request.set_ca_param 0x1602 0x00 34 map_output_pdos_1602, sdo_request.set_ca_param 0x1603 0x00 10 map_output_pdos_1603, sdo_request.set_ca_param 0x1C12 0x00 6 map_output_RxPDO, sdo_request.set_ca_param 0x1A02 0x00 34 map_input_pdos_1a02, sdo_request.set_ca_param 0x1A03 0x00 18 map_input_pdos_1a03, sdo_request.set_ca_param 0x1C13 0x00 6 map_input_TxPDO ], ?_,
      List.take_prefix _ _, ?_⟩
    · simp [r1, r2, r3, r4, r5, r6, jsd_sdo_set_ca_param_blocking, map_output_pdos_1602,
        map_output_pdos_1603, map_output_RxPDO, map_input_pdos_1a02, map_input_pdos_1a03,
        map_input_TxPDO]
    · intro h
      exact absurd (show (0 : Int) = 1 from h) (by decide)
  rw [if_neg (by simpa using c1)]
  by_cases c2 : r2.1 = true
  swap
  · rw [if_pos (by simpa using c2)]
    refine ⟨List.take 2 [ sdo_request.set_ca_param 0x1602 0x00 34 map_output_pdos_1602, sdo_request.set_ca_param 0x1603 0x00 10 map_output_pdos_1603, sdo_request.set_ca_param 0x1C12 0x00 6 map_output_RxPDO, sdo_request.set_ca_param 0x1A02 0x00 34 map_input_pdos_1a02, sdo_request.set_ca_param 0x1A03 0x00 18 map_input_pdos_1a03, sdo_request.set_ca_param 0x1C13 0x00 6 map_input_TxPDO ], ?_,
      List.take_prefix _ _, ?_⟩
    · simp [r1, r2, r3, r4, r5, r6, jsd_sdo_set_ca_param_blocking, map_output_pdos_1602,
        map_output_pdos_1603, map_output_RxPDO, map_input_pdos_1a02, map_input_pdos_1a03,
        map_input_TxPDO]
    · intro h
      exact absurd (show (0 : Int) = 1 from h) (by decide)
  rw [if_neg (by simpa using c2)]
  by_cases c3 : r3.1 = true
  swap
  · rw [if_pos (by simpa using c3)]
    refine ⟨List.take 3 [ sdo_request.set_ca_param 0x1602 0x00 34 map_output_pdos_1602, sdo_request.set_ca_param 0x1603 0x00 10 map_output_pdos_1603, sdo_request.set_ca_param 0x1C12 0x00 6 map_output_RxPDO, sdo_request.set_ca_param 0x1A02 0x00 34 map_input_pdos_1a02, sdo_request.set_ca_param 0x1A03 0x00 18 map_input_pdos_1a03, sdo_request.set_ca_param 0x1C13 0x00 6 map_input_TxPDO ], ?_,
      List.take_prefix _ _, ?_⟩
    · simp [r1, r2, r3, r4, r5, r6, jsd_sdo_set_ca_param_blocking, map_output_pdos_1602,
        map_output_pdos_1603, map_output_RxPDO, map_input_pdos_1a02, map_input_pdos_1a03,
        map_input_TxPDO]
    · intro h
      exact absurd (show (0 : Int) = 1 from h) (by decide)
  rw [if_neg (by simpa using c3)]
  by_cases c4 : r4.1 = true
  swap
  · rw [if_pos (by simpa using c4)]
    refine ⟨List.take 4 [ sdo_request.set_ca_param 0x1602 0x00 34 map_output_pdos_1602, sdo_request.set_ca_param 0x1603 0x00 10 map_output_pdos_1603, sdo_request.set_ca_param 0x1C12 0x00 6 map_output_RxPDO, sdo_request.set_ca_param 0x1A02 0x00 34 map_input_pdos_1a02, sdo_request.set_ca_param 0x1A03 0x00 18 map_input_pdos_1a03, sdo_request.set_ca_param 0x1C13 0x00 6 map_input_TxPDO ], ?_,
      List.take_prefix _ _, ?_⟩
    · simp [r1, r2, r3, r4, r5, r6, jsd_sdo_set_ca_param_blocking, map_output_pdos_1602,
        map_output_pdos_1603, map_output_RxPDO, map_input_pdos_1a02, map_input_pdos_1a03,
        map_input_TxPDO]
    · intro h
      exact absurd (show (0 : Int) = 1 from h) (by decide)
  rw [if_neg (by simpa using c4)]
  by_cases c5 : r5.1 = true
  swap
  · rw [if_pos (by simpa using c5)]
    refine ⟨List.take 5 [ sdo_request.set_ca_param 0x1602 0x00 34 map_output_pdos_1602, sdo_request.set_ca_param 0x1603 0x00 10 map_output_pdos_1603, sdo_request.set_ca_param 0x1C12 0x00 6 map_output_RxPDO, sdo_request.set_ca_param 0x1A02 0x00 34 map_input_pdos_1a02, sdo_request.set_ca_param 0x1A03 0x00 18 map_input_pdos_1a03, sdo_request.set_ca_param 0x1C13 0x00 6 map_input_TxPDO ], ?_,
      List.take_prefix _ _, ?_⟩
    · simp [r1, r2, r3, r4, r5, r6, jsd_sdo_set_ca_param_blocking, map_output_pdos_1602,
        map_output_pdos_1603, map_output_RxPDO, map_input_pdos_1a02, map_input_pdos_1a03,
        map_input_TxPDO]
    · intro h
      exact absurd (show (0 : Int) = 1 from h) (by decide)
  rw [if_neg (by simpa using c5)]
  by_cases c6 : r6.1 = true
  swap
  · rw [if_pos (by simpa using c6)]
    refine ⟨List.take 6 [ sdo_request.set_ca_param 0x1602 0x00 34 map_output_pdos_1602, sdo_request.set_ca_param 0x1603 0x00 10 map_output_pdos_1603, sdo_request.set_ca_param 0x1C12 0x00 6 map_output_RxPDO, sdo_request.set_ca_param 0x1A02 0x00 34 map_input_pdos_1a02, sdo_request.set_ca_param 0x1A03 0x00 18 map_input_pdos_1a03, sdo_request.set_ca_param 0x1C13 0x00 6 map_input_TxPDO ], ?_,
      List.take_prefix _ _, ?_⟩
    · simp [r1, r2, r3, r4, r5, r6, jsd_sdo_set_ca_param_blocking, map_output_pdos_1602,
        map_output_pdos_1603, map_output_RxPDO, map_input_pdos_1a02, map_input_pdos_1a03,
        map_input_TxPDO]
    · intro h
      exact absurd (show (0 : Int) = 1 from h) (by decide)
  rw [if_neg (by simpa using c6)]
  refine ⟨_, ?_, List.prefix_refl _, fun _ => rfl⟩
  simp [r1, r2, r3, r4, r5, r6, jsd_sdo_set_ca_param_blocking, map_output_pdos_1602,
    map_output_pdos_1603, map_output_RxPDO, map_input_pdos_1a02, map_input_pdos_1a03,
    map_input_TxPDO]

/-- C25: the PDO mapping objects written at startup agree with the packed PDO
layouts.  The requests of `jsd_epd_config_PDO_mapping` are its six
complete-access writes in order (all six when it returns 1): 0x1602, 0x1603,
0x1C12, 0x1A02, 0x1A03, 0x1C13.  The bit lengths of the entries of 0x1602
followed by 0x1603 are the RxPDO field widths in order, 232 bits or 29 bytes;
those of 0x1A02 followed by 0x1A03 are the TxPDO field widths in order, 296
bits or 37 bytes; the leading count word of each array is its number of
entries (8, 2, 8, 4); and 0x1C12 and 0x1C13 list 0x1602, 0x1603 and 0x1A02,
0x1A03. -/
theorem jsd_epd_config_PDO_mapping_layout (ecx : ecx_contextt) :
    (∃ issued,
      (jsd_epd_config_PDO_mapping ecx).2 = { ecx with sdo_log := ecx.sdo_log ++ issued } ∧
      issued <+:
        [ sdo_request.set_ca_param 0x1602 0x00 34 map_output_pdos_1602,
          sdo_request.set_ca_param 0x1603 0x00 10 map_output_pdos_1603,
          sdo_request.set_ca_param 0x1C12 0x00 6 map_output_RxPDO,
          sdo_request.set_ca_param 0x1A02 0x00 34 map_input_pdos_1a02,
          sdo_request.set_ca_param 0x1A03 0x00 18 map_input_pdos_1a03,
          sdo_request.set_ca_param 0x1C13 0x00 6 map_input_TxPDO ] ∧
      ((jsd_epd_config_PDO_mapping ecx).1 = 1 → issued =
        [ sdo_request.set_ca_param 0x1602 0x00 34 map_output_pdos_1602,
          sdo_request.set_ca_param 0x1603 0x00 10 map_output_pdos_1603,
          sdo_request.set_ca_param 0x1C12 0x00 6 map_output_RxPDO,
          sdo_request.set_ca_param 0x1A02 0x00 34 map_input_pdos_1a02,
          sdo_request.set_ca_param 0x1A03 0x00 18 map_input_pdos_1a03,
          sdo_request.set_ca_param 0x1C13 0x00 6 map_input_TxPDO ])) ∧
    pdo_mapping_bit_lengths map_output_pdos_1602 ++
        pdo_mapping_bit_lengths map_output_pdos_1603 =
      [32, 32, 16, 32, 32, 16, 8, 16, 32, 16] ∧
    pdo_mapping_bit_lengths map_output_pdos_1602 ++
        pdo_mapping_bit_lengths map_output_pdos_1603 = jsd_epd_rxpdo_field_widths ∧
    (pdo_mapping_bit_lengths map_output_pdos_1602 ++
        pdo_mapping_bit_lengths map_output_pdos_1603).sum = 232 ∧
    232 = 8 * 29 ∧
    pdo_mapping_bit_lengths map_input_pdos_1a02 ++
        pdo_mapping_bit_lengths map_input_pdos_1a03 =
      [32, 32, 16, 8, 32, 32, 32, 16, 16, 32, 32, 16] ∧
    pdo_mapping_bit_lengths map_input_pdos_1a02 ++
        pdo_mapping_bit_lengths map_input_pdos_1a03 = jsd_epd_txpdo_field_widths ∧
    (pdo_mapping_bit_lengths map_input_pdos_1a02 ++
        pdo_mapping_bit_lengths map_input_pdos_1a03).sum = 296 ∧
    296 = 8 * 37 ∧
    (map_output_pdos_1602.head? = some 8 ∧
      (pdo_mapping_entries map_output_pdos_1602.tail).length = 8 ∧
      map_output_pdos_1602.length = 1 + 2 * 8) ∧
    (map_output_pdos_1603.head? = some 2 ∧
      (pdo_mapping_entries map_output_pdos_1603.tail).length = 2 ∧
      map_output_pdos_1603.length = 1 + 2 * 2) ∧
    (map_input_pdos_1a02.head? = some 8 ∧
      (pdo_mapping_entries map_input_pdos_1a02.tail).length = 8 ∧
      map_input_pdos_1a02.length = 1 + 2 * 8) ∧
    (map_input_pdos_1a03.head? = some 4 ∧
      (pdo_mapping_entries map_input_pdos_1a03.tail).length = 4 ∧
      map_input_pdos_1a03.length = 1 + 2 * 4) ∧
    map_output_RxPDO = [2, 0x1602, 0x1603] ∧
    map_input_TxPDO = [2, 0x1A02, 0x1A03] := by
  refine ⟨jsd_epd_config_PDO_mapping_requests ecx, ?_, ?_, ?_, ?_, ?_, ?_, ?_, ?_, ?_, ?_, ?_,
    ?_, ?_, ?_⟩ <;> decide

/-- Over a transport that answers every request the PDO mapping stage returns 1
and the log holds its six writes, in order. -/
theorem jsd_epd_config_PDO_mapping_layout_witness :
    (jsd_epd_config_PDO_mapping ecx_answering).1 = 1 ∧
    (jsd_epd_config_PDO_mapping ecx_answering).2.sdo_log =
      [ sdo_request.set_ca_param 0x1602 0x00 34 map_output_pdos_1602,
        sdo_request.set_ca_param 0x1603 0x00 10 map_output_pdos_1603,
        sdo_request.set_ca_param 0x1C12 0x00 6 map_output_RxPDO,
        sdo_request.set_ca_param 0x1A02 0x00 34 map_input_pdos_1a02,
        sdo_request.set_ca_param 0x1A03 0x00 18 map_input_pdos_1a03,
        sdo_request.set_ca_param 0x1C13 0x00 6 map_input_TxPDO ] := by
  have h1 := jsd_epd_config_PDO_mapping_ok ecx_answering sdo_scenario_ok
  obtain ⟨issued, he, _, hall⟩ := (jsd_epd_config_PDO_mapping_layout ecx_answering).1
  refine ⟨h1, ?_⟩
  rw [he, hall h1]
  rfl

/-! ## The cases of a cycle -/

/-- The mode dispatcher returns the slave as it is or with the CSP command
staged. -/
theorem jsd_epd_process_mode_of_operation_cases (self t : jsd_t)
    (h : jsd_epd_process_mode_of_operation self = some t) :
    t = self ∨ t = jsd_epd_mode_of_op_handle_csp self := by
  unfold jsd_epd_process_mode_of_operation at h
  simp only at h
  repeat' split at h
  all_goals first
    | (simp only [Option.some.injEq] at h; subst h; exact Or.inl rfl)
    | (simp only [Option.some.injEq] at h; subst h; exact Or.inr rfl)
    | exact absurd h (by simp)

/-- The FAULT loop leaves the private state as it is, or records an error code
and stages FAULT_RESET; the output image is as it was. -/
theorem jsd_epd_fault_pop_loop_epd :
    ∀ (n : Nat) (self : jsd_t),
      ((jsd_epd_fault_pop_loop n self).1.epd = self.epd ∨
        ∃ code, (jsd_epd_fault_pop_loop n self).1.epd =
          { self.epd with
            pub.emcy_error_code := code
            rxpdo.controlword := JSD_EPD_STATE_MACHINE_CONTROLWORD_FAULT_RESET }) ∧
      (jsd_epd_fault_pop_loop n self).1.outputs = self.outputs := by
  intro n
  induction n with
  | zero => intro self; exact ⟨Or.inl rfl, rfl⟩
  | succ n ih =>
    intro self
    obtain ⟨epd, q, out⟩ := self
    cases q with
    | nil => exact ⟨Or.inl rfl, rfl⟩
    | cons e rest =>
      simp only [jsd_epd_fault_pop_loop, jsd_error_cirq_pop]
      split
      · split
        · exact ⟨Or.inr ⟨_, rfl⟩, rfl⟩
        · exact ih _
      · exact ih _

/-- What the `switch` of the state machine returns, case by case. -/
theorem jsd_epd_process_state_machine_switch_cases (self t : jsd_t) (mono_now : ℚ)
    (h : jsd_epd_process_state_machine_switch self mono_now = some t) :
    (self.epd.pub.actual_state_machine_state ≠ JSD_EPD_STATE_MACHINE_STATE_FAULT ∧
      (t = self ∨
        t = { self with
              epd.rxpdo.controlword := JSD_EPD_STATE_MACHINE_CONTROLWORD_SHUTDOWN } ∨
        t = { self with
              epd.rxpdo.controlword := JSD_EPD_STATE_MACHINE_CONTROLWORD_SWITCH_ON } ∨
        t = { self with
              epd.rxpdo.controlword := JSD_EPD_STATE_MACHINE_CONTROLWORD_ENABLE_OPERATION
              epd.requested_mode_of_operation := JSD_EPD_MODE_OF_OPERATION_PROF_POS
              epd.rxpdo.mode_of_operation := JSD_EPD_MODE_OF_OPERATION_PROF_POS
              epd.new_reset := false } ∨
        t = { self with
              epd.pub.emcy_error_code := 0
              epd.new_reset := false
              epd.rxpdo.controlword := JSD_EPD_STATE_MACHINE_CONTROLWORD_QUICK_STOP
              epd.requested_mode_of_operation := JSD_EPD_MODE_OF_OPERATION_PROF_POS
              epd.rxpdo.mode_of_operation := JSD_EPD_MODE_OF_OPERATION_PROF_POS } ∨
        jsd_epd_process_mode_of_operation
          { self with
            epd.pub.emcy_error_code := 0
            epd.rxpdo.controlword := JSD_EPD_STATE_MACHINE_CONTROLWORD_ENABLE_OPERATION } =
          some t)) ∨
    (self.epd.pub.actual_state_machine_state = JSD_EPD_STATE_MACHINE_STATE_FAULT ∧
      (t = (jsd_epd_fault_pop_loop JSD_EPD_MAX_ERROR_POPS_PER_CYCLE self).1 ∨
        t = { (jsd_epd_fault_pop_loop JSD_EPD_MAX_ERROR_POPS_PER_CYCLE self).1 with
              epd.pub.emcy_error_code := 0xFFFF
              epd.rxpdo.controlword := JSD_EPD_STATE_MACHINE_CONTROLWORD_FAULT_RESET })) := by
  by_cases h_fault : self.epd.pub.actual_state_machine_state =
      JSD_EPD_STATE_MACHINE_STATE_FAULT
  · right
    refine ⟨h_fault, ?_⟩
    rw [jsd_epd_process_state_machine_switch_fault self mono_now h_fault] at h
    split at h <;>
    · simp only [Option.some.injEq] at h
      subst h
      first
        | exact Or.inl rfl
        | exact Or.inr rfl
  left
  refine ⟨h_fault, ?_⟩
  by_cases h_not_ready : self.epd.pub.actual_state_machine_state =
      JSD_EPD_STATE_MACHINE_STATE_NOT_READY_TO_SWITCH_ON
  · rw [jsd_epd_process_state_machine_switch_not_ready self mono_now h_not_ready] at h
    simp only [Option.some.injEq] at h
    exact Or.inl h.symm
  by_cases h_sod : self.epd.pub.actual_state_machine_state =
      JSD_EPD_STATE_MACHINE_STATE_SWITCH_ON_DISABLED
  · rw [jsd_epd_process_state_machine_switch_switch_on_disabled self mono_now h_sod] at h
    simp only [Option.some.injEq] at h
    exact Or.inr (Or.inl h.symm)
  by_cases h_ready : self.epd.pub.actual_state_machine_state =
      JSD_EPD_STATE_MACHINE_STATE_READY_TO_SWITCH_ON
  · rw [jsd_epd_process_state_machine_switch_ready self mono_now h_ready] at h
    simp only [Option.some.injEq] at h
    exact Or.inr (Or.inr (Or.inl h.symm))
  by_cases h_qsa : self.epd.pub.actual_state_machine_state =
      JSD_EPD_STATE_MACHINE_STATE_QUICK_STOP_ACTIVE
  · rw [jsd_epd_process_state_machine_switch_quick_stop_active self mono_now h_qsa] at h
    simp only [Option.some.injEq] at h
    exact Or.inl h.symm
  by_cases h_fra : self.epd.pub.actual_state_machine_state =
      JSD_EPD_STATE_MACHINE_STATE_FAULT_REACTION_ACTIVE
  · rw [jsd_epd_process_state_machine_switch_fault_reaction_active self mono_now h_fra] at h
    simp only [Option.some.injEq] at h
    exact Or.inl h.symm
  by_cases h_so : self.epd.pub.actual_state_machine_state =
      JSD_EPD_STATE_MACHINE_STATE_SWITCHED_ON
  · rw [jsd_epd_process_state_machine_switch_switched_on self mono_now h_so] at h
    split at h
    · simp only [Option.some.injEq] at h
      exact Or.inr (Or.inr (Or.inr (Or.inl h.symm)))
    · simp only [Option.some.injEq] at h
      exact Or.inl h.symm
  by_cases h_oe : self.epd.pub.actual_state_machine_state =
      JSD_EPD_STATE_MACHINE_STATE_OPERATION_ENABLED
  · rw [jsd_epd_process_state_machine_switch_operation_enabled self mono_now h_oe] at h
    split at h
    · simp only [Option.some.injEq] at h
      exact Or.inr (Or.inr (Or.inr (Or.inr (Or.inl h.symm))))
    · exact Or.inr (Or.inr (Or.inr (Or.inr (Or.inr h))))
  · unfold jsd_epd_process_state_machine_switch at h
    simp only [h_not_ready, h_sod, h_ready, h_qsa, h_fra, h_so, h_oe, h_fault, if_false] at h
    exact absurd h (by simp)

/-- What the state machine returns in terms of its `switch`. -/
theorem jsd_epd_process_state_machine_some (self s' : jsd_t) (mono_now : ℚ)
    (h : jsd_epd_process_state_machine self mono_now = some s') :
    ∃ t, jsd_epd_process_state_machine_switch self mono_now = some t ∧
      s' = { t with epd.new_motion_command := false, epd.new_halt_command := false } := by
  unfold jsd_epd_process_state_machine at h
  cases hsw : jsd_epd_process_state_machine_switch self mono_now with
  | none => rw [hsw] at h; exact absurd h (by simp)
  | some t =>
    rw [hsw] at h
    simp only [Option.some.injEq] at h
    exact ⟨t, rfl, h.symm⟩

/-! ## The bounded drain -/

/-- The FAULT loop with `n` pops allowed removes the least of the queue length,
`n` and the position of the first matching entry. -/
theorem jsd_epd_fault_pop_loop_slave_errors :
    ∀ (n : Nat) (self : jsd_t),
      (jsd_epd_fault_pop_loop n self).1.slave_errors =
        self.slave_errors.drop
          (min (min self.slave_errors.length n)
            (self.slave_errors.findIdx (jsd_epd_emcy_matches self.epd.fault_real_time) + 1)) := by
  intro n
  induction n with
  | zero => intro self; simp [jsd_epd_fault_pop_loop]
  | succ n ih =>
    intro self
    obtain ⟨epd, q, out⟩ := self
    cases q with
    | nil => simp [jsd_epd_fault_pop_loop, jsd_error_cirq_pop]
    | cons e rest =>
      have hrec := ih { epd := epd, slave_errors := rest, outputs := out }
      simp only at hrec
      simp only [jsd_epd_fault_pop_loop, jsd_error_cirq_pop, List.findIdx_cons,
        List.length_cons]
      by_cases h1 : e.Time > epd.fault_real_time
      · by_cases h2 : e.Etype = EC_ERR_TYPE_EMERGENCY
        · have hm : jsd_epd_emcy_matches epd.fault_real_time e = true := by
            simp [jsd_epd_emcy_matches, h1, h2]
          simp only [h1, h2, if_true, hm, cond_true]
          have : min (min (rest.length + 1) (n + 1)) (0 + 1) = 1 := by omega
          rw [this]
          rfl
        · have hm : jsd_epd_emcy_matches epd.fault_real_time e = false := by
            simp [jsd_epd_emcy_matches, h2]
          simp only [h1, h2, if_true, if_false, hm, cond_false]
          rw [hrec]
          have : min (min (rest.length + 1) (n + 1))
              (List.findIdx (jsd_epd_emcy_matches epd.fault_real_time) rest + 1 + 1) =
              min (min rest.length n)
                (List.findIdx (jsd_epd_emcy_matches epd.fault_real_time) rest + 1) + 1 := by
            omega
          rw [this]
          rfl
      · have hm : jsd_epd_emcy_matches epd.fault_real_time e = false := by
          simp [jsd_epd_emcy_matches, h1]
        simp only [h1, if_false, hm, cond_false]
        rw [hrec]
        have : min (min (rest.length + 1) (n + 1))
            (List.findIdx (jsd_epd_emcy_matches epd.fault_real_time) rest + 1 + 1) =
            min (min rest.length n)
              (List.findIdx (jsd_epd_emcy_matches epd.fault_real_time) rest + 1) + 1 := by
          omega
        rw [this]
        rfl

/-- The FAULT loop with `n` pops allowed looks at the first `n` entries of the
queue only: on the queue cut behind them it leaves the same private state and
reports the same `error_found`. -/
theorem jsd_epd_fault_pop_loop_take :
    ∀ (n : Nat) (self : jsd_t),
      (jsd_epd_fault_pop_loop n { self with slave_errors := self.slave_errors.take n }).1.epd =
        (jsd_epd_fault_pop_loop n self).1.epd ∧
      (jsd_epd_fault_pop_loop n { self with slave_errors := self.slave_errors.take n }).2 =
        (jsd_epd_fault_pop_loop n self).2 := by
  intro n
  induction n with
  | zero => intro self; exact ⟨rfl, rfl⟩
  | succ n ih =>
    intro self
    obtain ⟨epd, q, out⟩ := self
    cases q with
    | nil => exact ⟨rfl, rfl⟩
    | cons e rest =>
      have hrec := ih { epd := epd, slave_errors := rest, outputs := out }
      simp only at hrec
      simp only [List.take_succ_cons, jsd_epd_fault_pop_loop, jsd_error_cirq_pop]
      split
      · split
        · exact ⟨rfl, rfl⟩
        · exact hrec
      · exact hrec

/-- A cycle of the state machine outside FAULT leaves the emergency queue as it
is. -/
theorem jsd_epd_process_state_machine_slave_errors (self s' : jsd_t) (mono_now : ℚ)
    (hstate : self.epd.pub.actual_state_machine_state ≠ JSD_EPD_STATE_MACHINE_STATE_FAULT)
    (h : jsd_epd_process_state_machine self mono_now = some s') :
    s'.slave_errors = self.slave_errors := by
  obtain ⟨t, hsw, rfl⟩ := jsd_epd_process_state_machine_some self s' mono_now h
  show t.slave_errors = self.slave_errors
  rcases jsd_epd_process_state_machine_switch_cases self t mono_now hsw with
    ⟨_, h | h | h | h | h | h⟩ | ⟨hf, _⟩
  · rw [h]
  · rw [h]
  · rw [h]
  · rw [h]
  · rw [h]
  · rcases jsd_epd_process_mode_of_operation_cases _ _ h with h | h
    · rw [h]
    · rw [h]
      rfl
  · exact absurd hf hstate

/-- A cycle of the state machine in FAULT, in terms of the loop. -/
theorem jsd_epd_process_state_machine_fault_loop (self : jsd_t) (mono_now : ℚ)
    (hf : self.epd.pub.actual_state_machine_state = JSD_EPD_STATE_MACHINE_STATE_FAULT) :
    ∃ s', jsd_epd_process_state_machine self mono_now = some s' ∧
      s'.slave_errors =
        (jsd_epd_fault_pop_loop JSD_EPD_MAX_ERROR_POPS_PER_CYCLE self).1.slave_errors ∧
      s'.epd =
        if !(jsd_epd_fault_pop_loop JSD_EPD_MAX_ERROR_POPS_PER_CYCLE self).2 &&
          decide (mono_now > 1 +
            (jsd_epd_fault_pop_loop JSD_EPD_MAX_ERROR_POPS_PER_CYCLE self).1.epd.fault_mono_time)
        then
          { (jsd_epd_fault_pop_loop JSD_EPD_MAX_ERROR_POPS_PER_CYCLE self).1.epd with
            pub.emcy_error_code := 0xFFFF
            rxpdo.controlword := JSD_EPD_STATE_MACHINE_CONTROLWORD_FAULT_RESET
            new_motion_command := false
            new_halt_command := false }
        else
          { (jsd_epd_fault_pop_loop JSD_EPD_MAX_ERROR_POPS_PER_CYCLE self).1.epd with
            new_motion_command := false
            new_halt_command := false } := by
  have hsw := jsd_epd_process_state_machine_switch_fault self mono_now hf
  split
  · rename_i c
    rw [if_pos c] at hsw
    exact ⟨_, jsd_epd_process_state_machine_of_switch _ _ _ hsw, rfl, rfl⟩
  · rename_i c
    rw [if_neg c] at hsw
    exact ⟨_, jsd_epd_process_state_machine_of_switch _ _ _ hsw, rfl, rfl⟩

/-- C26: the drain of the emergency queue is bounded.  The count
`min (queue length, 5, position of the first matching entry)` is at most
`JSD_EPD_MAX_ERROR_POPS_PER_CYCLE`.  For every queue, a call of
`jsd_epd_process_state_machine` in FAULT returns, and the queue after it is
the queue before with exactly that many entries removed from the front; the
private state after it is the one the call leaves on the queue cut behind its
first five entries, so no entry at position 6 or later is examined; when the
first matching entry is at position 6 or later, the queue after the call is
the queue before without its first five entries.  In every observed state
other than FAULT a call that returns leaves the queue as it is. -/
theorem jsd_epd_process_state_machine_bounded_drain (self : jsd_t) (mono_now : ℚ) :
    jsd_epd_drain_count self.epd.fault_real_time self.slave_errors ≤
      JSD_EPD_MAX_ERROR_POPS_PER_CYCLE ∧
    (self.epd.pub.actual_state_machine_state = JSD_EPD_STATE_MACHINE_STATE_FAULT →
      ∃ s', jsd_epd_process_state_machine self mono_now = some s' ∧
        s'.slave_errors = self.slave_errors.drop
          (jsd_epd_drain_count self.epd.fault_real_time self.slave_errors) ∧
        s'.slave_errors.length +
            jsd_epd_drain_count self.epd.fault_real_time self.slave_errors =
          self.slave_errors.length ∧
        (jsd_epd_process_state_machine
            { self with
              slave_errors := self.slave_errors.take JSD_EPD_MAX_ERROR_POPS_PER_CYCLE }
            mono_now).map (fun s => s.epd) = some s'.epd ∧
        (JSD_EPD_MAX_ERROR_POPS_PER_CYCLE ≤
            self.slave_errors.findIdx (jsd_epd_emcy_matches self.epd.fault_real_time) →
          s'.slave_errors = self.slave_errors.drop JSD_EPD_MAX_ERROR_POPS_PER_CYCLE)) ∧
    (self.epd.pub.actual_state_machine_state ≠ JSD_EPD_STATE_MACHINE_STATE_FAULT →
      ∀ s', jsd_epd_process_state_machine self mono_now = some s' →
        s'.slave_errors = self.slave_errors) := by
  refine ⟨?_, ?_, fun hstate s' h =>
    jsd_epd_process_state_machine_slave_errors self s' mono_now hstate h⟩
  · unfold jsd_epd_drain_count
    omega
  intro hf
  obtain ⟨s', hs', hq, he⟩ := jsd_epd_process_state_machine_fault_loop self mono_now hf
  obtain ⟨t', ht', _, het⟩ := jsd_epd_process_state_machine_fault_loop
    { self with slave_errors := self.slave_errors.take JSD_EPD_MAX_ERROR_POPS_PER_CYCLE }
    mono_now hf
  obtain ⟨htake1, htake2⟩ := jsd_epd_fault_pop_loop_take JSD_EPD_MAX_ERROR_POPS_PER_CYCLE self
  have hdrop : s'.slave_errors = self.slave_errors.drop
      (jsd_epd_drain_count self.epd.fault_real_time self.slave_errors) := by
    rw [hq, jsd_epd_fault_pop_loop_slave_errors]
    rfl
  refine ⟨s', hs', hdrop, ?_, ?_, ?_⟩
  · rw [hdrop, List.length_drop]
    unfold jsd_epd_drain_count
    omega
  · rw [ht', Option.map_some']
    simp only [Option.some.injEq]
    rw [het, he, htake1, htake2]
  · intro hidx
    rw [hdrop]
    unfold jsd_epd_drain_count
    rcases Nat.le_total self.slave_errors.length JSD_EPD_MAX_ERROR_POPS_PER_CYCLE with hl | hl
    · rw [List.drop_eq_nil_of_le (by omega), List.drop_eq_nil_of_le hl]
    · congr 1
      omega

/-- The scenario with the matching emergency sixth in the queue: the cycle
removes the five entries in front of it, leaves it in the queue and stages no
FAULT_RESET before the timeout. -/
theorem jsd_epd_process_state_machine_bounded_drain_witness :
    slave_fault_emcy_sixth.epd.pub.actual_state_machine_state =
      JSD_EPD_STATE_MACHINE_STATE_FAULT ∧
    ∃ s', jsd_epd_process_state_machine slave_fault_emcy_sixth 50 = some s' ∧
      s'.slave_errors =
        [{ Time := 201 / 2, Etype := EC_ERR_TYPE_EMERGENCY, ErrorCode := 0x7380 }] := by
  have hidx : JSD_EPD_MAX_ERROR_POPS_PER_CYCLE ≤
      slave_fault_emcy_sixth.slave_errors.findIdx
        (jsd_epd_emcy_matches slave_fault_emcy_sixth.epd.fault_real_time) := by
    have h : slave_fault_emcy_sixth.slave_errors.findIdx
        (jsd_epd_emcy_matches slave_fault_emcy_sixth.epd.fault_real_time) = 5 := by
      simp [slave_fault_emcy_sixth, slave_fault_emcy, jsd_epd_emcy_matches, List.findIdx_cons,
        EC_ERR_TYPE_EMERGENCY]
      norm_num
    rw [h]
    decide
  obtain ⟨s', h1, _, _, _, h5⟩ :=
    (jsd_epd_process_state_machine_bounded_drain slave_fault_emcy_sixth 50).2.1 rfl
  exact ⟨rfl, s', h1, by rw [h5 hidx]; rfl⟩

/-! ## The reset flag across cycles -/

/-- The function `jsd_epd_read` does not touch `new_reset`. -/
theorem jsd_epd_read_new_reset (JSD_EPD_NUM_DIGITAL_INPUTS : Nat) (self : jsd_t)
    (inputs : jsd_epd_txpdo_data_t) (real_now mono_now : ℚ) :
    (jsd_epd_read JSD_EPD_NUM_DIGITAL_INPUTS self inputs real_now mono_now).1.epd.new_reset =
      self.epd.new_reset := rfl

/-- A cycle in one of the eight states other than SWITCHED_ON, without a halt
and with one of the seven modes requested when the state is
OPERATION_ENABLED, returns and keeps `new_reset`. -/
theorem jsd_epd_process_new_reset_kept (self : jsd_t) (mono_now : ℚ)
    (hstate : self.epd.pub.actual_state_machine_state ∈ jsd_epd_state_machine_states)
    (hso : self.epd.pub.actual_state_machine_state ≠ JSD_EPD_STATE_MACHINE_STATE_SWITCHED_ON)
    (hoe : self.epd.pub.actual_state_machine_state =
        JSD_EPD_STATE_MACHINE_STATE_OPERATION_ENABLED →
      self.epd.new_halt_command = false ∧
      self.epd.requested_mode_of_operation ∈ jsd_epd_modes_of_operation) :
    ∃ s', jsd_epd_process self mono_now = some s' ∧ s'.epd.new_reset = self.epd.new_reset := by
  obtain ⟨t, ht⟩ := jsd_epd_process_state_machine_switch_known self mono_now hstate
    (fun h _ => (hoe h).2)
  have hpsm := jsd_epd_process_state_machine_of_switch self t mono_now ht
  have hr := jsd_epd_process_state_machine_new_reset self _ mono_now hpsm
  rw [if_neg] at hr
  · exact ⟨_, jsd_epd_process_of_state_machine self _ mono_now hpsm, hr⟩
  · rintro (h | ⟨h, hh⟩)
    · exact hso h
    · rw [(hoe h).1] at hh
      exact absurd hh (by decide)

/-- A cycle in SWITCHED_ON with `new_reset` set returns, stages
ENABLE_OPERATION, copies it to the output image and clears the flag. -/
theorem jsd_epd_process_new_reset_consumed (self : jsd_t) (mono_now : ℚ)
    (hstate : self.epd.pub.actual_state_machine_state =
      JSD_EPD_STATE_MACHINE_STATE_SWITCHED_ON)
    (hreset : self.epd.new_reset = true) :
    ∃ s', jsd_epd_process self mono_now = some s' ∧
      s'.epd.rxpdo.controlword = JSD_EPD_STATE_MACHINE_CONTROLWORD_ENABLE_OPERATION ∧
      s'.outputs.controlword = JSD_EPD_STATE_MACHINE_CONTROLWORD_ENABLE_OPERATION ∧
      s'.epd.new_reset = false := by
  have hsw := jsd_epd_process_state_machine_switch_switched_on self mono_now hstate
  rw [hreset, if_pos rfl] at hsw
  have hpsm := jsd_epd_process_state_machine_of_switch self _ mono_now hsw
  exact ⟨_, jsd_epd_process_of_state_machine self _ mono_now hpsm, rfl, rfl, rfl⟩

/-- C27: `new_reset` stays latched across cycles.  A call of
`jsd_epd_process_state_machine` that returns leaves `new_reset` as it was in
every observed state except SWITCHED_ON and OPERATION_ENABLED with a halt
pending, where it is cleared.  A `jsd_epd_reset` accepted while the slave is
observed in OPERATION_ENABLED (no halt pending, one of the seven modes
requested) or in FAULT sets the flag; it is still set after the cycle that
follows and after cycles that read FAULT, SWITCH_ON_DISABLED and
READY_TO_SWITCH_ON, whatever the clocks; and the cycle that reads SWITCHED_ON
stages ENABLE_OPERATION and clears the flag, with no `jsd_epd_reset` called
after the fault. -/
theorem jsd_epd_process_state_machine_new_reset_latched (JSD_EPD_NUM_DIGITAL_INPUTS : Nat)
    (self : jsd_t) (now p0 : ℚ) (fault disabled ready switched : jsd_epd_txpdo_data_t)
    (r1 m1 p1 r2 m2 p2 r3 m3 p3 r4 m4 p4 : ℚ)
    (hstate : self.epd.pub.actual_state_machine_state =
        JSD_EPD_STATE_MACHINE_STATE_OPERATION_ENABLED ∨
      self.epd.pub.actual_state_machine_state = JSD_EPD_STATE_MACHINE_STATE_FAULT)
    (hhalt : self.epd.new_halt_command = false)
    (hmode : self.epd.requested_mode_of_operation ∈ jsd_epd_modes_of_operation)
    (hacc : now - self.epd.last_reset_time > JSD_EPD_RESET_DERATE_SEC)
    (h1 : fault.statusword &&& JSD_EPD_STATE_MACHINE_STATE_BITMASK =
      JSD_EPD_STATE_MACHINE_STATE_FAULT)
    (h2 : disabled.statusword &&& JSD_EPD_STATE_MACHINE_STATE_BITMASK =
      JSD_EPD_STATE_MACHINE_STATE_SWITCH_ON_DISABLED)
    (h3 : ready.statusword &&& JSD_EPD_STATE_MACHINE_STATE_BITMASK =
      JSD_EPD_STATE_MACHINE_STATE_READY_TO_SWITCH_ON)
    (h4 : switched.statusword &&& JSD_EPD_STATE_MACHINE_STATE_BITMASK =
      JSD_EPD_STATE_MACHINE_STATE_SWITCHED_ON) :
    (∀ (s s' : jsd_t) (m : ℚ), jsd_epd_process_state_machine s m = some s' →
      s'.epd.new_reset =
        if s.epd.pub.actual_state_machine_state = JSD_EPD_STATE_MACHINE_STATE_SWITCHED_ON ∨
            (s.epd.pub.actual_state_machine_state =
                JSD_EPD_STATE_MACHINE_STATE_OPERATION_ENABLED ∧
              s.epd.new_halt_command = true)
        then false else s.epd.new_reset) ∧
    (jsd_epd_reset self now).epd.new_reset = true ∧
    ∃ s0 s1 s2 s3 s4,
      jsd_epd_process (jsd_epd_reset self now) p0 = some s0 ∧
      s0.epd.new_reset = true ∧
      jsd_epd_process (jsd_epd_read JSD_EPD_NUM_DIGITAL_INPUTS s0 fault r1 m1).1 p1 =
        some s1 ∧
      s1.epd.new_reset = true ∧
      jsd_epd_process (jsd_epd_read JSD_EPD_NUM_DIGITAL_INPUTS s1 disabled r2 m2).1 p2 =
        some s2 ∧
      s2.epd.new_reset = true ∧
      jsd_epd_process (jsd_epd_read JSD_EPD_NUM_DIGITAL_INPUTS s2 ready r3 m3).1 p3 =
        some s3 ∧
      s3.epd.new_reset = true ∧
      jsd_epd_process (jsd_epd_read JSD_EPD_NUM_DIGITAL_INPUTS s3 switched r4 m4).1 p4 =
        some s4 ∧
      s4.epd.rxpdo.controlword = JSD_EPD_STATE_MACHINE_CONTROLWORD_ENABLE_OPERATION ∧
      s4.outputs.controlword = JSD_EPD_STATE_MACHINE_CONTROLWORD_ENABLE_OPERATION ∧
      s4.epd.new_reset = false := by
  have hreset : jsd_epd_reset self now =
      { self with epd.new_reset := true, epd.last_reset_time := now } :=
    jsd_epd_reset_accepted self now hacc
  refine ⟨fun s s' m h => jsd_epd_process_state_machine_new_reset s s' m h, by rw [hreset], ?_⟩
  obtain ⟨s0, e0, n0⟩ := jsd_epd_process_new_reset_kept (jsd_epd_reset self now) p0
    (by
      rw [hreset]
      rcases hstate with h | h
      · exact h ▸ (by decide)
      · exact h ▸ (by decide))
    (by
      rw [hreset]
      rcases hstate with h | h
      · exact h ▸ (by decide)
      · exact h ▸ (by decide))
    (by
      rw [hreset]
      exact fun _ => ⟨hhalt, hmode⟩)
  rw [hreset] at n0
  obtain ⟨s1, e1, n1⟩ := jsd_epd_process_new_reset_kept
    (jsd_epd_read JSD_EPD_NUM_DIGITAL_INPUTS s0 fault r1 m1).1 p1
    (by rw [jsd_epd_read_state, h1]; decide) (by rw [jsd_epd_read_state, h1]; decide)
    (by rw [jsd_epd_read_state, h1]; intro h; exact absurd h (by decide))
  rw [jsd_epd_read_new_reset, n0] at n1
  obtain ⟨s2, e2, n2⟩ := jsd_epd_process_new_reset_kept
    (jsd_epd_read JSD_EPD_NUM_DIGITAL_INPUTS s1 disabled r2 m2).1 p2
    (by rw [jsd_epd_read_state, h2]; decide) (by rw [jsd_epd_read_state, h2]; decide)
    (by rw [jsd_epd_read_state, h2]; intro h; exact absurd h (by decide))
  rw [jsd_epd_read_new_reset, n1] at n2
  obtain ⟨s3, e3, n3⟩ := jsd_epd_process_new_reset_kept
    (jsd_epd_read JSD_EPD_NUM_DIGITAL_INPUTS s2 ready r3 m3).1 p3
    (by rw [jsd_epd_read_state, h3]; decide) (by rw [jsd_epd_read_state, h3]; decide)
    (by rw [jsd_epd_read_state, h3]; intro h; exact absurd h (by decide))
  rw [jsd_epd_read_new_reset, n2] at n3
  obtain ⟨s4, e4, c4, o4, n4⟩ := jsd_epd_process_new_reset_consumed
    (jsd_epd_read JSD_EPD_NUM_DIGITAL_INPUTS s3 switched r4 m4).1 p4
    (by rw [jsd_epd_read_state, h4]) (by rw [jsd_epd_read_new_reset, n3])
  exact ⟨s0, s1, s2, s3, s4, e0, n0, e1, n1, e2, n2, e3, n3, e4, c4, o4, n4⟩

/-- The scenario slave observed in OPERATION_ENABLED: a reset at monotonic time
2 is latched, the drive faults and recovers through FAULT, SWITCH_ON_DISABLED
and READY_TO_SWITCH_ON with the flag still set, and the cycle that reads
SWITCHED_ON stages ENABLE_OPERATION. -/
theorem jsd_epd_process_state_machine_new_reset_latched_witness :
    ∃ s0 s1 s2 s3 s4,
      jsd_epd_process
        (jsd_epd_reset (slave_in_state JSD_EPD_STATE_MACHINE_STATE_OPERATION_ENABLED) 2) 2 =
        some s0 ∧
      jsd_epd_process (jsd_epd_read 6 s0 (txpdo_statusword 0x0008) 3 3).1 3 = some s1 ∧
      jsd_epd_process (jsd_epd_read 6 s1 (txpdo_statusword 0x0040) 5 5).1 5 = some s2 ∧
      s2.epd.new_reset = true ∧
      jsd_epd_process (jsd_epd_read 6 s2 (txpdo_statusword 0x0021) 6 6).1 6 = some s3 ∧
      s3.epd.new_reset = true ∧
      jsd_epd_process (jsd_epd_read 6 s3 (txpdo_statusword 0x0023) 7 7).1 7 = some s4 ∧
      s4.outputs.controlword = JSD_EPD_STATE_MACHINE_CONTROLWORD_ENABLE_OPERATION ∧
      s4.epd.new_reset = false := by
  obtain ⟨_, _, s0, s1, s2, s3, s4, e0, _, e1, _, e2, n2, e3, n3, e4, _, o4, n4⟩ :=
    jsd_epd_process_state_machine_new_reset_latched 6
      (slave_in_state JSD_EPD_STATE_MACHINE_STATE_OPERATION_ENABLED) 2 2
      (txpdo_statusword 0x0008) (txpdo_statusword 0x0040) (txpdo_statusword 0x0021)
      (txpdo_statusword 0x0023) 3 3 3 5 5 5 6 6 6 7 7 7
      (Or.inl rfl) rfl (by decide)
      (by show (2 : ℚ) - 0 > 1; norm_num)
      (by decide) (by decide) (by decide) (by decide)
  exact ⟨s0, s1, s2, s3, s4, e0, e1, e2, n2, e3, n3, e4, o4, n4⟩

/-! ## The requested mode of operation -/

/-- A cycle of the state machine keeps the requested mode or sets it to
PROF_POS, and keeps the mode of operation of the RxPDO or sets it to PROF_POS
or CSP. -/
theorem jsd_epd_process_state_machine_modes (self s' : jsd_t) (mono_now : ℚ)
    (h : jsd_epd_process_state_machine self mono_now = some s') :
    (s'.epd.requested_mode_of_operation = self.epd.requested_mode_of_operation ∨
      s'.epd.requested_mode_of_operation = JSD_EPD_MODE_OF_OPERATION_PROF_POS) ∧
    (s'.epd.rxpdo.mode_of_operation = self.epd.rxpdo.mode_of_operation ∨
      s'.epd.rxpdo.mode_of_operation = JSD_EPD_MODE_OF_OPERATION_PROF_POS ∨
      s'.epd.rxpdo.mode_of_operation = JSD_EPD_MODE_OF_OPERATION_CSP) := by
  obtain ⟨t, hsw, rfl⟩ := jsd_epd_process_state_machine_some self s' mono_now h
  show (t.epd.requested_mode_of_operation = _ ∨ t.epd.requested_mode_of_operation = _) ∧
    (t.epd.rxpdo.mode_of_operation = _ ∨ t.epd.rxpdo.mode_of_operation = _ ∨
      t.epd.rxpdo.mode_of_operation = _)
  rcases jsd_epd_process_state_machine_switch_cases self t mono_now hsw with
    ⟨_, h | h | h | h | h | h⟩ | ⟨_, h | h⟩
  · rw [h]
    exact ⟨Or.inl rfl, Or.inl rfl⟩
  · rw [h]
    exact ⟨Or.inl rfl, Or.inl rfl⟩
  · rw [h]
    exact ⟨Or.inl rfl, Or.inl rfl⟩
  · rw [h]
    exact ⟨Or.inr rfl, Or.inr (Or.inl rfl)⟩
  · rw [h]
    exact ⟨Or.inr rfl, Or.inr (Or.inl rfl)⟩
  · rcases jsd_epd_process_mode_of_operation_cases _ _ h with h | h
    · rw [h]
      exact ⟨Or.inl rfl, Or.inl rfl⟩
    · rw [h]
      exact ⟨Or.inl rfl, Or.inr (Or.inr rfl)⟩
  · rw [h]
    rcases (jsd_epd_fault_pop_loop_epd JSD_EPD_MAX_ERROR_POPS_PER_CYCLE self).1 with
      he | ⟨code, he⟩
    · rw [he]
      exact ⟨Or.inl rfl, Or.inl rfl⟩
    · rw [he]
      exact ⟨Or.inl rfl, Or.inl rfl⟩
  · rw [h]
    show ((jsd_epd_fault_pop_loop JSD_EPD_MAX_ERROR_POPS_PER_CYCLE
        self).1.epd.requested_mode_of_operation = _ ∨ _) ∧
      ((jsd_epd_fault_pop_loop JSD_EPD_MAX_ERROR_POPS_PER_CYCLE
        self).1.epd.rxpdo.mode_of_operation = _ ∨ _)
    rcases (jsd_epd_fault_pop_loop_epd JSD_EPD_MAX_ERROR_POPS_PER_CYCLE self).1 with
      he | ⟨code, he⟩
    · rw [he]
      exact ⟨Or.inl rfl, Or.inl rfl⟩
    · rw [he]
      exact ⟨Or.inl rfl, Or.inl rfl⟩

/-- What `jsd_epd_process` returns in terms of the state machine. -/
theorem jsd_epd_process_some (self s' : jsd_t) (mono_now : ℚ)
    (h : jsd_epd_process self mono_now = some s') :
    ∃ t, jsd_epd_process_state_machine self mono_now = some t ∧
      s' = { t with outputs := t.epd.rxpdo } := by
  unfold jsd_epd_process at h
  cases hsm : jsd_epd_process_state_machine self mono_now with
  | none => rw [hsm] at h; exact absurd h (by simp)
  | some t =>
    rw [hsm] at h
    simp only [Option.some.injEq] at h
    exact ⟨t, rfl, h.symm⟩

/-- A public call keeps the requested mode or sets it to PROF_POS or CSP, and
keeps the mode of operation of the RxPDO or sets it to PROF_POS or CSP. -/
theorem jsd_epd_call_run_modes (JSD_EPD_NUM_DIGITAL_INPUTS JSD_EPD_NUM_DIGITAL_OUTPUTS : Nat)
    (self s' : jsd_t) (call : jsd_epd_call)
    (h : jsd_epd_call_run JSD_EPD_NUM_DIGITAL_INPUTS JSD_EPD_NUM_DIGITAL_OUTPUTS self call =
      some s') :
    (s'.epd.requested_mode_of_operation = self.epd.requested_mode_of_operation ∨
      s'.epd.requested_mode_of_operation = JSD_EPD_MODE_OF_OPERATION_PROF_POS ∨
      s'.epd.requested_mode_of_operation = JSD_EPD_MODE_OF_OPERATION_CSP) ∧
    (s'.epd.rxpdo.mode_of_operation = self.epd.rxpdo.mode_of_operation ∨
      s'.epd.rxpdo.mode_of_operation = JSD_EPD_MODE_OF_OPERATION_PROF_POS ∨
      s'.epd.rxpdo.mode_of_operation = JSD_EPD_MODE_OF_OPERATION_CSP) := by
  cases call with
  | read inputs real_now mono_now =>
    simp only [jsd_epd_call_run, Option.some.injEq] at h
    subst h
    exact ⟨Or.inl rfl, Or.inl rfl⟩
  | process mono_now =>
    simp only [jsd_epd_call_run] at h
    obtain ⟨t, ht, rfl⟩ := jsd_epd_process_some self s' mono_now h
    obtain ⟨a, b⟩ := jsd_epd_process_state_machine_modes self t mono_now ht
    refine ⟨?_, b⟩
    rcases a with a | a
    · exact Or.inl a
    · exact Or.inr (Or.inl a)
  | reset now =>
    simp only [jsd_epd_call_run, Option.some.injEq] at h
    subst h
    unfold jsd_epd_reset
    split <;> exact ⟨Or.inl rfl, Or.inl rfl⟩
  | halt =>
    simp only [jsd_epd_call_run, Option.some.injEq] at h
    subst h
    exact ⟨Or.inl rfl, Or.inl rfl⟩
  | set_digital_output index output =>
    simp only [jsd_epd_call_run] at h
    unfold jsd_epd_set_digital_output at h
    split at h
    · split at h <;>
      · simp only [Option.some.injEq] at h
        subst h
        exact ⟨Or.inl rfl, Or.inl rfl⟩
    · exact absurd h (by simp)
  | set_peak_current peak_current =>
    simp only [jsd_epd_call_run, Option.some.injEq] at h
    subst h
    exact ⟨Or.inl rfl, Or.inl rfl⟩
  | set_motion_command_csp motion_command =>
    simp only [jsd_epd_call_run, Option.some.injEq] at h
    subst h
    exact ⟨Or.inr (Or.inr rfl), Or.inl rfl⟩

/-- A sequence of public calls keeps the requested mode or leaves it at
PROF_POS or CSP, and likewise the mode of operation of the RxPDO. -/
theorem jsd_epd_calls_run_modes (JSD_EPD_NUM_DIGITAL_INPUTS JSD_EPD_NUM_DIGITAL_OUTPUTS : Nat)
    (calls : List jsd_epd_call) :
    ∀ (self s' : jsd_t),
      jsd_epd_calls_run JSD_EPD_NUM_DIGITAL_INPUTS JSD_EPD_NUM_DIGITAL_OUTPUTS self calls =
        some s' →
      (s'.epd.requested_mode_of_operation = self.epd.requested_mode_of_operation ∨
        s'.epd.requested_mode_of_operation = JSD_EPD_MODE_OF_OPERATION_PROF_POS ∨
        s'.epd.requested_mode_of_operation = JSD_EPD_MODE_OF_OPERATION_CSP) ∧
      (s'.epd.rxpdo.mode_of_operation = self.epd.rxpdo.mode_of_operation ∨
        s'.epd.rxpdo.mode_of_operation = JSD_EPD_MODE_OF_OPERATION_PROF_POS ∨
        s'.epd.rxpdo.mode_of_operation = JSD_EPD_MODE_OF_OPERATION_CSP) := by
  induction calls with
  | nil =>
    intro self s' h
    simp only [jsd_epd_calls_run, Option.some.injEq] at h
    subst h
    exact ⟨Or.inl rfl, Or.inl rfl⟩
  | cons call rest ih =>
    intro self s' h
    simp only [jsd_epd_calls_run] at h
    cases hc : jsd_epd_call_run JSD_EPD_NUM_DIGITAL_INPUTS JSD_EPD_NUM_DIGITAL_OUTPUTS self
        call with
    | none => rw [hc] at h; exact absurd h (by simp)
    | some t =>
      rw [hc] at h
      obtain ⟨a1, b1⟩ := jsd_epd_call_run_modes _ _ self t call hc
      obtain ⟨a2, b2⟩ := ih t s' h
      constructor
      · rcases a2 with a2 | a2
        · rw [a2]
          exact a1
        · exact Or.inr a2
      · rcases b2 with b2 | b2
        · rw [b2]
          exact b1
        · exact Or.inr b2

/-- C28: the requested mode stays among DISABLED, PROF_POS and CSP.  From a
slave whose requested mode is DISABLED, after every sequence of calls of
`read`, `process`, `reset`, `halt`, `set_digital_output`, `set_peak_current`
and `set_motion_command_csp` that returns, the requested mode is DISABLED,
PROF_POS or CSP; so the mode dispatcher returns on the slave reached, a cycle
on it is fatal only when the observed state is none of the eight, and the mode
of operation of the RxPDO is, after the sequence and after any further call,
what it was before or PROF_POS or CSP. -/
theorem jsd_epd_requested_mode_invariant
    (JSD_EPD_NUM_DIGITAL_INPUTS JSD_EPD_NUM_DIGITAL_OUTPUTS : Nat)
    (calls : List jsd_epd_call) (self s' : jsd_t)
    (h0 : self.epd.requested_mode_of_operation = JSD_EPD_MODE_OF_OPERATION_DISABLED)
    (hrun : jsd_epd_calls_run JSD_EPD_NUM_DIGITAL_INPUTS JSD_EPD_NUM_DIGITAL_OUTPUTS self
      calls = some s') :
    s'.epd.requested_mode_of_operation ∈ jsd_epd_modes_requested ∧
    (jsd_epd_process_mode_of_operation s').isSome = true ∧
    (∀ mono_now, jsd_epd_process s' mono_now = none ↔
      s'.epd.pub.actual_state_machine_state ∉ jsd_epd_state_machine_states) ∧
    (s'.epd.rxpdo.mode_of_operation = self.epd.rxpdo.mode_of_operation ∨
      s'.epd.rxpdo.mode_of_operation = JSD_EPD_MODE_OF_OPERATION_PROF_POS ∨
      s'.epd.rxpdo.mode_of_operation = JSD_EPD_MODE_OF_OPERATION_CSP) ∧
    ∀ (call : jsd_epd_call) (s'' : jsd_t),
      jsd_epd_call_run JSD_EPD_NUM_DIGITAL_INPUTS JSD_EPD_NUM_DIGITAL_OUTPUTS s' call =
        some s'' →
      s''.epd.rxpdo.mode_of_operation = s'.epd.rxpdo.mode_of_operation ∨
      s''.epd.rxpdo.mode_of_operation = JSD_EPD_MODE_OF_OPERATION_PROF_POS ∨
      s''.epd.rxpdo.mode_of_operation = JSD_EPD_MODE_OF_OPERATION_CSP := by
  obtain ⟨a, b⟩ := jsd_epd_calls_run_modes _ _ calls self s' hrun
  have hreq : s'.epd.requested_mode_of_operation ∈ jsd_epd_modes_requested := by
    simp only [jsd_epd_modes_requested, List.mem_cons, List.mem_nil_iff, or_false]
    rcases a with a | a | a
    · exact Or.inl (a.trans h0)
    · exact Or.inr (Or.inl a)
    · exact Or.inr (Or.inr a)
  have hknown : s'.epd.requested_mode_of_operation ∈ jsd_epd_modes_of_operation := by
    simp only [jsd_epd_modes_requested, List.mem_cons, List.mem_nil_iff, or_false] at hreq
    simp only [jsd_epd_modes_of_operation, List.mem_cons, List.mem_nil_iff, or_false]
    rcases hreq with h | h | h
    · exact Or.inl h
    · exact Or.inr (Or.inl h)
    · exact Or.inr (Or.inr (Or.inr (Or.inr (Or.inl h))))
  refine ⟨hreq, ?_, ?_, b, fun call s'' h => (jsd_epd_call_run_modes _ _ s' s'' call h).2⟩
  · obtain ⟨t, ht⟩ := jsd_epd_process_mode_of_operation_known s' hknown
    rw [ht]
    rfl
  · intro mono_now
    rw [jsd_epd_process_eq_none, jsd_epd_process_state_machine_eq_none_iff]
    constructor
    · rintro (h | ⟨_, _, h⟩)
      · exact h
      · exact absurd hknown h
    · exact fun h => Or.inl h

/-- The scenario slave observed in OPERATION_ENABLED, requested mode DISABLED:
after a CSP command, a cycle, a halt, a digital output and another cycle the
sequence has returned and the requested mode is among DISABLED, PROF_POS and
CSP. -/
theorem jsd_epd_requested_mode_invariant_witness :
    ∃ s', jsd_epd_calls_run 6 6 (slave_in_state JSD_EPD_STATE_MACHINE_STATE_OPERATION_ENABLED)
        [ jsd_epd_call.set_motion_command_csp csp_command_scenario,
          jsd_epd_call.process 0,
          jsd_epd_call.halt,
          jsd_epd_call.set_digital_output 0 1,
          jsd_epd_call.process 0 ] = some s' ∧
      s'.epd.requested_mode_of_operation ∈ jsd_epd_modes_requested ∧
      (jsd_epd_process_mode_of_operation s').isSome = true := by
  have hsome : (jsd_epd_calls_run 6 6
      (slave_in_state JSD_EPD_STATE_MACHINE_STATE_OPERATION_ENABLED)
      [ jsd_epd_call.set_motion_command_csp csp_command_scenario,
        jsd_epd_call.process 0,
        jsd_epd_call.halt,
        jsd_epd_call.set_digital_output 0 1,
        jsd_epd_call.process 0 ]).isSome = true := rfl
  obtain ⟨s', hs'⟩ := Option.isSome_iff_exists.mp hsome
  have h := jsd_epd_requested_mode_invariant 6 6 _
    (slave_in_state JSD_EPD_STATE_MACHINE_STATE_OPERATION_ENABLED) s' rfl hs'
  exact ⟨s', hs', h.1, h.2.1⟩

end JsdEpd
